import Mathlib

/-!
Linux ring and TZSP capture formats of libtrace: ring geometry, ring mapping, stream
start and close, statistics, reading and writing ring frames, TZSP datagrams.

Shallow embedding of `lib/format_linux_ring.c`, `lib/format_linux_common.c` and
`lib/format_tzsplive.c`.

Conventions of the embedding.

* `unsigned int` / `uint32_t` values are natural numbers reduced modulo `2 ^ 32`
  after every operation that can leave the range (`u32`).
* A C function that can stop the process (a failing `assert`, an integer division by
  zero, an access outside a buffer) or loop forever returns `Except Fault _`; `Except.ok`
  is a normal return.
* The two `while` loops of `calculate_buffers` act on one 32-bit variable that is only
  shifted.  After 32 shifts the variable is `0` and stays `0`, so a loop that has not left
  after `loopBound` rounds never leaves: the bounded recursion reports
  `Fault.nontermination` exactly then.
* System calls are answered by an explicit environment (oracle) and the calls that matter
  are recorded in a log carried by the state.
* Constants that live in libtrace headers which are not part of the translated files are
  fields of `Consts`; `libtrace_consts` holds the values of the libtrace headers.
* Constants of the Linux ABI (`linux/if_packet.h`, `errno.h`, `sys/mman.h`) are plain
  definitions.
-/

namespace Libtrace

/-! ## Machine arithmetic and faults -/

/-- Reduction of a natural number to the range of `unsigned int` (32 bits). -/
def u32 (n : Nat) : Nat := n % 2 ^ 32

/-- Conversion of a (possibly negative) C integer to `unsigned int`. -/
def u32_of_int (i : Int) : Nat := (i % 2 ^ 32).toNat

/-- The ways a C function can fail to return. -/
inductive Fault where
  /-- An `assert` at the given source line failed and the process was stopped. -/
  | assertion_failed (line : Nat)
  /-- Integer division or remainder by zero. -/
  | division_by_zero
  /-- The loop never leaves. -/
  | nontermination
  /-- A null pointer was dereferenced. -/
  | null_dereference
  /-- Memory past the end of a buffer was read or written. -/
  | buffer_overflow
  deriving DecidableEq, Repr

/-- Rounds after which a loop over a shifted 32-bit variable can no longer leave. -/
def loopBound : Nat := 40

/-! ## Constants -/

/-- Constants of the libtrace headers (`libtrace.h`, `format_linux_common.h`) used by the
translated functions. -/
structure Consts where
  /-- Maximum size of a packet buffer, `LIBTRACE_PACKET_BUFSIZE`. -/
  LIBTRACE_PACKET_BUFSIZE : Nat
  /-- Minimum number of frames the ring has to hold, `CONF_RING_FRAMES`. -/
  CONF_RING_FRAMES : Nat
  /-- Initial order of the largest ring block, `MAX_ORDER`. -/
  MAX_ORDER : Nat
  /-- Number of submitted frames after which the transmit ring is flushed,
  `TX_MAX_QUEUE`. -/
  TX_MAX_QUEUE : Nat
  /-- Value a read returns when a message is pending instead of a packet,
  `READ_MESSAGE`. -/
  READ_MESSAGE : Int
  /-- Type of a padding tag of a TZSP datagram, `TZSP_TAG_PADDING` of format_tzsplive.h. -/
  TZSP_TAG_PADDING : Nat
  /-- Type of the tag that ends the tags of a TZSP datagram, `TZSP_TAG_END` of
  format_tzsplive.h. -/
  TZSP_TAG_END : Nat
  deriving DecidableEq, Repr

/-- The values the libtrace headers give: `LIBTRACE_PACKET_BUFSIZE` is 65536,
`CONF_RING_FRAMES` is `0x100`, `MAX_ORDER` is 10, `TX_MAX_QUEUE` is 10, `READ_MESSAGE` is
-2, `TZSP_TAG_PADDING` is 0 and `TZSP_TAG_END` is 1. -/
def libtrace_consts : Consts :=
  { LIBTRACE_PACKET_BUFSIZE := 65536, CONF_RING_FRAMES := 256, MAX_ORDER := 10,
    TX_MAX_QUEUE := 10, READ_MESSAGE := -2, TZSP_TAG_PADDING := 0, TZSP_TAG_END := 1 }

/-- Alignment of ring frame headers, `TPACKET_ALIGNMENT` of `linux/if_packet.h`. -/
def TPACKET_ALIGNMENT : Nat := 16

/-- The macro `TPACKET_ALIGN(x)`: `x` rounded up to a multiple of `TPACKET_ALIGNMENT`. -/
def TPACKET_ALIGN (x : Nat) : Nat :=
  (x + TPACKET_ALIGNMENT - 1) / TPACKET_ALIGNMENT * TPACKET_ALIGNMENT

/-- Size in bytes of `struct tpacket2_hdr`. -/
def sizeof_tpacket2_hdr : Nat := 32

/-- Size in bytes of `struct sockaddr_ll`. -/
def sizeof_sockaddr_ll : Nat := 20

/-- The macro `TPACKET2_HDRLEN` of `linux/if_packet.h`. -/
def TPACKET2_HDRLEN : Nat := TPACKET_ALIGN sizeof_tpacket2_hdr + sizeof_sockaddr_ll

/-- The errno value `ENOMEM`. -/
def ENOMEM : Nat := 12

/-- The null pointer. -/
def NULL : Nat := 0

/-- The pointer `MAP_FAILED` of `sys/mman.h`, `(void *) -1` on a 64-bit address space. -/
def MAP_FAILED : Nat := 2 ^ 64 - 1

/-! ## Ring geometry: `calculate_buffers` -/

/-- The ring request `struct tpacket_req`. -/
structure tpacket_req where
  tp_block_size : Nat
  tp_block_nr : Nat
  tp_frame_size : Nat
  tp_frame_nr : Nat
  deriving DecidableEq, Repr

/-- Value of `max_frame` before the frame size loop (lines 97-109): the MTU plus the
aligned frame header when the MTU query succeeds (`some mtu`), the packet buffer size when
it fails (`none`), capped at the packet buffer size. -/
def max_frame (c : Consts) (ifr_mtu : Option Int) : Nat :=
  let m := match ifr_mtu with
    | some mtu => u32_of_int (mtu + (TPACKET_ALIGN TPACKET2_HDRLEN : Nat))
    | none => u32 c.LIBTRACE_PACKET_BUFSIZE
  if m > c.LIBTRACE_PACKET_BUFSIZE then u32 c.LIBTRACE_PACKET_BUFSIZE else m

/-- The loop of lines 113-116:
`while (fs < max_frame && fs < LIBTRACE_PACKET_BUFSIZE) fs <<= 1;`. -/
def frame_size_loop (c : Consts) (mf : Nat) : Nat → Nat → Except Fault Nat
  | 0, _ => .error .nontermination
  | fuel + 1, fs =>
    if fs < mf ∧ fs < c.LIBTRACE_PACKET_BUFSIZE then
      frame_size_loop c mf fuel (u32 (fs * 2))
    else .ok fs

/-- Lines 112-118: the value of `req->tp_frame_size`, which no later statement changes. -/
def calc_frame_size (c : Consts) (pagesize : Nat) (ifr_mtu : Option Int) :
    Except Fault Nat := do
  let fs ← frame_size_loop c (max_frame c ifr_mtu) loopBound (u32 pagesize)
  if fs > c.LIBTRACE_PACKET_BUFSIZE then pure (fs / 2) else pure fs

/-- The loop of lines 122-124:
`do { bs >>= 1; } while (CONF_RING_FRAMES * tp_frame_size <= bs);`
with `target` the 32-bit product. -/
def block_size_loop (target : Nat) : Nat → Nat → Except Fault Nat
  | 0, _ => .error .nontermination
  | fuel + 1, bs =>
    if target ≤ bs / 2 then block_size_loop target fuel (bs / 2) else .ok (bs / 2)

/-- Lines 121-125: the value of `req->tp_block_size`, from the frame size `fs`. -/
def calc_block_size (c : Consts) (pagesize fs max_order : Nat) : Except Fault Nat := do
  let bs ← block_size_loop (u32 (c.CONF_RING_FRAMES * fs)) loopBound
    (u32 (pagesize * 2 ^ max_order))
  pure (u32 (bs * 2))

/-- Lines 128-131: the value of `req->tp_block_nr`, from frame size and block size. -/
def calc_block_nr (c : Consts) (fs bs : Nat) : Except Fault Nat :=
  if bs = 0 then .error .division_by_zero
  else
    let nr := u32 (c.CONF_RING_FRAMES * fs) / bs
    if u32 (c.CONF_RING_FRAMES * fs) % bs ≠ 0 then pure (u32 (nr + 1)) else pure nr

/-- Lines 135-136: the value of `req->tp_frame_nr`. -/
def calc_frame_nr (fs bs nr : Nat) : Except Fault Nat :=
  if fs = 0 then .error .division_by_zero else pure (u32 (nr * (bs / fs)))

/-- The five closing assertions of lines 148-152, in source order. -/
def check_asserts (r : tpacket_req) : Except Fault tpacket_req :=
  if r.tp_block_size = 0 then .error (.assertion_failed 148)
  else if r.tp_block_nr = 0 then .error (.assertion_failed 149)
  else if r.tp_frame_size = 0 then .error (.assertion_failed 150)
  else if r.tp_frame_nr = 0 then .error (.assertion_failed 151)
  else if r.tp_block_size % r.tp_frame_size ≠ 0 then .error (.assertion_failed 152)
  else .ok r

/-- The function `calculate_buffers` (format_linux_ring.c, lines 93-153).  `pagesize` is
the result of `getpagesize()`, `ifr_mtu` the answer to the `SIOCGIFMTU` query (`none`
when the ioctl fails).  The result is the request written through `req`. -/
def calculate_buffers (c : Consts) (pagesize : Nat) (ifr_mtu : Option Int)
    (max_order : Nat) : Except Fault tpacket_req := do
  let fs ← calc_frame_size c pagesize ifr_mtu
  let bs ← calc_block_size c pagesize fs max_order
  let nr ← calc_block_nr c fs bs
  let fnr ← calc_frame_nr fs bs nr
  check_asserts
    { tp_block_size := bs, tp_block_nr := nr, tp_frame_size := fs, tp_frame_nr := fnr }

/-! ## System calls and the state of a capture -/

/-- Result of a system call that either succeeds or fails with an errno value. -/
inductive SyscallResult where
  | success
  | failure (errno : Nat)
  deriving DecidableEq, Repr

/-- Socket options set by the translated functions. -/
inductive SockOpt where
  | PACKET_VERSION
  /-- `PACKET_RX_RING` or `PACKET_TX_RING` (the `ring_type`), with the request passed. -/
  | PACKET_RING (ring_type : Nat) (req : tpacket_req)
  | PACKET_ADD_MEMBERSHIP
  | SO_TIMESTAMPNS
  | SO_TIMESTAMP
  | SO_ATTACH_FILTER
  | PACKET_FANOUT (fanout_opt : Nat)
  deriving DecidableEq, Repr

/-- System calls recorded in the call log, with the arguments that matter. -/
inductive Syscall where
  | socket
  | bind (fd : Int) (ifindex : Nat)
  | setsockopt (fd : Int) (opt : SockOpt)
  | mmap (length : Nat) (fd : Int)
  | munmap (addr : Nat) (length : Nat)
  | close (fd : Int)
  | free (addr : Nat)
  /-- The call `getsockopt(fd, SOL_PACKET, PACKET_STATISTICS, ...)`. -/
  | getsockopt_statistics (fd : Int)
  /-- The call `poll` on the descriptor `fd` (and on the message queue descriptor when
  `with_queue` is set) with the given timeout in milliseconds. -/
  | poll (fd : Int) (with_queue : Bool) (timeout : Int)
  /-- A zero-length `sendto` on `fd`; `dontwait` tells whether `MSG_DONTWAIT` is set. -/
  | sendto (fd : Int) (dontwait : Bool)
  | malloc (size : Nat)
  /-- The call `recv(fd, buffer, size, MSG_DONTWAIT)`. -/
  | recv (fd : Int) (size : Nat)
  /-- A `sendto` on `fd` of the given bytes. -/
  | sendto_bytes (fd : Int) (bytes : List Nat)
  deriving DecidableEq, Repr

/-- The socket option `PACKET_RX_RING`. -/
def PACKET_RX_RING : Nat := 5

/-- The socket option `PACKET_TX_RING`. -/
def PACKET_TX_RING : Nat := 13

/-- One capture queue, `struct linux_per_stream_t`. -/
structure linux_per_stream_t where
  fd : Int
  rx_ring : Nat
  rxring_offset : Int
  deriving DecidableEq, Repr

/-- Modelled from the spec: the initialiser macro `ZERO_LINUX_STREAM` of
`format_linux_common.h`.  A stream starts "with all fields zeroed/sentineled": the
descriptor is the invalid sentinel `-1`, the ring base address is the not-mapped sentinel,
the read cursor is `0`. -/
def ZERO_LINUX_STREAM : linux_per_stream_t :=
  { fd := -1, rx_ring := MAP_FAILED, rxring_offset := 0 }

/-- Error kinds passed to `trace_set_err`: the libtrace kinds used here, or an errno
value. -/
inductive trace_err_t where
  | TRACE_ERR_INIT_FAILED
  | TRACE_ERR_BAD_FILTER
  | TRACE_ERR_BAD_FORMAT
  | TRACE_ERR_BAD_PACKET
  | TRACE_ERR_BAD_IO
  | TRACE_ERR_UNSUPPORTED
  | TRACE_ERR_OUT_OF_MEMORY
  | errno (e : Nat)
  deriving DecidableEq, Repr

/-- A filter object; only its `flag` (1 once compiled) is looked at. -/
structure libtrace_filter_t where
  flag : Int
  deriving DecidableEq, Repr

/-- Timestamp mode negotiated for the socket. -/
inductive timestamptype_t where
  | TS_NONE
  | TS_TIMEVAL
  | TS_TIMESPEC
  deriving DecidableEq, Repr

/-- Kernel counters, `struct tpacket_stats`. -/
structure tpacket_stats where
  tp_packets : Nat
  tp_drops : Nat
  deriving DecidableEq, Repr

/-- The format data shared by all streams of a trace, `struct linux_format_data_t`. -/
structure linux_format_data_t where
  per_stream : List linux_per_stream_t
  promisc : Int
  snaplen : Int
  filter : Option libtrace_filter_t
  stats_valid : Int
  stats : tpacket_stats
  max_order : Nat
  req : tpacket_req
  timestamptype : timestamptype_t
  fanout_flags : Nat
  fanout_group : Nat
  deriving DecidableEq, Repr

/-- The fields of `libtrace_t` that the translated functions use, other than
`format_data`, which is passed on its own. -/
structure libtrace_t where
  uridata : String
  /-- Last error recorded on the trace, if any: kind and message. -/
  err : Option (trace_err_t × String)
  started : Bool
  perpkt_thread_count : Nat
  deriving DecidableEq, Repr

/-- Modelled from the spec: `trace_set_err` of `trace.c`.  "Every failure is reported
through a (kind, human-readable message) pair attached to the capture handle." -/
def trace_set_err (libtrace : libtrace_t) (kind : trace_err_t) (msg : String) : libtrace_t :=
  { libtrace with err := some (kind, msg) }

/-! ## Closing a stream -/

/-- The function `linuxcommon_close_input_stream` (format_linux_common.c, lines 216-227).
`req` is `FORMAT_DATA->req`.  Returns the stream afterwards and the system calls made. -/
def linuxcommon_close_input_stream (req : tpacket_req) (stream : linux_per_stream_t) :
    linux_per_stream_t × List Syscall :=
  let calls1 := if stream.fd ≠ -1 then [Syscall.close stream.fd] else []
  let calls2 :=
    if stream.rx_ring ≠ MAP_FAILED then
      [Syscall.munmap stream.rx_ring (u32 (req.tp_block_size * req.tp_block_nr))]
    else []
  ({ stream with fd := -1, rx_ring := MAP_FAILED }, calls1 ++ calls2)

/-! ## Ring allocation: `socket_to_packetmmap` -/

/-- Answers of the operating system to `socket_to_packetmmap`. -/
structure RingKernel where
  /-- Result of `getpagesize()`. -/
  pagesize : Nat
  /-- Answer to the `SIOCGIFMTU` query, `none` when the ioctl fails. -/
  ifr_mtu : Option Int
  /-- Answer to `setsockopt(PACKET_VERSION)`. -/
  version : SyscallResult
  /-- Answer to the `i`-th ring allocation request of this call, counted from 0. -/
  ring : Nat → SyscallResult
  /-- Pointer returned by `mmap`, `MAP_FAILED` when mapping fails. -/
  mmap : Nat

/-- How the allocation loop of `socket_to_packetmmap` (lines 179-203) ends. -/
inductive RingLoopExit where
  /-- The kernel accepted a request: `break`. -/
  | allocated
  /-- `*max_order` reached 0: return -1 with "Cannot allocate enough memory ...". -/
  | out_of_memory
  /-- A request failed with an errno other than `ENOMEM`: return -1. -/
  | rejected
  /-- The process stopped inside `calculate_buffers`. -/
  | fault (f : Fault)
  deriving DecidableEq, Repr

/-- State when the allocation loop ends. -/
structure RingLoopResult where
  exit : RingLoopExit
  /-- Value of `*req`. -/
  req : tpacket_req
  /-- Value of `*max_order`. -/
  max_order : Nat
  /-- Ring allocation requests issued, in order. -/
  calls : List Syscall
  deriving DecidableEq, Repr

/-- The `while(1)` loop of lines 179-203.  The first argument is the current value of
`*max_order`, which only this loop changes; `i` counts the requests already issued. -/
def ring_loop (c : Consts) (k : RingKernel) (ring_type : Nat) (fd : Int) :
    Nat → Nat → tpacket_req → List Syscall → RingLoopResult
  | 0, _, req, calls =>
    { exit := .out_of_memory, req := req, max_order := 0, calls := calls }
  | n + 1, i, req, calls =>
    match calculate_buffers c k.pagesize k.ifr_mtu (n + 1) with
    | .error f => { exit := .fault f, req := req, max_order := n + 1, calls := calls }
    | .ok r =>
      let calls1 := calls ++ [Syscall.setsockopt fd (.PACKET_RING ring_type r)]
      match k.ring i with
      | .success => { exit := .allocated, req := r, max_order := n + 1, calls := calls1 }
      | .failure e =>
        if e = ENOMEM then ring_loop c k ring_type fd n (i + 1) r calls1
        else { exit := .rejected, req := r, max_order := n + 1, calls := calls1 }

/-- State after `socket_to_packetmmap`: what it returned (or how the process stopped) and
the values left behind its pointer arguments. -/
structure MmapResult where
  ret : Except Fault Int
  req : tpacket_req
  ring_location : Nat
  max_order : Nat
  error : String
  calls : List Syscall

/-- The function `socket_to_packetmmap` (format_linux_ring.c, lines 155-216).  The
arguments `req`, `ring_location`, `max_order` and `error` are the values behind the
pointers on entry. -/
def socket_to_packetmmap (c : Consts) (k : RingKernel) (ring_type : Nat) (fd : Int)
    (req : tpacket_req) (ring_location : Nat) (max_order : Nat) (error : String) :
    MmapResult :=
  let calls0 := [Syscall.setsockopt fd .PACKET_VERSION]
  match k.version with
  | .failure _ =>
    { ret := .ok (-1), req := req, ring_location := ring_location, max_order := max_order,
      error := "TPACKET2 not supported", calls := calls0 }
  | .success =>
    let l := ring_loop c k ring_type fd max_order 0 req calls0
    match l.exit with
    | .fault f =>
      { ret := .error f, req := l.req, ring_location := ring_location,
        max_order := l.max_order, error := error, calls := l.calls }
    | .out_of_memory =>
      { ret := .ok (-1), req := l.req, ring_location := ring_location,
        max_order := l.max_order,
        error := "Cannot allocate enough memory for ring buffer", calls := l.calls }
    | .rejected =>
      { ret := .ok (-1), req := l.req, ring_location := ring_location,
        max_order := l.max_order, error := "Error setting the ring buffer size",
        calls := l.calls }
    | .allocated =>
      let calls1 :=
        l.calls ++ [Syscall.mmap (u32 (l.req.tp_block_size * l.req.tp_block_nr)) fd]
      if k.mmap = MAP_FAILED then
        { ret := .ok (-1), req := l.req, ring_location := k.mmap, max_order := l.max_order,
          error := "Failed to map memory for ring buffer", calls := calls1 }
      else
        { ret := .ok 0, req := l.req, ring_location := k.mmap, max_order := l.max_order,
          error := error, calls := calls1 }

/-! ## Starting a stream -/

/-- Answers of the operating system to `linuxcommon_start_input_stream`. -/
structure StartKernel where
  /-- Descriptor returned by `socket()`, `-1` on failure. -/
  socket_fd : Int
  /-- Value of `errno` after a failed `socket()`. -/
  socket_errno : Nat
  /-- Result of `if_nametoindex(uridata)`, `0` when the name is no interface. -/
  if_index : Nat
  bind : SyscallResult
  /-- Answer to `setsockopt(PACKET_ADD_MEMBERSHIP)`. -/
  membership : SyscallResult
  timestampns : SyscallResult
  timestamp : SyscallResult
  attach_filter : SyscallResult

/-- State after a stream start function: the value returned (or how the process stopped),
the trace, the format data, the stream, and the system calls made. -/
structure StartResult where
  ret : Except Fault Int
  libtrace : libtrace_t
  format_data : linux_format_data_t
  stream : linux_per_stream_t
  calls : List Syscall

/-- Lines 278-367 of `linuxcommon_start_input_stream`: what follows a successful bind.
`ifindex` is `addr.sll_ifindex`, `calls` the calls made so far. -/
def start_after_bind (k : StartKernel) (libtrace : libtrace_t) (fmt : linux_format_data_t)
    (stream : linux_per_stream_t) (ifindex : Nat) (calls : List Syscall) : StartResult :=
  let promisc : Int :=
    if fmt.promisc = -1 then (if ifindex ≠ 0 then 1 else 0) else fmt.promisc
  let calls1 :=
    if promisc ≠ 0 then calls ++ [Syscall.setsockopt stream.fd .PACKET_ADD_MEMBERSHIP]
    else calls
  let calls2 := calls1 ++ [Syscall.setsockopt stream.fd .SO_TIMESTAMPNS]
  let ts : timestamptype_t × List Syscall :=
    match k.timestampns with
    | .success => (.TS_TIMESPEC, calls2)
    | .failure _ =>
      match k.timestamp with
      | .success => (.TS_TIMEVAL, calls2 ++ [Syscall.setsockopt stream.fd .SO_TIMESTAMP])
      | .failure _ => (.TS_NONE, calls2 ++ [Syscall.setsockopt stream.fd .SO_TIMESTAMP])
  let fmt1 := { fmt with promisc := promisc, timestamptype := ts.1 }
  match fmt1.filter with
  | none =>
    { ret := .ok 0, libtrace := libtrace, format_data := { fmt1 with stats_valid := 0 },
      stream := stream, calls := ts.2 }
  | some filter =>
    if filter.flag = 0 then
      let cl := linuxcommon_close_input_stream fmt1.req stream
      { ret := .ok (-1),
        libtrace := trace_set_err libtrace .TRACE_ERR_BAD_FILTER
          ("Cannot attach a bad filter to " ++ libtrace.uridata),
        format_data := fmt1, stream := cl.1, calls := ts.2 ++ cl.2 }
    else
      { ret := .ok 0, libtrace := libtrace, format_data := { fmt1 with stats_valid := 0 },
        stream := stream,
        calls := ts.2 ++ [Syscall.setsockopt stream.fd .SO_ATTACH_FILTER] }

/-- The function `linuxcommon_start_input_stream` (format_linux_common.c, lines 238-368).
`fmt` is the format data of the trace.  The `recv` calls that drain the socket after a
filter is attached, and the `perror` output, are not recorded. -/
def linuxcommon_start_input_stream (k : StartKernel) (libtrace : libtrace_t)
    (fmt : linux_format_data_t) (stream : linux_per_stream_t) : StartResult :=
  let stream1 := { stream with fd := k.socket_fd }
  if k.socket_fd = -1 then
    { ret := .ok (-1),
      libtrace := trace_set_err libtrace (.errno k.socket_errno) "Could not create raw socket",
      format_data := fmt, stream := stream1, calls := [Syscall.socket] }
  else if libtrace.uridata.length ≠ 0 ∧ k.if_index = 0 then
    let cl := linuxcommon_close_input_stream fmt.req stream1
    { ret := .ok (-1),
      libtrace := trace_set_err libtrace .TRACE_ERR_INIT_FAILED
        ("Failed to find interface " ++ libtrace.uridata),
      format_data := fmt, stream := cl.1, calls := [Syscall.socket] ++ cl.2 }
  else
    let ifindex := if libtrace.uridata.length ≠ 0 then k.if_index else 0
    let calls1 := [Syscall.socket, Syscall.bind stream1.fd ifindex]
    match k.bind with
    | .failure e =>
      let cl := linuxcommon_close_input_stream fmt.req stream1
      { ret := .ok (-1),
        libtrace := trace_set_err libtrace (.errno e)
          ("Failed to bind to interface " ++ libtrace.uridata),
        format_data := fmt, stream := cl.1, calls := calls1 ++ cl.2 }
    | .success => start_after_bind k libtrace fmt stream1 ifindex calls1

/-- Answers of the operating system to `linuxring_start_input_stream`. -/
structure StreamKernel where
  start : StartKernel
  ring : RingKernel

/-- The function `linuxring_start_input_stream` (format_linux_ring.c, lines 249-274). -/
def linuxring_start_input_stream (c : Consts) (k : StreamKernel) (libtrace : libtrace_t)
    (fmt : linux_format_data_t) (stream : linux_per_stream_t) : StartResult :=
  let s := linuxcommon_start_input_stream k.start libtrace fmt stream
  match s.ret with
  | .error f => { s with ret := .error f }
  | .ok v =>
    if v < 0 then { s with ret := .ok (-1) }
    else
      let m := socket_to_packetmmap c k.ring PACKET_RX_RING s.stream.fd s.format_data.req
        s.stream.rx_ring s.format_data.max_order "No known error"
      let fmt1 := { s.format_data with req := m.req, max_order := m.max_order }
      let stream1 := { s.stream with rx_ring := m.ring_location }
      match m.ret with
      | .error f =>
        { ret := .error f, libtrace := s.libtrace, format_data := fmt1, stream := stream1,
          calls := s.calls ++ m.calls }
      | .ok w =>
        if w ≠ 0 then
          let cl := linuxcommon_close_input_stream fmt1.req stream1
          { ret := .ok (-1),
            libtrace := trace_set_err s.libtrace .TRACE_ERR_INIT_FAILED
              ("Initialisation of packet MMAP failed: " ++ m.error),
            format_data := fmt1, stream := cl.1, calls := s.calls ++ m.calls ++ cl.2 }
        else
          { ret := .ok 0, libtrace := s.libtrace, format_data := fmt1, stream := stream1,
            calls := s.calls ++ m.calls }

/-! ## Packets and ring frames -/

/-- The frame header `struct tpacket2_hdr` at the start of a ring frame. -/
structure tpacket2_hdr where
  tp_status : Nat
  tp_len : Nat
  tp_snaplen : Nat
  tp_mac : Nat
  tp_net : Nat
  tp_sec : Nat
  tp_nsec : Nat
  deriving DecidableEq, Repr

/-- Memory holding ring frames: the frame header found at each address. -/
abbrev Memory := Nat → tpacket2_hdr

/-- The store `TO_TP_HDR2(addr)->tp_status = v`. -/
def write_tp_status (mem : Memory) (addr v : Nat) : Memory :=
  fun a => if a = addr then { mem a with tp_status := v } else mem a

/-- The store `TO_TP_HDR2(addr)->tp_snaplen = v`. -/
def write_tp_snaplen (mem : Memory) (addr v : Nat) : Memory :=
  fun a => if a = addr then { mem a with tp_snaplen := v } else mem a

/-- Who owns a packet buffer, `buf_control_t`. -/
inductive buf_control_t where
  /-- The buffer is a heap allocation owned by the packet. -/
  | TRACE_CTRL_PACKET
  /-- The buffer is borrowed, here a frame of the ring. -/
  | TRACE_CTRL_EXTERNAL
  deriving DecidableEq, Repr

/-- Record types of a packet, `libtrace_rt_types_t`: the type of a ring frame, or any
other type, given by its code. -/
inductive libtrace_rt_types_t where
  | TRACE_RT_DATA_LINUX_RING
  | TRACE_RT_DATA_TZSP
  | other_rt_type (code : Nat)
  deriving DecidableEq, Repr

/-- The fields of `libtrace_packet_t` that the translated functions use.  The target of
`packet->trace` is passed on its own. -/
structure libtrace_packet_t where
  buffer : Nat
  header : Nat
  payload : Nat
  buf_control : buf_control_t
  /-- Cached capture length, `-1` when nothing is cached. -/
  capture_length : Int
  /-- Record type of the packet. -/
  type : libtrace_rt_types_t
  deriving DecidableEq, Repr

/-- State after a function that releases a packet. -/
structure ReleaseResult where
  packet : libtrace_packet_t
  mem : Memory
  calls : List Syscall

/-- The function `ring_release_frame` (format_linux_ring.c, lines 220-247). -/
def ring_release_frame (mem : Memory) (packet : libtrace_packet_t) : ReleaseResult :=
  if packet.buffer = NULL then { packet := packet, mem := mem, calls := [] }
  else
    let r1 : ReleaseResult :=
      if packet.buf_control = .TRACE_CTRL_PACKET then
        { packet := { packet with buffer := NULL }, mem := mem,
          calls := [Syscall.free packet.buffer] }
      else { packet := packet, mem := mem, calls := [] }
    if r1.packet.buf_control = .TRACE_CTRL_EXTERNAL then
      { packet := { r1.packet with buffer := NULL },
        mem := write_tp_status r1.mem r1.packet.buffer 0, calls := r1.calls }
    else r1

/-- The function `linuxring_fin_packet` (format_linux_ring.c, lines 577-597).  `trace` is
the target of `packet->trace` together with its format data, `none` for a null
pointer. -/
def linuxring_fin_packet (trace : Option (libtrace_t × linux_format_data_t)) (mem : Memory)
    (packet : libtrace_packet_t) : Except Fault ReleaseResult :=
  if packet.buffer = NULL then .ok { packet := packet, mem := mem, calls := [] }
  else
    match trace with
    | none => .error (.assertion_failed 583)
    | some (libtrace, fmt) =>
      if packet.buf_control = .TRACE_CTRL_EXTERNAL then
        match fmt.per_stream.head? with
        | none => .error .null_dereference
        | some first =>
          if decide (first.rx_ring ≠ NULL) ≠ libtrace.started then
            .error (.assertion_failed 589)
          else if first.rx_ring ≠ MAP_FAILED then .ok (ring_release_frame mem packet)
          else .ok { packet := { packet with buffer := NULL }, mem := mem, calls := [] }
      else .ok { packet := packet, mem := mem, calls := [] }

/-- The ring allocation requests found in a call log, in order. -/
def ring_requests : List Syscall → List tpacket_req
  | [] => []
  | Syscall.setsockopt _ (.PACKET_RING _ r) :: rest => r :: ring_requests rest
  | _ :: rest => ring_requests rest

/-- The lengths of the `mmap` calls found in a call log, in order. -/
def mmap_calls : List Syscall → List Nat
  | [] => []
  | Syscall.mmap len _ :: rest => len :: mmap_calls rest
  | _ :: rest => mmap_calls rest

/-- The system call that asks the kernel for the ring described by `q`. -/
def ring_call (ring_type : Nat) (fd : Int) (q : tpacket_req) : Syscall :=
  Syscall.setsockopt fd (.PACKET_RING ring_type q)

/-! ## Capture length of a ring packet -/

/-- Conversion of an `unsigned int` value to `int`. -/
def int_of_u32 (n : Nat) : Int := if n < 2 ^ 31 then (n : Int) else (n : Int) - 2 ^ 32

/-- Conversion of an `int` value to `size_t` (64 bits). -/
def size_t_of_int (i : Int) : Nat := (i % 2 ^ 64).toNat

/-- The function `linuxring_get_capture_length` (format_linux_ring.c, lines 386-389). -/
def linuxring_get_capture_length (mem : Memory) (packet : libtrace_packet_t) : Int :=
  int_of_u32 (mem packet.buffer).tp_snaplen

/-- Modelled from the spec: `trace_get_capture_length` of `trace.c`, the packet's reported
captured length.  A packet has a "cached length" that truncation "invalidates"; the
reported length is the cached one when a length is cached, and the one the format reports
(`linuxring_get_capture_length`) when none is (`capture_length` is `-1`).  The model only
reads the cache. -/
def trace_get_capture_length (mem : Memory) (packet : libtrace_packet_t) : Nat :=
  size_t_of_int
    (if packet.capture_length = -1 then linuxring_get_capture_length mem packet
     else packet.capture_length)

/-- State after `linuxring_set_capture_length`: the value returned, the packet, memory. -/
structure SetLengthResult where
  ret : Nat
  packet : libtrace_packet_t
  mem : Memory

/-- The function `linuxring_set_capture_length` (format_linux_ring.c, lines 411-426). -/
def linuxring_set_capture_length (mem : Memory) (packet : libtrace_packet_t) (size : Nat) :
    SetLengthResult :=
  if size > trace_get_capture_length mem packet then
    { ret := trace_get_capture_length mem packet, packet := packet, mem := mem }
  else
    let packet1 := { packet with capture_length := -1 }
    let mem1 := write_tp_snaplen mem packet.buffer (u32 size)
    { ret := trace_get_capture_length mem1 packet1, packet := packet1, mem := mem1 }

/-! ## Concrete inputs used to exercise the theorems -/

/-- A kernel that rejects every ring request with `ENOMEM`, on an interface with MTU 9000
and 4096-byte pages. -/
def kernel_jumbo_enomem : RingKernel :=
  { pagesize := 4096, ifr_mtu := some 9000, version := .success,
    ring := fun _ => .failure ENOMEM, mmap := 4096 }

/-- A kernel that rejects the first two ring requests with `ENOMEM` and accepts the third,
on an interface with MTU 1500 and 4096-byte pages. -/
def kernel_two_enomem : RingKernel :=
  { pagesize := 4096, ifr_mtu := some 1500, version := .success,
    ring := fun i => if i < 2 then .failure ENOMEM else .success, mmap := 4096 }

/-- A kernel that rejects the first ring request with `ENOMEM` and the second with
`EINVAL` (22). -/
def kernel_enomem_einval : RingKernel :=
  { pagesize := 4096, ifr_mtu := some 1500, version := .success,
    ring := fun i => if i < 1 then .failure ENOMEM else .failure 22, mmap := 4096 }

/-- A kernel on which socket creation, binding and every socket option succeed. -/
def start_kernel_ok : StartKernel :=
  { socket_fd := 3, socket_errno := 0, if_index := 2, bind := .success,
    membership := .success, timestampns := .success, timestamp := .success,
    attach_filter := .success }

/-- An all-zero ring request. -/
def zero_req : tpacket_req :=
  { tp_block_size := 0, tp_block_nr := 0, tp_frame_size := 0, tp_frame_nr := 0 }

/-- Format data as `linuxcommon_init_input` leaves it (lines 184-192), with the given
fanout group. -/
def init_format_data (c : Consts) (group : Nat) : linux_format_data_t :=
  { per_stream := [ZERO_LINUX_STREAM], promisc := -1,
    snaplen := c.LIBTRACE_PACKET_BUFSIZE, filter := none, stats_valid := 0,
    stats := { tp_packets := 0, tp_drops := 0 }, max_order := c.MAX_ORDER,
    req := zero_req, timestamptype := .TS_NONE, fanout_flags := 0, fanout_group := group }

/-- A trace on interface `eth0` that is not started and has no error. -/
def trace_eth0 : libtrace_t :=
  { uridata := "eth0", err := none, started := false, perpkt_thread_count := 1 }

/-- Memory in which every frame header is zero. -/
def zero_memory : Memory :=
  fun _ =>
    { tp_status := 0, tp_len := 0, tp_snaplen := 0, tp_mac := 0, tp_net := 0, tp_sec := 0,
      tp_nsec := 0 }

/-- Format data of a paused trace: the only stream was live (descriptor 3, ring mapped at
address 4096) and has been closed by `linuxcommon_close_input_stream`. -/
def paused_format_data : linux_format_data_t :=
  { init_format_data libtrace_consts 7 with
    per_stream :=
      [(linuxcommon_close_input_stream zero_req
        { fd := 3, rx_ring := 4096, rxring_offset := 5 }).1] }

/-- Memory in which the frame at address 4096 holds a packet of 1514 bytes, of which 1000
were captured, and every other frame header is zero. -/
def one_frame_memory : Memory :=
  fun a =>
    if a = 4096 then
      { tp_status := 1, tp_len := 1514, tp_snaplen := 1000, tp_mac := 66, tp_net := 80,
        tp_sec := 0, tp_nsec := 0 }
    else zero_memory a

/-- A packet that borrows the ring frame at address 4096. -/
def borrowed_packet : libtrace_packet_t :=
  { buffer := 4096, header := 4096, payload := 4162, buf_control := .TRACE_CTRL_EXTERNAL,
    capture_length := -1, type := .TRACE_RT_DATA_LINUX_RING }

/-! ## Link type and wire length -/

/-- Link types, `libtrace_linktype_t`: the values the translated functions return or
compare with. -/
inductive libtrace_linktype_t where
  | TRACE_TYPE_ETH
  | TRACE_TYPE_NONE
  | TRACE_TYPE_80211_RADIO
  | TRACE_TYPE_80211
  | TRACE_TYPE_NONDATA
  | TRACE_TYPE_CONTENT_INVALID
  | TRACE_TYPE_UNKNOWN
  | TRACE_TYPE_ERF_META
  | TRACE_TYPE_PCAPNG_META
  /-- The value `(libtrace_linktype_t)~0U` returned for an unknown hardware type. -/
  | TRACE_TYPE_ALL_ONES
  deriving DecidableEq, Repr

/-- Hardware type `ARPHRD_ETHER` of `linux/if_arp.h`. -/
def LIBTRACE_ARPHRD_ETHER : Nat := 1

/-- Hardware type `ARPHRD_PPP`. -/
def LIBTRACE_ARPHRD_PPP : Nat := 512

/-- Hardware type `ARPHRD_LOOPBACK`. -/
def LIBTRACE_ARPHRD_LOOPBACK : Nat := 772

/-- Hardware type `ARPHRD_SIT`. -/
def LIBTRACE_ARPHRD_SIT : Nat := 776

/-- Hardware type `ARPHRD_IEEE80211`. -/
def LIBTRACE_ARPHRD_IEEE80211 : Nat := 801

/-- Hardware type `ARPHRD_IEEE80211_RADIOTAP`. -/
def LIBTRACE_ARPHRD_IEEE80211_RADIOTAP : Nat := 803

/-- Hardware type `ARPHRD_NONE`. -/
def LIBTRACE_ARPHRD_NONE : Nat := 65534

/-- The fields of `struct sockaddr_ll` that the translated functions use. -/
structure sockaddr_ll where
  sll_hatype : Nat
  sll_pkttype : Nat
  deriving DecidableEq, Repr

/-- The `struct sockaddr_ll` that follows the frame header of the frame at each address,
which the macro `GET_SOCKADDR_HDR` reaches. -/
abbrev LinkMemory := Nat → sockaddr_ll

/-- The function `linuxcommon_get_link_type` (format_linux_common.c, lines 654-674). -/
def linuxcommon_get_link_type (linktype : Nat) : libtrace_linktype_t :=
  if linktype = LIBTRACE_ARPHRD_ETHER ∨ linktype = LIBTRACE_ARPHRD_LOOPBACK then
    .TRACE_TYPE_ETH
  else if linktype = LIBTRACE_ARPHRD_PPP then .TRACE_TYPE_NONE
  else if linktype = LIBTRACE_ARPHRD_IEEE80211_RADIOTAP then libtrace_linktype_t.TRACE_TYPE_80211_RADIO
  else if linktype = LIBTRACE_ARPHRD_IEEE80211 then .TRACE_TYPE_80211
  else if linktype = LIBTRACE_ARPHRD_SIT ∨ linktype = LIBTRACE_ARPHRD_NONE then
    .TRACE_TYPE_NONE
  else .TRACE_TYPE_ALL_ONES

/-- The function `linuxring_get_link_type` (format_linux_ring.c, lines 351-356). -/
def linuxring_get_link_type (sll : LinkMemory) (packet : libtrace_packet_t) :
    libtrace_linktype_t :=
  linuxcommon_get_link_type (sll packet.buffer).sll_hatype

/-- Modelled from the spec: `trace_get_link_type` of `trace.c` for a ring packet, "a
link-type tag derived from the interface's hardware-address-family code": the value the
format's `get_link_type` entry, `linuxring_get_link_type`, returns. -/
def trace_get_link_type (sll : LinkMemory) (packet : libtrace_packet_t) :
    libtrace_linktype_t :=
  linuxring_get_link_type sll packet

/-- The function `linuxring_get_wire_length` (format_linux_ring.c, lines 391-400).  The
result is a C `int`; the model adds without wrapping. -/
def linuxring_get_wire_length (mem : Memory) (sll : LinkMemory)
    (packet : libtrace_packet_t) : Int :=
  let wirelen := int_of_u32 (mem packet.buffer).tp_len
  if trace_get_link_type sll packet = .TRACE_TYPE_ETH then wirelen + 4 else wirelen

/-! ## Fanout groups and the parallel start -/

/-- State after `linuxcommon_to_packet_fanout`. -/
structure FanoutResult where
  ret : Int
  libtrace : libtrace_t
  calls : List Syscall

/-- The function `linuxcommon_to_packet_fanout` (format_linux_common.c, lines 378-391).
`answer` is the answer of the kernel to `setsockopt(PACKET_FANOUT)`. -/
def linuxcommon_to_packet_fanout (answer : SyscallResult) (libtrace : libtrace_t)
    (fmt : linux_format_data_t) (stream : linux_per_stream_t) : FanoutResult :=
  let fanout_opt := (fmt.fanout_flags <<< 16) ||| fmt.fanout_group
  let calls := [Syscall.setsockopt stream.fd (.PACKET_FANOUT fanout_opt)]
  match answer with
  | .failure _ =>
    { ret := -1,
      libtrace := trace_set_err libtrace .TRACE_ERR_INIT_FAILED
        ("Converting the fd to a socket fanout failed " ++ libtrace.uridata),
      calls := calls }
  | .success => { ret := 0, libtrace := libtrace, calls := calls }

/-- A per-stream start function as `linuxcommon_pstart_input` receives it.  The first
argument is the position of the stream, which selects the answers of the operating system
for that call.  The stream is passed and returned on its own; the start functions of the
translated files reach it only through their `stream` argument and leave the collection
`per_stream` alone. -/
abbrev StartStream :=
  Nat → libtrace_t → linux_format_data_t → linux_per_stream_t → StartResult

/-- How the start loop of `linuxcommon_pstart_input` (lines 567-586) ends. -/
inductive PstartExit where
  /-- All streams were started and joined. -/
  | completed
  /-- The start of stream `i` failed: `iserror` is set and the loop is left. -/
  | start_failed (i : Nat)
  /-- Stream `i` was started but could not join the fanout group: `iserror` is set, the
  descriptor of the stream is closed and the loop is left. -/
  | join_failed (i : Nat)
  /-- The process stopped. -/
  | fault (f : Fault)
  deriving DecidableEq, Repr

/-- State when the start loop ends. -/
structure PstartLoopResult where
  exit : PstartExit
  libtrace : libtrace_t
  format_data : linux_format_data_t
  calls : List Syscall

/-- The `for` loop of lines 567-586.  The first argument is the number of rounds left,
`tot - i`. -/
def pstart_loop (start_stream : StartStream) (fanout : Nat → SyscallResult) :
    Nat → Nat → libtrace_t → linux_format_data_t → List Syscall → PstartLoopResult
  | 0, _, libtrace, fmt, calls =>
    { exit := .completed, libtrace := libtrace, format_data := fmt, calls := calls }
  | n + 1, i, libtrace, fmt, calls =>
    let streams :=
      if fmt.per_stream.length ≤ i then fmt.per_stream ++ [ZERO_LINUX_STREAM]
      else fmt.per_stream
    match streams[i]? with
    | none =>
      { exit := .fault .null_dereference, libtrace := libtrace,
        format_data := { fmt with per_stream := streams }, calls := calls }
    | some stream =>
      let r := start_stream i libtrace { fmt with per_stream := streams } stream
      let fmt1 := { r.format_data with per_stream := streams.set i r.stream }
      match r.ret with
      | .error f =>
        { exit := .fault f, libtrace := r.libtrace, format_data := fmt1,
          calls := calls ++ r.calls }
      | .ok v =>
        if v ≠ 0 then
          { exit := .start_failed i, libtrace := r.libtrace, format_data := fmt1,
            calls := calls ++ r.calls }
        else
          let j := linuxcommon_to_packet_fanout (fanout i) r.libtrace fmt1 r.stream
          if j.ret ≠ 0 then
            { exit := .join_failed i, libtrace := j.libtrace,
              format_data :=
                { fmt1 with per_stream := streams.set i { r.stream with fd := -1 } },
              calls := calls ++ r.calls ++ j.calls ++ [Syscall.close r.stream.fd] }
          else
            pstart_loop start_stream fanout n (i + 1) j.libtrace fmt1
              (calls ++ r.calls ++ j.calls)

/-- The loop of lines 590-594, `for (i = i - 1; i >= 0; i--)`: closes the streams
`i - 1, ..., 0` of the collection, in that order. -/
def pstart_unwind (req : tpacket_req) :
    Nat → List linux_per_stream_t → List Syscall →
      Except Fault (List linux_per_stream_t × List Syscall)
  | 0, streams, calls => .ok (streams, calls)
  | j + 1, streams, calls =>
    match streams[j]? with
    | none => .error .null_dereference
    | some stream =>
      let cl := linuxcommon_close_input_stream req stream
      pstart_unwind req j (streams.set j cl.1) (calls ++ cl.2)

/-- State after `linuxcommon_pstart_input`. -/
structure PstartResult where
  ret : Except Fault Int
  libtrace : libtrace_t
  /-- The value of `libtrace->format_data`, `none` for NULL. -/
  format_data : Option linux_format_data_t
  /-- On the failure path, the format data as it was when the stream collection was
  discarded and the format data freed. -/
  discarded : Option linux_format_data_t
  calls : List Syscall

/-- Lines 588-599 of `linuxcommon_pstart_input`: what follows the start loop when
`iserror` is set and the loop variable is `i`. -/
def pstart_failure (l : PstartLoopResult) (i : Nat) : PstartResult :=
  match pstart_unwind l.format_data.req i l.format_data.per_stream l.calls with
  | .error f =>
    { ret := .error f, libtrace := l.libtrace, format_data := some l.format_data,
      discarded := none, calls := l.calls }
  | .ok u =>
    { ret := .ok (-1), libtrace := l.libtrace, format_data := none,
      discarded := some { l.format_data with per_stream := u.1 }, calls := u.2 }

/-- The function `linuxcommon_pstart_input` (format_linux_common.c, lines 559-602). -/
def linuxcommon_pstart_input (start_stream : StartStream) (fanout : Nat → SyscallResult)
    (libtrace : libtrace_t) (fmt : linux_format_data_t) : PstartResult :=
  let l := pstart_loop start_stream fanout libtrace.perpkt_thread_count 0 libtrace fmt []
  match l.exit with
  | .completed =>
    { ret := .ok 0, libtrace := l.libtrace, format_data := some l.format_data,
      discarded := none, calls := l.calls }
  | .fault f =>
    { ret := .error f, libtrace := l.libtrace, format_data := some l.format_data,
      discarded := none, calls := l.calls }
  | .start_failed i => pstart_failure l i
  | .join_failed i => pstart_failure l i

/-- The function `linuxring_pstart_input` (format_linux_ring.c, lines 287-289): the
parallel start with `linuxring_start_input_stream` as the per-stream start function;
`kernel i` holds the answers of the operating system for stream `i`. -/
def linuxring_pstart_input (c : Consts) (kernel : Nat → StreamKernel)
    (fanout : Nat → SyscallResult) (libtrace : libtrace_t) (fmt : linux_format_data_t) :
    PstartResult :=
  linuxcommon_pstart_input (fun i => linuxring_start_input_stream c (kernel i)) fanout
    libtrace fmt

/-- The `munmap` calls found in a call log, in order: address and length. -/
def munmap_calls : List Syscall → List (Nat × Nat)
  | [] => []
  | Syscall.munmap addr len :: rest => (addr, len) :: munmap_calls rest
  | _ :: rest => munmap_calls rest

/-! ## Statistics -/

/-- The sentinel `UINT64_MAX`. -/
def UINT64_MAX : Nat := 2 ^ 64 - 1

/-- The body of the loop of `linuxcommon_update_statistics` (lines 482-501) for one
stream.  `answer` is what the kernel answers to the `PACKET_STATISTICS` query for this
stream, `none` when `getsockopt` fails. -/
def update_statistics_stream (answer : Option tpacket_stats) (fmt : linux_format_data_t)
    (stream : linux_per_stream_t) : linux_format_data_t × List Syscall :=
  if stream.fd ≠ -1 then
    match answer with
    | some stats =>
      if fmt.stats_valid = 0 then
        ({ fmt with
            stats := { tp_packets := stats.tp_packets, tp_drops := stats.tp_drops },
            stats_valid := 1 },
          [Syscall.getsockopt_statistics stream.fd])
      else
        ({ fmt with
            stats :=
              { fmt.stats with
                tp_drops := u32 (u32 (fmt.stats.tp_drops + stats.tp_drops) + stats.tp_packets) } },
          [Syscall.getsockopt_statistics stream.fd])
    | none => (fmt, [Syscall.getsockopt_statistics stream.fd])
  else (fmt, [])

/-- The loop of `linuxcommon_update_statistics` over the streams from position `i` on.
`query i` is the answer of the kernel for the stream at position `i`. -/
def update_statistics_loop (query : Nat → Option tpacket_stats) :
    Nat → List linux_per_stream_t → linux_format_data_t → List Syscall →
      linux_format_data_t × List Syscall
  | _, [], fmt, calls => (fmt, calls)
  | i, stream :: rest, fmt, calls =>
    let r := update_statistics_stream (query i) fmt stream
    update_statistics_loop query (i + 1) rest r.1 (calls ++ r.2)

/-- The function `linuxcommon_update_statistics` (format_linux_common.c, lines
476-503). -/
def linuxcommon_update_statistics (query : Nat → Option tpacket_stats)
    (fmt : linux_format_data_t) : linux_format_data_t × List Syscall :=
  update_statistics_loop query 0 fmt.per_stream fmt []

/-- State after a statistics query: the value returned, the format data, the system calls
made. -/
structure StatsResult where
  value : Nat
  format_data : Option linux_format_data_t
  calls : List Syscall

/-- The function `linuxcommon_get_captured_packets` (format_linux_common.c, lines
506-519).  `format_data` is `libtrace->format_data`, `none` for NULL. -/
def linuxcommon_get_captured_packets (query : Nat → Option tpacket_stats)
    (format_data : Option linux_format_data_t) : Except Fault StatsResult :=
  match format_data with
  | none => .ok { value := UINT64_MAX, format_data := none, calls := [] }
  | some fmt =>
    match fmt.per_stream.head? with
    | none => .error .null_dereference
    | some first =>
      if first.fd = -1 then
        .ok { value := UINT64_MAX, format_data := some fmt, calls := [] }
      else
        let r := linuxcommon_update_statistics query fmt
        if r.1.stats_valid ≠ 0 then
          .ok { value := r.1.stats.tp_packets, format_data := some r.1, calls := r.2 }
        else .ok { value := UINT64_MAX, format_data := some r.1, calls := r.2 }

/-- The function `linuxcommon_get_dropped_packets` (format_linux_common.c, lines
527-540). -/
def linuxcommon_get_dropped_packets (query : Nat → Option tpacket_stats)
    (format_data : Option linux_format_data_t) : Except Fault StatsResult :=
  match format_data with
  | none => .ok { value := UINT64_MAX, format_data := none, calls := [] }
  | some fmt =>
    match fmt.per_stream.head? with
    | none => .error .null_dereference
    | some first =>
      if first.fd = -1 then
        .ok { value := UINT64_MAX, format_data := some fmt, calls := [] }
      else
        let r := linuxcommon_update_statistics query fmt
        if r.1.stats_valid ≠ 0 then
          .ok { value := r.1.stats.tp_drops, format_data := some r.1, calls := r.2 }
        else .ok { value := UINT64_MAX, format_data := some r.1, calls := r.2 }

/-- The function `linuxcommon_get_filtered_packets` (format_linux_common.c, lines
549-551). -/
def linuxcommon_get_filtered_packets (_format_data : Option linux_format_data_t) : Nat :=
  UINT64_MAX

/-! ## Reading a packet from the ring -/

/-- The errno value `EINTR`. -/
def EINTR : Nat := 4

/-- Frame status `TP_STATUS_KERNEL`: the frame belongs to the kernel. -/
def TP_STATUS_KERNEL : Nat := 0

/-- Frame status bit `TP_STATUS_USER`: the frame may be read by the process. -/
def TP_STATUS_USER : Nat := 1

/-- Frame status `TP_STATUS_AVAILABLE`: the transmit frame may be filled. -/
def TP_STATUS_AVAILABLE : Nat := 0

/-- Frame status `TP_STATUS_SEND_REQUEST`: the transmit frame is to be sent. -/
def TP_STATUS_SEND_REQUEST : Nat := 1

/-- The macro `TP_TRACE_START(mac, net, hdrend)` (format_linux_ring.c, lines 76-77). -/
def TP_TRACE_START (mac net hdrend : Nat) : Nat :=
  if mac > hdrend ∧ mac < net then mac else net

/-- State after `linuxring_prepare_packet`. -/
structure PrepareResult where
  ret : Int
  packet : libtrace_packet_t
  calls : List Syscall

/-- The function `linuxring_prepare_packet` (format_linux_ring.c, lines 428-452).
`own_buffer` tells whether `flags` has `TRACE_PREP_OWN_BUFFER` set. -/
def linuxring_prepare_packet (mem : Memory) (packet : libtrace_packet_t) (buffer : Nat)
    (rt_type : libtrace_rt_types_t) (own_buffer : Bool) : PrepareResult :=
  let calls :=
    if packet.buffer ≠ buffer ∧ packet.buf_control = .TRACE_CTRL_PACKET then
      [Syscall.free packet.buffer]
    else []
  let control : buf_control_t :=
    if own_buffer then .TRACE_CTRL_PACKET else .TRACE_CTRL_EXTERNAL
  { ret := 0,
    packet :=
      { packet with
        buf_control := control, buffer := buffer, header := buffer,
        payload := buffer + TP_TRACE_START (mem buffer).tp_mac (mem buffer).tp_net
          TPACKET2_HDRLEN,
        type := rt_type },
    calls := calls }

/-- The function `linuxring_get_framing_length` (format_linux_ring.c, lines 402-409). -/
def linuxring_get_framing_length (packet : libtrace_packet_t) : Int :=
  (packet.payload : Int) - (packet.buffer : Int)

/-- What one call of `poll` returns. -/
inductive PollResult where
  /-- A positive return value; `stream_revents` tells whether `revents` of the first
  descriptor, the socket of the stream, is nonzero. -/
  | ready (stream_revents : Bool)
  /-- A negative return value, with the errno set. -/
  | failed (errno : Nat)
  /-- The return value 0. -/
  | timeout
  deriving DecidableEq, Repr

/-- One round of waiting in `linuxring_read_stream`, as the operating system answers
it. -/
structure RxWait where
  poll : PollResult
  /-- Value of the global `libtrace_halt` when it is looked at after a time-out. -/
  halt : Bool
  /-- Header of the frame at the cursor as the kernel has written it by the time `poll`
  returns, `none` when the kernel has not written it. -/
  frame : Option tpacket2_hdr

/-- How the wait loop of `linuxring_read_stream` (lines 477-503) ends. -/
inductive RxExit where
  /-- The frame at the cursor has `TP_STATUS_USER` set. -/
  | frame_ready
  /-- `poll` returned for the message queue only: `return READ_MESSAGE`. -/
  | message
  /-- `poll` failed: `return -1`. -/
  | poll_failed (errno : Nat)
  /-- `poll` timed out and `libtrace_halt` is set: `return 0`. -/
  | halted
  /-- No further answer: the process waits in `poll` for ever. -/
  | blocked
  /-- The wait loop was not reached. -/
  | not_reached
  deriving DecidableEq, Repr

/-- State when the wait loop ends. -/
structure RxLoopResult where
  exit : RxExit
  mem : Memory
  calls : List Syscall

/-- The `while` loop of lines 477-503 on the frame at address `header`.  The list holds
the answers to the calls of `poll` that are still to come. -/
def rx_wait_loop (fd : Int) (with_queue : Bool) (header : Nat) :
    List RxWait → Memory → List Syscall → RxLoopResult
  | [], mem, calls =>
    if (mem header).tp_status &&& TP_STATUS_USER ≠ 0 then
      { exit := .frame_ready, mem := mem, calls := calls }
    else { exit := .blocked, mem := mem, calls := calls }
  | w :: rest, mem, calls =>
    if (mem header).tp_status &&& TP_STATUS_USER ≠ 0 then
      { exit := .frame_ready, mem := mem, calls := calls }
    else
      let calls1 := calls ++ [Syscall.poll fd with_queue (-1)]
      let mem1 : Memory :=
        match w.frame with
        | some h => fun a => if a = header then h else mem a
        | none => mem
      match w.poll with
      | .ready true => rx_wait_loop fd with_queue header rest mem1 calls1
      | .ready false => { exit := .message, mem := mem1, calls := calls1 }
      | .failed e => { exit := .poll_failed e, mem := mem1, calls := calls1 }
      | .timeout =>
        if w.halt then { exit := .halted, mem := mem1, calls := calls1 }
        else rx_wait_loop fd with_queue header rest mem1 calls1

/-- Inputs of `linuxring_read_stream` other than its arguments. -/
structure ReadEnv where
  /-- Value of the static variable `pagesize`. -/
  pagesize : Nat
  /-- Whether the `queue` argument is not NULL. -/
  with_queue : Bool
  /-- Answers to the successive calls of `poll`. -/
  waits : List RxWait

/-- State after `linuxring_read_stream`: the value returned (or how the process stopped),
how the wait ended, and the state left behind. -/
structure ReadResult where
  ret : Except Fault Int
  exit : RxExit
  libtrace : libtrace_t
  stream : linux_per_stream_t
  packet : libtrace_packet_t
  mem : Memory
  calls : List Syscall

/-- Address of the frame at the read cursor, the macro `GET_CURRENT_BUFFER` (lines
67-70). -/
def GET_CURRENT_BUFFER (fmt : linux_format_data_t) (stream : linux_per_stream_t) : Nat :=
  stream.rx_ring + u32 (u32_of_int stream.rxring_offset * fmt.req.tp_frame_size)

/-- Lines 505-527 of `linuxring_read_stream`: what follows the wait loop once the frame
at address `header` is user-owned.  `l` is the state the wait loop has left, `packet` the
packet after lines 464-467. -/
def read_frame (c : Consts) (libtrace : libtrace_t) (fmt : linux_format_data_t)
    (stream : linux_per_stream_t) (packet : libtrace_packet_t) (header : Nat)
    (l : RxLoopResult) : ReadResult :=
  let packet2 := { packet with buffer := header }
  let snaplen :=
    u32_of_int (min ((c.LIBTRACE_PACKET_BUFSIZE : Int) - (sizeof_tpacket2_hdr : Int))
      fmt.snaplen)
  let mem2 := write_tp_snaplen l.mem header (min snaplen (l.mem header).tp_len)
  if fmt.req.tp_frame_nr = 0 then
    { ret := .error .division_by_zero, exit := l.exit, libtrace := libtrace,
      stream := stream, packet := packet2, mem := mem2, calls := l.calls }
  else
    let stream1 :=
      { stream with
        rxring_offset :=
          int_of_u32 (u32_of_int (stream.rxring_offset + 1) % fmt.req.tp_frame_nr) }
    let p := linuxring_prepare_packet mem2 packet2 packet2.buffer packet2.type false
    if p.ret ≠ 0 then
      { ret := .ok (-1), exit := l.exit, libtrace := libtrace, stream := stream1,
        packet := p.packet, mem := mem2, calls := l.calls ++ p.calls }
    else
      { ret := .ok (linuxring_get_framing_length p.packet +
          linuxring_get_capture_length mem2 p.packet),
        exit := l.exit, libtrace := libtrace, stream := stream1, packet := p.packet,
        mem := mem2, calls := l.calls ++ p.calls }

/-- The function `linuxring_read_stream` (format_linux_ring.c, lines 454-528). -/
def linuxring_read_stream (c : Consts) (env : ReadEnv) (libtrace : libtrace_t)
    (fmt : linux_format_data_t) (stream : linux_per_stream_t) (mem : Memory)
    (packet : libtrace_packet_t) : ReadResult :=
  let rel := ring_release_frame mem packet
  let packet1 : libtrace_packet_t :=
    { rel.packet with
      buf_control := .TRACE_CTRL_EXTERNAL, type := .TRACE_RT_DATA_LINUX_RING }
  let header := GET_CURRENT_BUFFER fmt stream
  let mask := if env.pagesize = 0 then 2 ^ 64 - 1 else env.pagesize - 1
  if header &&& mask ≠ 0 then
    { ret := .error (.assertion_failed 471), exit := .not_reached, libtrace := libtrace,
      stream := stream, packet := packet1, mem := rel.mem, calls := rel.calls }
  else
    let l := rx_wait_loop stream.fd env.with_queue header env.waits rel.mem rel.calls
    match l.exit with
    | .message =>
      { ret := .ok c.READ_MESSAGE, exit := l.exit, libtrace := libtrace, stream := stream,
        packet := packet1, mem := l.mem, calls := l.calls }
    | .poll_failed e =>
      { ret := .ok (-1), exit := l.exit,
        libtrace := if e ≠ EINTR then trace_set_err libtrace (.errno e) "poll()" else libtrace,
        stream := stream, packet := packet1, mem := l.mem, calls := l.calls }
    | .halted =>
      { ret := .ok 0, exit := l.exit, libtrace := libtrace, stream := stream,
        packet := packet1, mem := l.mem, calls := l.calls }
    | .blocked =>
      { ret := .error .nontermination, exit := l.exit, libtrace := libtrace,
        stream := stream, packet := packet1, mem := l.mem, calls := l.calls }
    | .not_reached =>
      { ret := .error .nontermination, exit := l.exit, libtrace := libtrace,
        stream := stream, packet := packet1, mem := l.mem, calls := l.calls }
    | .frame_ready => read_frame c libtrace fmt stream packet1 header l

/-! ## Writing a packet to the transmit ring -/

/-- The output format data, `struct linux_format_data_out_t`. -/
structure linux_format_data_out_t where
  fd : Int
  tx_ring : Nat
  txring_offset : Int
  queue : Int
  max_order : Nat
  req : tpacket_req
  deriving DecidableEq, Repr

/-- The fields of `libtrace_out_t` that the translated functions use, other than
`format_data`. -/
structure libtrace_out_t where
  uridata : String
  /-- Last error recorded on the output trace, if any: kind and message. -/
  err : Option (trace_err_t × String)
  deriving DecidableEq, Repr

/-- Modelled from the spec: `trace_set_err_out` of `trace.c`.  "Every failure is reported
through a (kind, human-readable message) pair attached to the capture handle." -/
def trace_set_err_out (libtrace : libtrace_out_t) (kind : trace_err_t) (msg : String) :
    libtrace_out_t :=
  { libtrace with err := some (kind, msg) }

/-- What the libtrace accessors report for the packet handed to `linuxring_write_packet`:
`trace_get_link_type`, `trace_get_capture_length`, and the bytes behind
`packet->payload`. -/
structure TxPacket where
  link_type : libtrace_linktype_t
  capture_length : Nat
  payload : Nat → Nat

/-- One round of waiting in `linuxring_write_packet`, as the operating system answers
it. -/
structure TxWait where
  poll : PollResult
  /-- Answer to the `sendto` issued after a time-out of `poll`. -/
  sendto : SyscallResult
  /-- Status word of the frame at the cursor as the kernel has written it by the time the
  round ends, `none` when the kernel has not written it. -/
  status : Option Nat

/-- How the wait loop of `linuxring_write_packet` (lines 619-645) ends. -/
inductive TxExit where
  /-- The frame at the cursor is `TP_STATUS_AVAILABLE`. -/
  | frame_available
  /-- `poll` failed with an errno other than `EINTR`: `return -1` after `perror`. -/
  | poll_failed (errno : Nat)
  /-- The test `ret < 0` after the `sendto` statement held, with this errno: the error
  "sendto after timeout failed" is set and -1 returned. -/
  | send_failed (errno : Nat)
  /-- No further answer: the process waits for ever. -/
  | blocked
  /-- The wait loop was not reached. -/
  | not_reached
  deriving DecidableEq, Repr

/-- State when the wait loop of `linuxring_write_packet` ends. -/
structure TxLoopResult where
  exit : TxExit
  mem : Memory
  calls : List Syscall

/-- The `while` loop of lines 619-645 on the frame at address `header`. -/
def tx_wait_loop (fd : Int) (header : Nat) :
    List TxWait → Memory → List Syscall → TxLoopResult
  | [], mem, calls =>
    if (mem header).tp_status ≠ TP_STATUS_AVAILABLE then
      { exit := .blocked, mem := mem, calls := calls }
    else { exit := .frame_available, mem := mem, calls := calls }
  | w :: rest, mem, calls =>
    if (mem header).tp_status ≠ TP_STATUS_AVAILABLE then
      let calls1 := calls ++ [Syscall.poll fd false 1000]
      let mem1 : Memory :=
        match w.status with
        | some v => write_tp_status mem header v
        | none => mem
      match w.poll with
      | .failed e =>
        if e ≠ EINTR then { exit := .poll_failed e, mem := mem1, calls := calls1 }
        else { exit := .send_failed e, mem := mem1, calls := calls1 }
      | .timeout =>
        let calls2 := calls1 ++ [Syscall.sendto fd false]
        match w.sendto with
        | .failure e => { exit := .send_failed e, mem := mem1, calls := calls2 }
        | .success => tx_wait_loop fd header rest mem1 calls2
      | .ready _ => tx_wait_loop fd header rest mem1 calls1
    else { exit := .frame_available, mem := mem, calls := calls }

/-- Inputs of `linuxring_write_packet` other than its arguments. -/
structure WriteEnv where
  /-- Answers to the successive rounds of the wait loop. -/
  waits : List TxWait
  /-- Answer to the non-blocking `sendto` that flushes the ring. -/
  flush : SyscallResult

/-- State after `linuxring_write_packet`: the value returned (or how the process
stopped), how the wait ended, and the state left behind.  `bytes` is the content of the
data areas of the ring, byte by byte. -/
structure WriteResult where
  ret : Except Fault Int
  exit : TxExit
  libtrace : libtrace_out_t
  format_data : linux_format_data_out_t
  mem : Memory
  bytes : Nat → Nat
  calls : List Syscall

/-- The function `linuxring_write_packet` (format_linux_ring.c, lines 599-679). -/
def linuxring_write_packet (c : Consts) (env : WriteEnv) (libtrace : libtrace_out_t)
    (out : linux_format_data_out_t) (mem : Memory) (bytes : Nat → Nat)
    (packet : TxPacket) : WriteResult :=
  if packet.link_type = .TRACE_TYPE_NONDATA then
    { ret := .ok 0, exit := .not_reached, libtrace := libtrace, format_data := out,
      mem := mem, bytes := bytes, calls := [] }
  else
    let max_size :=
      u32_of_int ((out.req.tp_frame_size : Int) - (TPACKET2_HDRLEN : Int) +
        (sizeof_sockaddr_ll : Int))
    let header := out.tx_ring + u32 (u32_of_int out.txring_offset * out.req.tp_frame_size)
    let l := tx_wait_loop out.fd header env.waits mem []
    match l.exit with
    | .poll_failed _ =>
      { ret := .ok (-1), exit := l.exit, libtrace := libtrace, format_data := out,
        mem := l.mem, bytes := bytes, calls := l.calls }
    | .send_failed e =>
      { ret := .ok (-1), exit := l.exit,
        libtrace := trace_set_err_out libtrace (.errno e) "sendto after timeout failed",
        format_data := out, mem := l.mem, bytes := bytes, calls := l.calls }
    | .blocked =>
      { ret := .error .nontermination, exit := l.exit, libtrace := libtrace,
        format_data := out, mem := l.mem, bytes := bytes, calls := l.calls }
    | .not_reached =>
      { ret := .error .nontermination, exit := l.exit, libtrace := libtrace,
        format_data := out, mem := l.mem, bytes := bytes, calls := l.calls }
    | .frame_available =>
      let len0 := u32 packet.capture_length
      let len := if len0 > max_size then max_size else len0
      let off := header + (TPACKET2_HDRLEN - sizeof_sockaddr_ll)
      let bytes1 : Nat → Nat :=
        fun a => if off ≤ a ∧ a < off + len then packet.payload (a - off) else bytes a
      let mem1 : Memory :=
        fun a =>
          if a = header then
            { l.mem a with tp_len := len, tp_status := TP_STATUS_SEND_REQUEST }
          else l.mem a
      if out.req.tp_frame_nr = 0 then
        { ret := .error .division_by_zero, exit := l.exit, libtrace := libtrace,
          format_data := out, mem := mem1, bytes := bytes1, calls := l.calls }
      else
        let out1 :=
          { out with
            txring_offset :=
              int_of_u32 (u32_of_int (out.txring_offset + 1) % out.req.tp_frame_nr) }
        if c.TX_MAX_QUEUE = 0 then
          { ret := .error .division_by_zero, exit := l.exit, libtrace := libtrace,
            format_data := out1, mem := mem1, bytes := bytes1, calls := l.calls }
        else
          let out2 := { out1 with queue := Int.tmod (out.queue + 1) c.TX_MAX_QUEUE }
          if out2.queue = 0 then
            let calls1 := l.calls ++ [Syscall.sendto out.fd true]
            match env.flush with
            | .failure e =>
              { ret := .ok (-1), exit := l.exit,
                libtrace := trace_set_err_out libtrace (.errno e) "sendto failed",
                format_data := out2, mem := mem1, bytes := bytes1, calls := calls1 }
            | .success =>
              { ret := .ok (int_of_u32 len), exit := l.exit, libtrace := libtrace,
                format_data := out2, mem := mem1, bytes := bytes1, calls := calls1 }
          else
            { ret := .ok (int_of_u32 len), exit := l.exit, libtrace := libtrace,
              format_data := out2, mem := mem1, bytes := bytes1, calls := l.calls }

/-! ## Further concrete inputs -/

/-- Link memory in which the frame at address 4096 was received on an Ethernet
interface and every other entry is zero. -/
def ether_link_memory : LinkMemory :=
  fun a =>
    if a = 4096 then { sll_hatype := LIBTRACE_ARPHRD_ETHER, sll_pkttype := 0 }
    else { sll_hatype := 0, sll_pkttype := 0 }

/-- A kernel that accepts the first ring request and maps the ring at address 4096, on an
interface with MTU 1500 and 4096-byte pages. -/
def kernel_ring_ok : RingKernel :=
  { pagesize := 4096, ifr_mtu := some 1500, version := .success,
    ring := fun _ => .success, mmap := 4096 }

/-- Answers for the start of a stream on which everything succeeds. -/
def stream_kernel_ok : StreamKernel :=
  { start := start_kernel_ok, ring := kernel_ring_ok }

/-- Fanout answers: the first two joins succeed, every later one fails with `EINVAL`. -/
def fanout_third_fails : Nat → SyscallResult :=
  fun i => if i < 2 then .success else .failure 22

/-- Fanout answers: every join fails with `EINVAL`. -/
def fanout_fails : Nat → SyscallResult :=
  fun _ => .failure 22

/-- A trace on `eth0` with three worker threads. -/
def trace_three_threads : libtrace_t :=
  { uridata := "eth0", err := none, started := false, perpkt_thread_count := 3 }

/-- Format data with two streams, the first invalid and the second live, and invalid
totals. -/
def stats_format_data : linux_format_data_t :=
  { init_format_data libtrace_consts 7 with
    per_stream :=
      [{ fd := -1, rx_ring := MAP_FAILED, rxring_offset := 0 },
       { fd := 4, rx_ring := 4096, rxring_offset := 0 }] }

/-- Format data with two live streams and invalid totals. -/
def two_live_format_data : linux_format_data_t :=
  { init_format_data libtrace_consts 7 with
    per_stream :=
      [{ fd := 3, rx_ring := 4096, rxring_offset := 0 },
       { fd := 4, rx_ring := 8192, rxring_offset := 0 }] }

/-- Kernel counters: 100 packets and 5 drops for the stream at position 1, no answer for
any other. -/
def query_second : Nat → Option tpacket_stats :=
  fun i => if i = 1 then some { tp_packets := 100, tp_drops := 5 } else none

/-- Kernel counters: 100 packets and 5 drops for the stream at position 0, 50 packets
and 2 drops for every other stream. -/
def query_two : Nat → Option tpacket_stats :=
  fun i =>
    if i = 0 then some { tp_packets := 100, tp_drops := 5 }
    else some { tp_packets := 50, tp_drops := 2 }

/-- Kernel counters: no query succeeds. -/
def query_none : Nat → Option tpacket_stats :=
  fun _ => none

/-- The ring request `calculate_buffers` computes for 4096-byte pages, MTU 1500 and
`max_order` 10 with the constants of libtrace. -/
def ring_req : tpacket_req :=
  { tp_block_size := 1048576, tp_block_nr := 1, tp_frame_size := 4096, tp_frame_nr := 256 }

/-- Format data of a started capture with the default snap length. -/
def ring_format_data : linux_format_data_t :=
  { init_format_data libtrace_consts 7 with
    per_stream := [{ fd := 3, rx_ring := 1048576, rxring_offset := 0 }],
    promisc := 1, req := ring_req }

/-- A live stream whose ring is mapped at address 1048576, with the cursor on the first
frame. -/
def live_stream : linux_per_stream_t :=
  { fd := 3, rx_ring := 1048576, rxring_offset := 0 }

/-- A packet that holds no buffer. -/
def empty_packet : libtrace_packet_t :=
  { buffer := NULL, header := NULL, payload := NULL, buf_control := .TRACE_CTRL_PACKET,
    capture_length := -1, type := .other_rt_type 0 }

/-- A frame header the kernel has handed over: a packet of 9000 bytes of which the frame
of 4096 bytes holds the first 4030. -/
def truncated_frame : tpacket2_hdr :=
  { tp_status := TP_STATUS_USER, tp_len := 9000, tp_snaplen := 4030, tp_mac := 66,
    tp_net := 80, tp_sec := 0, tp_nsec := 0 }

/-- Memory in which the first frame of the ring at 1048576 is `truncated_frame` and every
other frame header is zero. -/
def truncated_frame_memory : Memory :=
  fun a => if a = 1048576 then truncated_frame else zero_memory a

/-- A frame header the kernel has handed over: a packet of 65550 bytes, as the loopback
interface carries them, of which the frame holds 4000. -/
def large_frame : tpacket2_hdr :=
  { tp_status := TP_STATUS_USER, tp_len := 65550, tp_snaplen := 4000, tp_mac := 66,
    tp_net := 80, tp_sec := 0, tp_nsec := 0 }

/-- Memory in which the first frame of the ring at 1048576 is `large_frame` and every
other frame header is zero. -/
def large_frame_memory : Memory :=
  fun a => if a = 1048576 then large_frame else zero_memory a

/-- A read that finds its frame without waiting. -/
def read_env_no_wait : ReadEnv :=
  { pagesize := 4096, with_queue := false, waits := [] }

/-- A read whose first `poll` is interrupted by a signal; by then the kernel has written
`truncated_frame` into the frame at the cursor. -/
def read_env_interrupted : ReadEnv :=
  { pagesize := 4096, with_queue := false,
    waits := [{ poll := .failed EINTR, halt := false, frame := some truncated_frame }] }

/-- Output format data of a started output trace whose ring is mapped at 2097152. -/
def ring_format_data_out : linux_format_data_out_t :=
  { fd := 5, tx_ring := 2097152, txring_offset := 0, queue := 0, max_order := 10,
    req := ring_req }

/-- An output trace on `eth0` without error. -/
def trace_out_eth0 : libtrace_out_t :=
  { uridata := "eth0", err := none }

/-- Memory in which the first frame of the transmit ring at 2097152 is still waiting to be
sent and every other frame header is zero. -/
def busy_tx_memory : Memory :=
  fun a =>
    if a = 2097152 then
      { tp_status := TP_STATUS_SEND_REQUEST, tp_len := 60, tp_snaplen := 0, tp_mac := 0,
        tp_net := 0, tp_sec := 0, tp_nsec := 0 }
    else zero_memory a

/-- A write whose first `poll` is interrupted by a signal; by then the kernel has sent the
frame at the cursor and made it available. -/
def write_env_interrupted : WriteEnv :=
  { waits := [{ poll := .failed EINTR, sendto := .success, status := some TP_STATUS_AVAILABLE }],
    flush := .success }

/-- An Ethernet packet of 60 bytes, all zero, to be written. -/
def tx_packet_60 : TxPacket :=
  { link_type := .TRACE_TYPE_ETH, capture_length := 60, payload := fun _ => 0 }

/-! ## Packet direction -/

/-- Packet type `PACKET_HOST` of `linux/if_packet.h`: addressed to this host. -/
def PACKET_HOST : Nat := 0

/-- Packet type `PACKET_OTHERHOST`: addressed to another host. -/
def PACKET_OTHERHOST : Nat := 3

/-- Packet type `PACKET_OUTGOING`: sent by this host. -/
def PACKET_OUTGOING : Nat := 4

/-- Packet type `PACKET_LOOPBACK`: looped back to a packet socket. -/
def PACKET_LOOPBACK : Nat := 5

/-- Directions, `libtrace_direction_t`: the enumerators of libtrace.h, or a value that is
none of them, such as the `-1` that `linuxcommon_set_direction` returns. -/
inductive libtrace_direction_t where
  | TRACE_DIR_OUTGOING
  | TRACE_DIR_INCOMING
  | TRACE_DIR_OTHER
  | TRACE_DIR_UNKNOWN
  | not_a_direction (value : Int)
  deriving DecidableEq, Repr

/-- The function `linuxcommon_get_direction` (format_linux_common.c, lines 622-633). -/
def linuxcommon_get_direction (pkttype : Nat) : libtrace_direction_t :=
  if pkttype = PACKET_OUTGOING ∨ pkttype = PACKET_LOOPBACK then .TRACE_DIR_OUTGOING
  else if pkttype = PACKET_OTHERHOST then .TRACE_DIR_OTHER
  else .TRACE_DIR_INCOMING

/-- State after `linuxcommon_set_direction`: the value returned and the address
structure. -/
structure SetDirectionResult where
  ret : libtrace_direction_t
  skadr : sockaddr_ll
  deriving DecidableEq, Repr

/-- The function `linuxcommon_set_direction` (format_linux_common.c, lines 635-652). -/
def linuxcommon_set_direction (skadr : sockaddr_ll) (direction : libtrace_direction_t) :
    SetDirectionResult :=
  match direction with
  | .TRACE_DIR_OUTGOING =>
    { ret := .TRACE_DIR_OUTGOING, skadr := { skadr with sll_pkttype := PACKET_OUTGOING } }
  | .TRACE_DIR_INCOMING =>
    { ret := .TRACE_DIR_INCOMING, skadr := { skadr with sll_pkttype := PACKET_HOST } }
  | .TRACE_DIR_OTHER =>
    { ret := .TRACE_DIR_OTHER, skadr := { skadr with sll_pkttype := PACKET_OTHERHOST } }
  | _ => { ret := .not_a_direction (-1), skadr := skadr }

/-- The function `linuxring_get_direction` (format_linux_ring.c, lines 358-362). -/
def linuxring_get_direction (sll : LinkMemory) (packet : libtrace_packet_t) :
    libtrace_direction_t :=
  linuxcommon_get_direction (sll packet.buffer).sll_pkttype

/-- The function `linuxring_set_direction` (format_linux_ring.c, lines 364-368): the value
returned and the address structures afterwards. -/
def linuxring_set_direction (sll : LinkMemory) (packet : libtrace_packet_t)
    (direction : libtrace_direction_t) : libtrace_direction_t × LinkMemory :=
  let r := linuxcommon_set_direction (sll packet.buffer) direction
  (r.ret, fun a => if a = packet.buffer then r.skadr else sll a)

/-! ## Sequences of reads and writes -/

/-- Address of the frame at the write cursor, the value given to `header` in lines 615-617
of `linuxring_write_packet`. -/
def tx_frame_address (out : linux_format_data_out_t) : Nat :=
  out.tx_ring + u32 (u32_of_int out.txring_offset * out.req.tp_frame_size)

/-- The value given to `max_size` in lines 612-613 of `linuxring_write_packet`. -/
def tx_max_size (out : linux_format_data_out_t) : Nat :=
  u32_of_int ((out.req.tp_frame_size : Int) - (TPACKET2_HDRLEN : Int) +
    (sizeof_sockaddr_ll : Int))

/-- One call in a sequence of calls of `linuxring_write_packet`. -/
structure WriteCall where
  env : WriteEnv
  /-- What the kernel has done to the frame headers since the previous call returned. -/
  kernel : Memory → Memory
  packet : TxPacket

/-- A caller that hands packets to `linuxring_write_packet` one after the other on one
output trace, each call starting from the state the previous one left; it ends when the
process stops.  The result lists the states after the calls made, in order. -/
def write_packets (c : Consts) :
    List WriteCall → libtrace_out_t → linux_format_data_out_t → Memory → (Nat → Nat) →
      List WriteResult
  | [], _, _, _, _ => []
  | w :: rest, libtrace, out, mem, bytes =>
    let r := linuxring_write_packet c w.env libtrace out (w.kernel mem) bytes w.packet
    match r.ret with
    | .error _ => [r]
    | .ok _ => r :: write_packets c rest r.libtrace r.format_data r.mem r.bytes

/-- Whether a call of `linuxring_write_packet` submitted a frame: its wait ended with the
frame at the cursor available (lines 647-677 were entered). -/
def submitted (r : WriteResult) : Bool :=
  decide (r.exit = .frame_available)

/-- Whether a call of `linuxring_write_packet` issued the non-blocking `sendto` of lines
666-671. -/
def flushed (r : WriteResult) : Bool :=
  decide (Syscall.sendto r.format_data.fd true ∈ r.calls)

/-- Number of calls in a list that submitted a frame. -/
def submissions (rs : List WriteResult) : Nat :=
  (rs.filter submitted).length

/-- One call in a sequence of calls of `linuxring_read_stream`. -/
structure ReadCall where
  env : ReadEnv
  /-- What the kernel has done to the frame headers since the previous call returned. -/
  kernel : Memory → Memory

/-- A caller that reads packets with `linuxring_read_stream` one after the other from one
stream into one packet, each call starting from the state the previous one left; it ends
when the process stops.  The result lists the states after the calls made, in order. -/
def read_packets (c : Consts) (fmt : linux_format_data_t) :
    List ReadCall → libtrace_t → linux_per_stream_t → Memory → libtrace_packet_t →
      List ReadResult
  | [], _, _, _, _ => []
  | w :: rest, libtrace, stream, mem, packet =>
    let r := linuxring_read_stream c w.env libtrace fmt stream (w.kernel mem) packet
    match r.ret with
    | .error _ => [r]
    | .ok _ => r :: read_packets c fmt rest r.libtrace r.stream r.mem r.packet

/-! ## The TZSP live format -/

/-- Content of byte memory: the byte found at each address. -/
abbrev ByteMemory := Nat → Nat

/-- The errno value `EAGAIN`. -/
def EAGAIN : Nat := 11

/-- The errno value `EWOULDBLOCK`, on Linux the same as `EAGAIN`. -/
def EWOULDBLOCK : Nat := 11

/-- Size of the packed `tzsp_header_t`: version, type and a 16-bit encapsulation. -/
def sizeof_tzsp_header_t : Nat := 4

/-- The member `socket` of `tzsp_format_data_t`, the only one the translated functions
use. -/
structure tzsp_format_data_t where
  socket : Int
  deriving DecidableEq, Repr

/-- The member `outsocket` of `tzsp_format_data_out_t`, the only one the model keeps; the
destination address `listenai` is not modelled. -/
structure tzsp_format_data_out_t where
  outsocket : Int
  deriving DecidableEq, Repr

/-- The cached lengths of a packet, the member `cached` of `libtrace_packet_t` as
format_tzsplive.c uses it; a negative value means that nothing is cached. -/
structure libtrace_packet_cache_t where
  framing_length : Int
  capture_length : Int
  deriving DecidableEq, Repr

/-- The fields of `libtrace_packet_t` that the functions of format_tzsplive.c use.  The
target of `packet->trace` is passed on its own. -/
structure tzsp_packet_t where
  buffer : Nat
  header : Nat
  payload : Nat
  buf_control : buf_control_t
  type : libtrace_rt_types_t
  cached : libtrace_packet_cache_t
  deriving DecidableEq, Repr

/-- The function `tzsplive_can_write` (format_tzsplive.c, lines 43-56); `ltype` is what
`trace_get_link_type(packet)` returns. -/
def tzsplive_can_write (ltype : libtrace_linktype_t) : Bool :=
  if ltype = .TRACE_TYPE_CONTENT_INVALID ∨ ltype = .TRACE_TYPE_UNKNOWN ∨
      ltype = .TRACE_TYPE_ERF_META ∨ ltype = .TRACE_TYPE_NONDATA ∨
      ltype = .TRACE_TYPE_PCAPNG_META then false
  else true

/-- The `while` loop of `tzsplive_get_option` (lines 278-291) from the tag at address
`ptr`.  Every round moves the pointer forward by at least one byte; the first argument
bounds the rounds, after which the pointer has left a buffer of that many bytes. -/
def tzsplive_get_option_loop (c : Consts) (bytes : ByteMemory) (option : Nat) :
    Nat → Nat → Except Fault Nat
  | 0, _ => .error .buffer_overflow
  | fuel + 1, ptr =>
    if bytes ptr ≠ option then
      if bytes ptr = c.TZSP_TAG_END then .ok NULL
      else if bytes ptr = c.TZSP_TAG_PADDING then
        tzsplive_get_option_loop c bytes option fuel (ptr + 1)
      else tzsplive_get_option_loop c bytes option fuel (ptr + (2 + bytes (ptr + 1)))
    else .ok ptr

/-- The function `tzsplive_get_option` (format_tzsplive.c, lines 260-294): the pointer
returned (`NULL` when the option is not found) and the trace `packet->trace` afterwards. -/
def tzsplive_get_option (c : Consts) (bytes : ByteMemory) (libtrace : libtrace_t)
    (packet : tzsp_packet_t) (option : Nat) : Except Fault Nat × libtrace_t :=
  if packet.buffer = NULL then (.error .null_dereference, libtrace)
  else if bytes packet.buffer ≠ 1 then
    (.ok NULL,
      trace_set_err libtrace .TRACE_ERR_UNSUPPORTED
        ("TZSP version " ++ toString (bytes packet.buffer) ++ " is not supported\n"))
  else
    (tzsplive_get_option_loop c bytes option c.LIBTRACE_PACKET_BUFSIZE
      (packet.buffer + sizeof_tzsp_header_t), libtrace)

/-- The function `tzsplive_get_packet_payload` (format_tzsplive.c, lines 296-309). -/
def tzsplive_get_packet_payload (c : Consts) (bytes : ByteMemory) (libtrace : libtrace_t)
    (packet : tzsp_packet_t) : Except Fault Nat × libtrace_t :=
  let r := tzsplive_get_option c bytes libtrace packet c.TZSP_TAG_END
  match r.1 with
  | .error f => (.error f, r.2)
  | .ok ptr => if ptr = NULL then (.ok NULL, r.2) else (.ok (ptr + 1), r.2)

/-- State after `tzsplive_prepare_packet`. -/
structure TzspPrepareResult where
  ret : Except Fault Int
  libtrace : libtrace_t
  packet : tzsp_packet_t
  calls : List Syscall

/-- The function `tzsplive_prepare_packet` (format_tzsplive.c, lines 311-332).
`own_buffer` tells whether `flags` has `TRACE_PREP_OWN_BUFFER` set. -/
def tzsplive_prepare_packet (c : Consts) (bytes : ByteMemory) (libtrace : libtrace_t)
    (packet : tzsp_packet_t) (buffer : Nat) (rt_type : libtrace_rt_types_t)
    (own_buffer : Bool) : TzspPrepareResult :=
  let calls :=
    if packet.buffer ≠ buffer ∧ packet.buf_control = .TRACE_CTRL_PACKET then
      [Syscall.free packet.buffer]
    else []
  let control : buf_control_t :=
    if own_buffer then .TRACE_CTRL_PACKET else .TRACE_CTRL_EXTERNAL
  let packet1 : tzsp_packet_t :=
    { packet with buf_control := control, type := rt_type, buffer := buffer, header := buffer }
  let p := tzsplive_get_packet_payload c bytes libtrace packet1
  match p.1 with
  | .error f => { ret := .error f, libtrace := p.2, packet := packet1, calls := calls }
  | .ok payload =>
    { ret := .ok 0, libtrace := p.2, packet := { packet1 with payload := payload },
      calls := calls }

/-- The function `tzsplive_get_framing_length` (format_tzsplive.c, lines 537-546). -/
def tzsplive_get_framing_length (c : Consts) (bytes : ByteMemory) (libtrace : libtrace_t)
    (packet : tzsp_packet_t) : Except Fault Int × libtrace_t :=
  let p := tzsplive_get_packet_payload c bytes libtrace packet
  match p.1 with
  | .error f => (.error f, p.2)
  | .ok payload =>
    if payload ≠ NULL then (.ok ((payload : Int) - (packet.buffer : Int)), p.2)
    else (.ok 0, p.2)

/-- The function `tzsplive_get_capture_length` (format_tzsplive.c, lines 523-525). -/
def tzsplive_get_capture_length (packet : tzsp_packet_t) : Int :=
  packet.cached.capture_length

/-- State after `trace_get_framing_length`: the value returned, the trace and the
packet. -/
structure FramingResult where
  ret : Except Fault Nat
  libtrace : libtrace_t
  packet : tzsp_packet_t

/-- Modelled from the spec: `trace_get_framing_length` of `trace.c` for a TZSP packet.  A
packet has a "cached length"; the framing length reported is the cached one when one is
cached (it is not negative), and otherwise the one the format's `get_framing_length`
entry, `tzsplive_get_framing_length` (line 581), returns, which is then cached.  The
result is a `size_t`. -/
def trace_get_framing_length (c : Consts) (bytes : ByteMemory) (libtrace : libtrace_t)
    (packet : tzsp_packet_t) : FramingResult :=
  if 0 ≤ packet.cached.framing_length then
    { ret := .ok (size_t_of_int packet.cached.framing_length), libtrace := libtrace,
      packet := packet }
  else
    let f := tzsplive_get_framing_length c bytes libtrace packet
    match f.1 with
    | .error e => { ret := .error e, libtrace := f.2, packet := packet }
    | .ok v =>
      { ret := .ok (size_t_of_int v), libtrace := f.2,
        packet := { packet with cached := { packet.cached with framing_length := v } } }

/-- What `recv` returns: a failure with the errno set, or the bytes of the datagram
received. -/
inductive RecvResult where
  | failed (errno : Nat)
  | datagram (bytes : List Nat)
  deriving DecidableEq, Repr

/-- Answers of the operating system to `tzsplive_read_packet`. -/
structure TzspReadEnv where
  /-- Pointer returned by `malloc`, `NULL` when it fails. -/
  malloc : Nat
  /-- Value of `errno` after a failed `malloc`. -/
  malloc_errno : Nat
  recv : RecvResult
  /-- The text `strerror` gives for an errno value. -/
  strerror : Nat → String

/-- State after `tzsplive_read_packet`: the value returned (or how the process stopped)
and the state left behind. -/
structure TzspReadResult where
  ret : Except Fault Int
  libtrace : libtrace_t
  format_data : Option tzsp_format_data_t
  packet : tzsp_packet_t
  bytes : ByteMemory
  calls : List Syscall

/-- The value an `int` takes from a 64-bit unsigned result. -/
def int_of_size_t (n : Int) : Int := int_of_u32 (u32_of_int n)

/-- Lines 373-388 of `tzsplive_read_packet`: what follows the call of `recv`, which has
returned `ret`. -/
def tzsp_read_datagram (c : Consts) (libtrace : libtrace_t) (fd : tzsp_format_data_t)
    (bytes : ByteMemory) (packet : tzsp_packet_t) (ret : Int) (calls : List Syscall) :
    TzspReadResult :=
  if ret < (sizeof_tzsp_header_t : Int) then
    { ret := .ok (-1),
      libtrace := trace_set_err libtrace .TRACE_ERR_BAD_PACKET "Incomplete TZSP header",
      format_data := some fd, packet := packet, bytes := bytes, calls := calls }
  else
    let p := tzsplive_prepare_packet c bytes libtrace packet packet.buffer
      .TRACE_RT_DATA_TZSP true
    match p.ret with
    | .error f =>
      { ret := .error f, libtrace := p.libtrace, format_data := some fd, packet := p.packet,
        bytes := bytes, calls := calls ++ p.calls }
    | .ok v =>
      if v ≠ 0 then
        { ret := .ok (-1), libtrace := p.libtrace, format_data := some fd,
          packet := p.packet, bytes := bytes, calls := calls ++ p.calls }
      else
        let f1 := trace_get_framing_length c bytes p.libtrace p.packet
        match f1.ret with
        | .error f =>
          { ret := .error f, libtrace := f1.libtrace, format_data := some fd,
            packet := f1.packet, bytes := bytes, calls := calls ++ p.calls }
        | .ok n1 =>
          let packet1 : tzsp_packet_t :=
            { f1.packet with
              cached := { f1.packet.cached with framing_length := int_of_size_t n1 } }
          let f2 := trace_get_framing_length c bytes f1.libtrace packet1
          match f2.ret with
          | .error f =>
            { ret := .error f, libtrace := f2.libtrace, format_data := some fd,
              packet := f2.packet, bytes := bytes, calls := calls ++ p.calls }
          | .ok n2 =>
            { ret := .ok ret, libtrace := f2.libtrace, format_data := some fd,
              packet :=
                { f2.packet with
                  cached :=
                    { f2.packet.cached with
                      capture_length := int_of_size_t (ret - (n2 : Int)) } },
              bytes := bytes, calls := calls ++ p.calls }

/-- The function `tzsplive_read_packet` (format_tzsplive.c, lines 334-389).  `format_data`
is `libtrace->format_data`, `none` for a null pointer. -/
def tzsplive_read_packet (c : Consts) (env : TzspReadEnv) (libtrace : libtrace_t)
    (format_data : Option tzsp_format_data_t) (bytes : ByteMemory)
    (packet : tzsp_packet_t) : TzspReadResult :=
  match format_data with
  | none =>
    { ret := .ok (-1),
      libtrace := trace_set_err libtrace .TRACE_ERR_BAD_FORMAT
        ("Trace format data missing, " ++
          "call trace_create() before calling trace_read_packet()"),
      format_data := none, packet := packet, bytes := bytes, calls := [] }
  | some fd =>
    let fresh : Bool :=
      decide (packet.buffer = NULL ∨ packet.buf_control = .TRACE_CTRL_EXTERNAL)
    let packet1 : tzsp_packet_t :=
      if fresh then { packet with buffer := env.malloc } else packet
    let calls1 := if fresh then [Syscall.malloc c.LIBTRACE_PACKET_BUFSIZE] else []
    if fresh ∧ env.malloc = NULL then
      { ret := .ok (-1),
        libtrace := trace_set_err libtrace (.errno env.malloc_errno)
          "Unable to allocate memory for packet buffer",
        format_data := some fd, packet := packet1, bytes := bytes, calls := calls1 }
    else
      let calls2 := calls1 ++ [Syscall.recv fd.socket c.LIBTRACE_PACKET_BUFSIZE]
      match env.recv with
      | .failed e =>
        if e = EAGAIN ∨ e = EWOULDBLOCK then
          { ret := .ok 0, libtrace := libtrace, format_data := some fd, packet := packet1,
            bytes := bytes, calls := calls2 }
        else
          let libtrace1 := trace_set_err libtrace trace_err_t.TRACE_ERR_BAD_IO
            ("Error receiving on socket " ++ toString fd.socket ++ ": " ++ env.strerror e)
          if fd.socket ≥ 0 then
            { ret := .ok (-1), libtrace := libtrace1,
              format_data := some { fd with socket := -1 }, packet := packet1,
              bytes := bytes, calls := calls2 ++ [Syscall.close fd.socket] }
          else tzsp_read_datagram c libtrace1 fd bytes packet1 (-1) calls2
      | .datagram d =>
        let n := min d.length c.LIBTRACE_PACKET_BUFSIZE
        let bytes1 : ByteMemory :=
          fun a =>
            if packet1.buffer ≤ a ∧ a < packet1.buffer + n then d.getD (a - packet1.buffer) 0
            else bytes a
        tzsp_read_datagram c libtrace fd bytes1 packet1 (n : Int) calls2

/-- What the libtrace accessors report for the packet handed to `tzsplive_write_packet`. -/
structure TzspTxPacket where
  /-- Result of `trace_get_link_type(packet)`. -/
  link_type : libtrace_linktype_t
  /-- Result of `libtrace_to_tzsp_type` (linktypes.c) on that link type. -/
  tzsp_type : Nat
  /-- Whether `packet->trace->format->type` is `TRACE_FORMAT_TZSPLIVE`. -/
  from_tzsplive : Bool
  /-- Result of `trace_get_capture_length(packet)`. -/
  capture_length : Nat
  /-- Result of `trace_get_framing_length(packet)`. -/
  framing_length : Nat
  /-- The bytes at `packet->buffer`, by offset. -/
  buffer : Nat → Nat
  /-- The bytes at `packet->payload`, by offset. -/
  payload : Nat → Nat

/-- Answers of the operating system to `tzsplive_write_packet`. -/
structure TzspWriteEnv where
  /-- Pointer returned by `malloc`, `NULL` when it fails. -/
  malloc : Nat
  /-- Content of the allocated buffer before it is written, by offset. -/
  heap : Nat → Nat
  /-- Value returned by `sendto`. -/
  sendto : Int
  /-- Value of `errno` after `sendto`. -/
  sendto_errno : Nat
  /-- The text `strerror` gives for an errno value. -/
  strerror : Nat → String

/-- State after `tzsplive_write_packet`: the value returned (or how the process stopped),
the output trace, and the datagram handed to `sendto`, if any. -/
structure TzspWriteResult where
  ret : Except Fault Int
  libtrace : Option libtrace_out_t
  datagram : Option (List Nat)
  calls : List Syscall

/-- Lines 472-479 of `tzsplive_write_packet`: the check on the number of bytes sent. -/
def tzsp_sent (env : TzspWriteEnv) (libtrace : libtrace_out_t) (out : tzsp_format_data_out_t)
    (to_send : Int) (datagram : List Nat) (calls : List Syscall) : TzspWriteResult :=
  { ret := .ok env.sendto,
    libtrace :=
      if env.sendto ≠ to_send then
        some (trace_set_err_out libtrace trace_err_t.TRACE_ERR_BAD_IO
          ("Error sending on socket " ++ toString out.outsocket ++ ": " ++
            env.strerror env.sendto_errno))
      else some libtrace,
    datagram := some datagram,
    calls := calls ++ [Syscall.sendto_bytes out.outsocket datagram] }

/-- Content of the output buffer `buf` of `tzsplive_write_packet` after lines 449-458, by
offset: the TZSP header (version 1, type 1, the encapsulation in network byte order), the
end tag written as 1, and the payload of the packet; the rest is what `malloc` left. -/
def tzsp_output_buffer (env : TzspWriteEnv) (packet : TzspTxPacket) : Nat → Nat :=
  fun i =>
    if i = 0 then 1
    else if i = 1 then 1
    else if i = 2 then packet.tzsp_type / 256 % 256
    else if i = 3 then packet.tzsp_type % 256
    else if i = 4 then 1
    else if i < 5 + packet.capture_length then packet.payload (i - 5)
    else env.heap i

/-- The function `tzsplive_write_packet` (format_tzsplive.c, lines 391-480).  `libtrace` is
`none` for a null pointer; the packet, which `tzsplive_can_write` has read through, is not
null.  Copying more than the `LIBTRACE_PACKET_BUFSIZE` bytes that `buf` holds stops the
model with `Fault.buffer_overflow`. -/
def tzsplive_write_packet (c : Consts) (env : TzspWriteEnv) (libtrace : Option libtrace_out_t)
    (out : tzsp_format_data_out_t) (packet : TzspTxPacket) : TzspWriteResult :=
  if tzsplive_can_write packet.link_type = false then
    { ret := .ok 0, libtrace := libtrace, datagram := none, calls := [] }
  else
    match libtrace with
    | none => { ret := .ok (-1), libtrace := none, datagram := none, calls := [] }
    | some lt =>
      if packet.from_tzsplive then
        let to_send := int_of_u32 (u32 (packet.capture_length + packet.framing_length))
        tzsp_sent env lt out to_send ((List.range to_send.toNat).map packet.buffer) []
      else
        let calls1 := [Syscall.malloc c.LIBTRACE_PACKET_BUFSIZE]
        if env.malloc = NULL then
          { ret := .ok (-1),
            libtrace := some (trace_set_err_out lt .TRACE_ERR_OUT_OF_MEMORY
              "Unable to allocate memory for output buffer\n"),
            datagram := none, calls := calls1 }
        else
          let to_send := int_of_u32 (u32 (1 + 1 + 2 + 1 + packet.capture_length))
          if c.LIBTRACE_PACKET_BUFSIZE < 5 + packet.capture_length then
            { ret := .error .buffer_overflow, libtrace := some lt, datagram := none,
              calls := calls1 }
          else
            let r := tzsp_sent env lt out to_send
              ((List.range to_send.toNat).map (tzsp_output_buffer env packet)) calls1
            { r with calls := r.calls ++ [Syscall.free env.malloc] }

/-! ## Concrete inputs for binding, reading and writing -/

/-- A kernel on which `socket()` and the interface lookup succeed and `bind()` is refused
with `ENODEV` (19). -/
def start_kernel_bind_refused : StartKernel :=
  { start_kernel_ok with bind := .failure 19 }

/-- A write that finds its frame without waiting and whose flush succeeds. -/
def write_env_no_wait : WriteEnv :=
  { waits := [], flush := .success }

/-- A write that finds its frame without waiting and whose flush is refused with `ENOBUFS`
(105). -/
def write_env_flush_fails : WriteEnv :=
  { waits := [], flush := .failure 105 }

/-- An Ethernet packet of 9000 bytes, all zero, to be written. -/
def tx_packet_9000 : TxPacket :=
  { link_type := .TRACE_TYPE_ETH, capture_length := 9000, payload := fun _ => 0 }

/-- A packet that carries no data, to be written. -/
def tx_packet_nondata : TxPacket :=
  { link_type := .TRACE_TYPE_NONDATA, capture_length := 0, payload := fun _ => 0 }

/-- A ring request for one block of two frames of 4096 bytes. -/
def two_frame_req : tpacket_req :=
  { tp_block_size := 8192, tp_block_nr := 1, tp_frame_size := 4096, tp_frame_nr := 2 }

/-- Format data of a started capture on a ring of two frames. -/
def two_frame_format_data : linux_format_data_t :=
  { ring_format_data with req := two_frame_req }

/-- A frame header the kernel has handed over: a packet of 60 bytes, all captured. -/
def small_frame : tpacket2_hdr :=
  { tp_status := TP_STATUS_USER, tp_len := 60, tp_snaplen := 60, tp_mac := 66, tp_net := 80,
    tp_sec := 0, tp_nsec := 0 }

/-- Memory in which the two frames of the ring at 1048576 both hold `small_frame` and every
other frame header is zero. -/
def two_frames_memory : Memory :=
  fun a => if a = 1048576 ∨ a = 1052672 then small_frame else zero_memory a

/-- Two reads that find their frames without waiting, the kernel leaving the ring alone in
between. -/
def two_reads : List ReadCall :=
  [{ env := read_env_no_wait, kernel := id }, { env := read_env_no_wait, kernel := id }]

/-- Output format data of a started output trace on a ring of two frames. -/
def two_frame_format_data_out : linux_format_data_out_t :=
  { ring_format_data_out with req := two_frame_req }

/-- Two writes of a packet of 60 bytes that find their frames without waiting, the kernel
leaving the ring alone in between. -/
def two_writes : List WriteCall :=
  [{ env := write_env_no_wait, kernel := id, packet := tx_packet_60 },
   { env := write_env_no_wait, kernel := id, packet := tx_packet_60 }]

/-- A live stream whose ring is mapped at address 1048576, with the cursor on the second
frame. -/
def live_stream_second : linux_per_stream_t :=
  { fd := 3, rx_ring := 1048576, rxring_offset := 1 }

/-- A packet that borrows the first frame of the ring at 1048576. -/
def first_frame_packet : libtrace_packet_t :=
  { buffer := 1048576, header := 1048576, payload := 1048642,
    buf_control := .TRACE_CTRL_EXTERNAL, capture_length := -1,
    type := .TRACE_RT_DATA_LINUX_RING }

/-- A read in a packet thread that is woken once, by the message queue only. -/
def read_env_message : ReadEnv :=
  { pagesize := 4096, with_queue := true,
    waits := [{ poll := .ready false, halt := false, frame := none }] }

/-- An Ethernet packet of another format with three captured bytes, to be written as
TZSP; Ethernet is encapsulation 1. -/
def tzsp_tx_packet : TzspTxPacket :=
  { link_type := .TRACE_TYPE_ETH, tzsp_type := 1, from_tzsplive := false,
    capture_length := 3, framing_length := 16, buffer := fun _ => 0,
    payload := fun i => 170 + i }

/-- A TZSP write for which `malloc` and `sendto` succeed. -/
def tzsp_write_env : TzspWriteEnv :=
  { malloc := 8192, heap := fun _ => 0, sendto := 8, sendto_errno := 0,
    strerror := fun _ => "" }

/-- An output trace for TZSP without error. -/
def tzsp_trace_out : libtrace_out_t :=
  { uridata := "127.0.0.1:37008", err := none }

/-- The datagram `tzsplive_write_packet` builds for `tzsp_tx_packet`. -/
def tzsp_datagram : List Nat := [1, 1, 0, 1, 1, 170, 171, 172]

/-- A TZSP read that receives `tzsp_datagram` into a buffer allocated at 16384. -/
def tzsp_read_env : TzspReadEnv :=
  { malloc := 16384, malloc_errno := 0, recv := .datagram tzsp_datagram,
    strerror := fun _ => "" }

/-- A packet that holds no buffer and caches no length. -/
def tzsp_empty_packet : tzsp_packet_t :=
  { buffer := NULL, header := NULL, payload := NULL, buf_control := .TRACE_CTRL_PACKET,
    type := .other_rt_type 0, cached := { framing_length := -1, capture_length := -1 } }

/-- An input trace for TZSP without error. -/
def tzsp_trace : libtrace_t :=
  { uridata := "0.0.0.0:37008", err := none, started := true, perpkt_thread_count := 1 }

/-- Ten writes of a packet of 60 bytes that find their frames without waiting, the kernel
leaving the ring alone in between; the flush that the tenth call issues is refused with
`ENOBUFS`. -/
def ten_writes_last_flush_fails : List WriteCall :=
  List.replicate 9 { env := write_env_no_wait, kernel := id, packet := tx_packet_60 } ++
    [{ env := write_env_flush_fails, kernel := id, packet := tx_packet_60 }]

/-- An Ethernet packet of another format with 65532 captured bytes, to be written as
TZSP. -/
def tzsp_tx_packet_large : TzspTxPacket :=
  { tzsp_tx_packet with capture_length := 65532 }

/-! ## Lemmas on the geometry stages -/

theorem TPACKET_ALIGN_HDRLEN : TPACKET_ALIGN TPACKET2_HDRLEN = 64 := by decide

theorem u32_of_lt {n : Nat} (h : n < 2 ^ 32) : u32 n = n := Nat.mod_eq_of_lt h

theorem u32_lt (n : Nat) : u32 n < 2 ^ 32 := Nat.mod_lt _ (by norm_num)

theorem pow2_lt_u32 {q : Nat} (h : q ≤ 31) : 2 ^ q < 2 ^ 32 :=
  Nat.pow_lt_pow_right (by norm_num) (by omega)

/-- The frame size loop started at `2 ^ q` leaves at the first power of two that reaches
`mf`, when the packet buffer size is a power of two `2 ^ b` that bounds `mf`. -/
theorem frame_size_loop_pow (c : Consts) (mf b : Nat)
    (hB : c.LIBTRACE_PACKET_BUFSIZE = 2 ^ b) (hb : b ≤ 31) (hmf : mf ≤ 2 ^ b) :
    ∀ (d q fuel : Nat), q + d = b → d < fuel →
      ∃ k, q ≤ k ∧ k ≤ b ∧ frame_size_loop c mf fuel (2 ^ q) = .ok (2 ^ k) ∧
        mf ≤ 2 ^ k ∧ ∀ j, q ≤ j → j < k → 2 ^ j < mf := by
  intro d
  induction d with
  | zero =>
    intro q fuel hq hf
    obtain ⟨fuel, rfl⟩ : ∃ f, fuel = f + 1 := ⟨fuel - 1, by omega⟩
    have hqb : q = b := by omega
    subst hqb
    refine ⟨q, le_refl _, le_refl _, ?_, hmf, fun j h1 h2 => by omega⟩
    simp only [frame_size_loop, hB]
    rw [if_neg]
    omega
  | succ d ih =>
    intro q fuel hq hf
    obtain ⟨fuel, rfl⟩ : ∃ f, fuel = f + 1 := ⟨fuel - 1, by omega⟩
    by_cases hlt : 2 ^ q < mf
    · have hlt2 : 2 ^ q < c.LIBTRACE_PACKET_BUFSIZE := by rw [hB]; omega
      obtain ⟨k, hk1, hk2, hk3, hk4, hk5⟩ := ih (q + 1) fuel (by omega) (by omega)
      refine ⟨k, by omega, hk2, ?_, hk4, ?_⟩
      · simp only [frame_size_loop]
        rw [if_pos ⟨hlt, hlt2⟩]
        have : u32 (2 ^ q * 2) = 2 ^ (q + 1) := by
          rw [← pow_succ]
          exact u32_of_lt (pow2_lt_u32 (by omega))
        rw [this]
        exact hk3
      · intro j h1 h2
        by_cases hj : j = q
        · subst hj; exact hlt
        · exact hk5 j (by omega) h2
    · refine ⟨q, le_refl _, by omega, ?_, by omega, fun j h1 h2 => by omega⟩
      simp only [frame_size_loop]
      rw [if_neg]
      intro h
      exact hlt h.1


/-- What passing the five closing assertions means. -/
theorem check_asserts_ok {x r : tpacket_req} (h : check_asserts x = .ok r) :
    r = x ∧ x.tp_block_size ≠ 0 ∧ x.tp_block_nr ≠ 0 ∧ x.tp_frame_size ≠ 0 ∧
      x.tp_frame_nr ≠ 0 ∧ x.tp_block_size % x.tp_frame_size = 0 := by
  unfold check_asserts at h
  split_ifs at h with h1 h2 h3 h4 h5
  simp only [Except.ok.injEq] at h
  exact ⟨h.symm, h1, h2, h3, h4, by simpa using h5⟩

/-- A normal return of `calculate_buffers` exposes the values of its four stages. -/
theorem calculate_buffers_ok {c : Consts} {pagesize max_order : Nat} {ifr_mtu : Option Int}
    {r : tpacket_req} (h : calculate_buffers c pagesize ifr_mtu max_order = .ok r) :
    calc_frame_size c pagesize ifr_mtu = .ok r.tp_frame_size ∧
    calc_block_size c pagesize r.tp_frame_size max_order = .ok r.tp_block_size ∧
    calc_block_nr c r.tp_frame_size r.tp_block_size = .ok r.tp_block_nr ∧
    calc_frame_nr r.tp_frame_size r.tp_block_size r.tp_block_nr = .ok r.tp_frame_nr ∧
    check_asserts r = .ok r := by
  unfold calculate_buffers at h
  cases h1 : calc_frame_size c pagesize ifr_mtu with
  | error e => rw [h1] at h; cases h
  | ok fs =>
    rw [h1] at h
    cases h2 : calc_block_size c pagesize fs max_order with
    | error e => simp only [bind, Except.bind, h2] at h; cases h
    | ok bs =>
      cases h3 : calc_block_nr c fs bs with
      | error e => simp only [bind, Except.bind, h2, h3] at h; cases h
      | ok nr =>
        cases h4 : calc_frame_nr fs bs nr with
        | error e => simp only [bind, Except.bind, h2, h3, h4] at h; cases h
        | ok fnr =>
          simp only [bind, Except.bind, h2, h3, h4] at h
          have hr := (check_asserts_ok h).1
          subst hr
          exact ⟨rfl, h2, h3, h4, h⟩

/-- The stages of `calculate_buffers` determine its result. -/
theorem calculate_buffers_of_stages {c : Consts} {pagesize max_order : Nat}
    {ifr_mtu : Option Int} {fs bs nr fnr : Nat}
    (h1 : calc_frame_size c pagesize ifr_mtu = .ok fs)
    (h2 : calc_block_size c pagesize fs max_order = .ok bs)
    (h3 : calc_block_nr c fs bs = .ok nr)
    (h4 : calc_frame_nr fs bs nr = .ok fnr) :
    calculate_buffers c pagesize ifr_mtu max_order =
      check_asserts
        { tp_block_size := bs, tp_block_nr := nr, tp_frame_size := fs, tp_frame_nr := fnr } := by
  unfold calculate_buffers
  simp only [bind, Except.bind, h1, h2, h3, h4]

theorem max_frame_some (c : Consts) (mtu : Int) (h0 : 0 ≤ mtu) (h1 : mtu < 2 ^ 31)
    (hB : c.LIBTRACE_PACKET_BUFSIZE < 2 ^ 32) :
    max_frame c (some mtu) =
      min (mtu.toNat + TPACKET_ALIGN TPACKET2_HDRLEN) c.LIBTRACE_PACKET_BUFSIZE := by
  have hu : u32_of_int (mtu + ((64 : Nat) : Int)) = mtu.toNat + 64 := by
    unfold u32_of_int
    omega
  simp only [max_frame, TPACKET_ALIGN_HDRLEN, hu, u32_of_lt hB]
  split_ifs with h
  · omega
  · omega

theorem max_frame_none (c : Consts) (hB : c.LIBTRACE_PACKET_BUFSIZE < 2 ^ 32) :
    max_frame c none = c.LIBTRACE_PACKET_BUFSIZE := by
  simp [max_frame, u32_of_lt hB]

/-- The frame size stage for a power-of-two page size below a power-of-two buffer size. -/
theorem calc_frame_size_pow (c : Consts) (b p : Nat) (ifr_mtu : Option Int)
    (hB : c.LIBTRACE_PACKET_BUFSIZE = 2 ^ b) (hb : b ≤ 31) (hp : p ≤ b)
    (hmf : max_frame c ifr_mtu ≤ 2 ^ b) :
    ∃ k, p ≤ k ∧ k ≤ b ∧ calc_frame_size c (2 ^ p) ifr_mtu = .ok (2 ^ k) ∧
      max_frame c ifr_mtu ≤ 2 ^ k ∧ ∀ j, p ≤ j → j < k → 2 ^ j < max_frame c ifr_mtu := by
  obtain ⟨k, hk1, hk2, hk3, hk4, hk5⟩ :=
    frame_size_loop_pow c (max_frame c ifr_mtu) b hB hb hmf (b - p) p loopBound (by omega)
      (by unfold loopBound; omega)
  refine ⟨k, hk1, hk2, ?_, hk4, hk5⟩
  unfold calc_frame_size
  rw [u32_of_lt (pow2_lt_u32 (by omega)), hk3]
  have : ¬ 2 ^ k > c.LIBTRACE_PACKET_BUFSIZE := by
    rw [hB]
    exact not_lt.mpr (Nat.pow_le_pow_right (by norm_num) hk2)
  simp only [bind, Except.bind, if_neg this]
  rfl


theorem u32_pow2 (a : Nat) : u32 (2 ^ a) = if a < 32 then 2 ^ a else 0 := by
  unfold u32
  split_ifs with h
  · exact Nat.mod_eq_of_lt (Nat.pow_lt_pow_right (by norm_num) h)
  · exact Nat.mod_eq_zero_of_dvd (Nat.pow_dvd_pow 2 (by omega))

/-- With a target of `0` the block size loop never leaves, whatever the number of rounds. -/
theorem block_size_loop_zero_target (fuel bs : Nat) :
    block_size_loop 0 fuel bs = .error .nontermination := by
  induction fuel generalizing bs with
  | zero => rfl
  | succ n ih => simp only [block_size_loop, Nat.zero_le, if_true, ih]

/-- The block size loop on powers of two: it leaves at half of the smaller of the start
value and the target. -/
theorem block_size_loop_pow (t : Nat) (ht : 1 ≤ t) :
    ∀ (a fuel : Nat), 1 ≤ a → a < fuel →
      block_size_loop (2 ^ t) fuel (2 ^ a) = .ok (2 ^ (min a t - 1)) := by
  intro a
  induction a with
  | zero => intro fuel h; omega
  | succ a ih =>
    intro fuel _ hf
    obtain ⟨fuel, rfl⟩ : ∃ f, fuel = f + 1 := ⟨fuel - 1, by omega⟩
    have hhalf : 2 ^ (a + 1) / 2 = 2 ^ a := by
      rw [pow_succ]; exact Nat.mul_div_cancel _ (by norm_num)
    simp only [block_size_loop, hhalf]
    by_cases hle : 2 ^ t ≤ 2 ^ a
    · have hta : t ≤ a := (Nat.pow_le_pow_iff_right (by norm_num)).mp hle
      rw [if_pos hle, ih fuel (by omega) (by omega)]
      have e1 : min a t = t := by omega
      have e2 : min (a + 1) t = t := by omega
      rw [e1, e2]
    · have hta : a < t := by
        by_contra hcon
        exact hle (Nat.pow_le_pow_right (by norm_num) (by omega))
      rw [if_neg hle]
      have e2 : min (a + 1) t = a + 1 := by omega
      rw [e2]
      rfl

/-- The block size loop started at `0` leaves at once when the target is positive. -/
theorem block_size_loop_start_zero (target fuel : Nat) (ht : 0 < target) :
    block_size_loop target (fuel + 1) 0 = .ok 0 := by
  simp only [block_size_loop, Nat.zero_div]
  rw [if_neg (by omega)]

/-- The block size stage on powers of two. -/
theorem calc_block_size_pow (c : Consts) (p f j m : Nat) (hm : 1 ≤ m)
    (hC : c.CONF_RING_FRAMES = 2 ^ j) (hlo : 2 ≤ c.CONF_RING_FRAMES * 2 ^ f)
    (hhi : c.CONF_RING_FRAMES * 2 ^ f < 2 ^ 32) :
    calc_block_size c (2 ^ p) (2 ^ f) m =
      .ok (min (u32 (2 ^ p * 2 ^ m)) (c.CONF_RING_FRAMES * 2 ^ f)) := by
  have hT : c.CONF_RING_FRAMES * 2 ^ f = 2 ^ (j + f) := by rw [hC, pow_add]
  have hjf : j + f < 32 := by
    rw [hT] at hhi
    exact (Nat.pow_lt_pow_iff_right (by norm_num)).mp hhi
  have hjf1 : 1 ≤ j + f := by
    rw [hT] at hlo
    by_contra hcon
    have : j + f = 0 := by omega
    rw [this] at hlo
    norm_num at hlo
  unfold calc_block_size
  rw [u32_of_lt hhi, hT, ← pow_add, u32_pow2]
  split_ifs with hpm
  · rw [block_size_loop_pow (j + f) hjf1 (p + m) loopBound (by omega)
      (by unfold loopBound; omega)]
    simp only [bind, Except.bind, pure, Except.pure]
    have hmin : 1 ≤ min (p + m) (j + f) := by omega
    have e : 2 ^ (min (p + m) (j + f) - 1) * 2 = 2 ^ (min (p + m) (j + f)) := by
      rw [← pow_succ]; congr 1; omega
    rw [e, u32_pow2, if_pos (by omega)]
    congr 1
    rcases Nat.le_total (p + m) (j + f) with h | h
    · rw [min_eq_left h, min_eq_left (Nat.pow_le_pow_right (by norm_num) h)]
    · rw [min_eq_right h, min_eq_right (Nat.pow_le_pow_right (by norm_num) h)]
  · have : block_size_loop (2 ^ (j + f)) loopBound 0 = .ok 0 :=
      block_size_loop_start_zero _ 39 (by positivity)
    rw [this]
    simp [bind, Except.bind, pure, Except.pure, u32]


/-- The block count stage, when the block holds a whole number `q` of frames and the
product `CONF_RING_FRAMES * fs` fits in 32 bits: the count is the least `n` with
`CONF_RING_FRAMES ≤ n * q`. -/
theorem calc_block_nr_spec (c : Consts) (fs q : Nat) (hfs : 0 < fs) (hq : 0 < q)
    (hhi : c.CONF_RING_FRAMES * fs < 2 ^ 32) :
    ∃ nr, calc_block_nr c fs (q * fs) = .ok nr ∧ c.CONF_RING_FRAMES ≤ nr * q ∧
      (∀ n, c.CONF_RING_FRAMES ≤ n * q → nr ≤ n) ∧ nr * q < c.CONF_RING_FRAMES + q := by
  have hbs : q * fs ≠ 0 := Nat.mul_ne_zero (by omega) (by omega)
  have hdiv : c.CONF_RING_FRAMES * fs / (q * fs) = c.CONF_RING_FRAMES / q :=
    Nat.mul_div_mul_right _ _ hfs
  have hmod : c.CONF_RING_FRAMES * fs % (q * fs) = c.CONF_RING_FRAMES % q * fs :=
    Nat.mul_mod_mul_right _ _ _
  have hdm := Nat.div_add_mod c.CONF_RING_FRAMES q
  have hml := Nat.mod_lt c.CONF_RING_FRAMES hq
  have hCle : c.CONF_RING_FRAMES ≤ c.CONF_RING_FRAMES * fs := Nat.le_mul_of_pos_right _ hfs
  have hdle : c.CONF_RING_FRAMES / q ≤ c.CONF_RING_FRAMES := Nat.div_le_self _ _
  unfold calc_block_nr
  rw [if_neg hbs, u32_of_lt hhi, hdiv, hmod]
  by_cases hr : c.CONF_RING_FRAMES % q = 0
  · rw [hr] at hdm
    simp only [hr, Nat.zero_mul, ne_eq, not_true_eq_false, if_false]
    refine ⟨c.CONF_RING_FRAMES / q, rfl, ?_, ?_, ?_⟩
    · rw [Nat.mul_comm]; omega
    · intro n hn
      have h1 : c.CONF_RING_FRAMES / q * q ≤ n * q := by rw [Nat.mul_comm]; omega
      exact Nat.le_of_mul_le_mul_right h1 hq
    · rw [Nat.mul_comm]; omega
  · have hne : c.CONF_RING_FRAMES % q * fs ≠ 0 := Nat.mul_ne_zero hr (by omega)
    simp only [ne_eq, hne, not_false_eq_true, if_true]
    have hsmall : c.CONF_RING_FRAMES / q + 1 < 2 ^ 32 := by
      have hq2 : 2 ≤ q := by
        by_contra hcon
        have : q = 1 := by omega
        rw [this] at hr
        exact hr (Nat.mod_one _)
      have : c.CONF_RING_FRAMES / q ≤ c.CONF_RING_FRAMES / 2 :=
        Nat.div_le_div_left hq2 (by norm_num)
      omega
    refine ⟨c.CONF_RING_FRAMES / q + 1, ?_, ?_, ?_, ?_⟩
    · rw [u32_of_lt hsmall]; rfl
    · rw [Nat.add_mul, Nat.one_mul, Nat.mul_comm]; omega
    · intro n hn
      have h1 : c.CONF_RING_FRAMES / q * q < n * q := by rw [Nat.mul_comm]; omega
      have := Nat.lt_of_mul_lt_mul_right h1
      omega
    · rw [Nat.add_mul, Nat.one_mul, Nat.mul_comm]; omega

/-! ## The allocation loop -/

theorem ring_requests_append (l1 l2 : List Syscall) :
    ring_requests (l1 ++ l2) = ring_requests l1 ++ ring_requests l2 := by
  induction l1 with
  | nil => rfl
  | cons a l ih =>
    cases a with
    | setsockopt fd opt => cases opt <;> simp [ring_requests, ih]
    | _ => simp [ring_requests, ih]

theorem ring_requests_map (rt : Nat) (fd : Int) (reqs : List tpacket_req) :
    ring_requests (reqs.map (ring_call rt fd)) = reqs := by
  induction reqs with
  | nil => rfl
  | cons a l ih => simp [ring_requests, ring_call, ih]

theorem mmap_calls_append (l1 l2 : List Syscall) :
    mmap_calls (l1 ++ l2) = mmap_calls l1 ++ mmap_calls l2 := by
  induction l1 with
  | nil => rfl
  | cons a l ih => cases a <;> simp [mmap_calls, ih]

theorem mmap_calls_map (rt : Nat) (fd : Int) (reqs : List tpacket_req) :
    mmap_calls (reqs.map (ring_call rt fd)) = [] := by
  induction reqs with
  | nil => rfl
  | cons a l ih => simp [mmap_calls, ring_call, ih]

/-- Complete description of a run of the allocation loop started at order `n`: `j`
requests were rejected with `ENOMEM`, the requests `reqs` were issued for the orders
`n, n - 1, ...`, and the loop ended in one of its four ways. -/
theorem ring_loop_spec (c : Consts) (k : RingKernel) (rt : Nat) (fd : Int) :
    ∀ (n i : Nat) (req : tpacket_req) (calls : List Syscall) (r : RingLoopResult),
      r = ring_loop c k rt fd n i req calls →
      ∃ (j : Nat) (reqs : List tpacket_req),
        r.max_order + j = n ∧
        r.calls = calls ++ reqs.map (ring_call rt fd) ∧
        (∀ t, t < j → k.ring (i + t) = .failure ENOMEM) ∧
        (∀ t (h : t < reqs.length),
          calculate_buffers c k.pagesize k.ifr_mtu (n - t) = .ok (reqs.get ⟨t, h⟩)) ∧
        ((r.exit = .out_of_memory ∧ r.max_order = 0 ∧ reqs.length = j) ∨
         (r.exit = .allocated ∧ 1 ≤ r.max_order ∧ reqs.length = j + 1 ∧
            k.ring (i + j) = .success ∧
            calculate_buffers c k.pagesize k.ifr_mtu r.max_order = .ok r.req) ∨
         (∃ e, r.exit = .rejected ∧ 1 ≤ r.max_order ∧ reqs.length = j + 1 ∧
            k.ring (i + j) = .failure e ∧ e ≠ ENOMEM ∧
            calculate_buffers c k.pagesize k.ifr_mtu r.max_order = .ok r.req) ∨
         (∃ f, r.exit = .fault f ∧ 1 ≤ r.max_order ∧ reqs.length = j ∧
            calculate_buffers c k.pagesize k.ifr_mtu r.max_order = .error f)) := by
  intro n
  induction n with
  | zero =>
    intro i req calls r hr
    subst hr
    refine ⟨0, [], rfl, by simp [ring_loop], fun t ht => by omega, fun t h => by simp at h, ?_⟩
    exact Or.inl ⟨rfl, rfl, rfl⟩
  | succ n ih =>
    intro i req calls r hr
    cases hcb : calculate_buffers c k.pagesize k.ifr_mtu (n + 1) with
    | error f =>
      have hr2 : r = { exit := .fault f, req := req, max_order := n + 1, calls := calls } := by
        rw [hr]; simp only [ring_loop, hcb]
      subst hr2
      refine ⟨0, [], rfl, by simp, fun t ht => by omega, fun t h => by simp at h, ?_⟩
      exact Or.inr (Or.inr (Or.inr ⟨f, rfl, by simp, rfl, hcb⟩))
    | ok q =>
      cases hk : k.ring i with
      | success =>
        have hr2 : r =
            { exit := .allocated, req := q, max_order := n + 1,
              calls := calls ++ [ring_call rt fd q] } := by
          rw [hr]; simp only [ring_loop, hcb, hk, ring_call]
        subst hr2
        refine ⟨0, [q], rfl, by simp, fun t ht => by omega, ?_, ?_⟩
        · intro t h
          have : t = 0 := by simpa using h
          subst this
          simpa using hcb
        · exact Or.inr (Or.inl ⟨rfl, by simp, rfl, by simpa using hk, hcb⟩)
      | failure e =>
        by_cases he : e = ENOMEM
        · have hr2 : r = ring_loop c k rt fd n (i + 1) q (calls ++ [ring_call rt fd q]) := by
            rw [hr]; simp only [ring_loop, hcb, hk, ring_call, if_pos he]
          obtain ⟨j, reqs, h1, h2, h3, h4, h5⟩ := ih (i + 1) q _ r hr2
          refine ⟨j + 1, q :: reqs, by omega, ?_, ?_, ?_, ?_⟩
          · rw [h2]; simp
          · intro t ht
            cases t with
            | zero => rw [Nat.add_zero, hk, he]
            | succ t =>
              have := h3 t (by omega)
              rwa [show i + (t + 1) = i + 1 + t by omega]
          · intro t h
            cases t with
            | zero => simpa using hcb
            | succ t =>
              have ht : t < reqs.length := by simpa using h
              have := h4 t ht
              rw [show n + 1 - (t + 1) = n - t by omega]
              simpa using this
          · rw [show i + (j + 1) = i + 1 + j by omega]
            rcases h5 with h5 | h5 | h5 | h5
            · exact Or.inl ⟨h5.1, h5.2.1, by simp [h5.2.2]⟩
            · exact Or.inr (Or.inl ⟨h5.1, h5.2.1, by simp [h5.2.2.1], h5.2.2.2⟩)
            · obtain ⟨e2, a1, a2, a3, a4⟩ := h5
              exact Or.inr (Or.inr (Or.inl ⟨e2, a1, a2, by simp [a3], a4⟩))
            · obtain ⟨f, a1, a2, a3, a4⟩ := h5
              exact Or.inr (Or.inr (Or.inr ⟨f, a1, a2, by simp [a3], a4⟩))
        · have hr2 : r =
              { exit := .rejected, req := q, max_order := n + 1,
                calls := calls ++ [ring_call rt fd q] } := by
            rw [hr]; simp only [ring_loop, hcb, hk, ring_call, if_neg he]
          subst hr2
          refine ⟨0, [q], rfl, by simp, fun t ht => by omega, ?_, ?_⟩
          · intro t h
            have : t = 0 := by simpa using h
            subst this
            simpa using hcb
          · exact Or.inr (Or.inr (Or.inl ⟨e, rfl, by simp, rfl, by simpa using hk, he, hcb⟩))

theorem socket_to_packetmmap_out_of_memory (c : Consts) (k : RingKernel) (rt : Nat)
    (fd : Int) (req : tpacket_req) (rl n : Nat) (err : String) (hv : k.version = .success)
    (hl : (ring_loop c k rt fd n 0 req [Syscall.setsockopt fd .PACKET_VERSION]).exit =
      .out_of_memory) :
    socket_to_packetmmap c k rt fd req rl n err =
      { ret := .ok (-1),
        req := (ring_loop c k rt fd n 0 req [Syscall.setsockopt fd .PACKET_VERSION]).req,
        ring_location := rl,
        max_order :=
          (ring_loop c k rt fd n 0 req [Syscall.setsockopt fd .PACKET_VERSION]).max_order,
        error := "Cannot allocate enough memory for ring buffer",
        calls := (ring_loop c k rt fd n 0 req [Syscall.setsockopt fd .PACKET_VERSION]).calls } := by
  unfold socket_to_packetmmap
  simp only [hv, hl]

theorem socket_to_packetmmap_rejected (c : Consts) (k : RingKernel) (rt : Nat)
    (fd : Int) (req : tpacket_req) (rl n : Nat) (err : String) (hv : k.version = .success)
    (hl : (ring_loop c k rt fd n 0 req [Syscall.setsockopt fd .PACKET_VERSION]).exit =
      .rejected) :
    socket_to_packetmmap c k rt fd req rl n err =
      { ret := .ok (-1),
        req := (ring_loop c k rt fd n 0 req [Syscall.setsockopt fd .PACKET_VERSION]).req,
        ring_location := rl,
        max_order :=
          (ring_loop c k rt fd n 0 req [Syscall.setsockopt fd .PACKET_VERSION]).max_order,
        error := "Error setting the ring buffer size",
        calls := (ring_loop c k rt fd n 0 req [Syscall.setsockopt fd .PACKET_VERSION]).calls } := by
  unfold socket_to_packetmmap
  simp only [hv, hl]

theorem socket_to_packetmmap_fault (c : Consts) (k : RingKernel) (rt : Nat)
    (fd : Int) (req : tpacket_req) (rl n : Nat) (err : String) (f : Fault)
    (hv : k.version = .success)
    (hl : (ring_loop c k rt fd n 0 req [Syscall.setsockopt fd .PACKET_VERSION]).exit =
      .fault f) :
    socket_to_packetmmap c k rt fd req rl n err =
      { ret := .error f,
        req := (ring_loop c k rt fd n 0 req [Syscall.setsockopt fd .PACKET_VERSION]).req,
        ring_location := rl,
        max_order :=
          (ring_loop c k rt fd n 0 req [Syscall.setsockopt fd .PACKET_VERSION]).max_order,
        error := err,
        calls := (ring_loop c k rt fd n 0 req [Syscall.setsockopt fd .PACKET_VERSION]).calls } := by
  unfold socket_to_packetmmap
  simp only [hv, hl]

theorem socket_to_packetmmap_mapped (c : Consts) (k : RingKernel) (rt : Nat)
    (fd : Int) (req : tpacket_req) (rl n : Nat) (err : String) (hv : k.version = .success)
    (hl : (ring_loop c k rt fd n 0 req [Syscall.setsockopt fd .PACKET_VERSION]).exit =
      .allocated) (hm : k.mmap ≠ MAP_FAILED) :
    socket_to_packetmmap c k rt fd req rl n err =
      { ret := .ok 0,
        req := (ring_loop c k rt fd n 0 req [Syscall.setsockopt fd .PACKET_VERSION]).req,
        ring_location := k.mmap,
        max_order :=
          (ring_loop c k rt fd n 0 req [Syscall.setsockopt fd .PACKET_VERSION]).max_order,
        error := err,
        calls := (ring_loop c k rt fd n 0 req [Syscall.setsockopt fd .PACKET_VERSION]).calls ++
          [Syscall.mmap (u32
            ((ring_loop c k rt fd n 0 req [Syscall.setsockopt fd .PACKET_VERSION]).req.tp_block_size *
             (ring_loop c k rt fd n 0 req [Syscall.setsockopt fd .PACKET_VERSION]).req.tp_block_nr))
            fd] } := by
  unfold socket_to_packetmmap
  simp only [hv, hl, if_neg hm]

theorem socket_to_packetmmap_map_failed (c : Consts) (k : RingKernel) (rt : Nat)
    (fd : Int) (req : tpacket_req) (rl n : Nat) (err : String) (hv : k.version = .success)
    (hl : (ring_loop c k rt fd n 0 req [Syscall.setsockopt fd .PACKET_VERSION]).exit =
      .allocated) (hm : k.mmap = MAP_FAILED) :
    socket_to_packetmmap c k rt fd req rl n err =
      { ret := .ok (-1),
        req := (ring_loop c k rt fd n 0 req [Syscall.setsockopt fd .PACKET_VERSION]).req,
        ring_location := k.mmap,
        max_order :=
          (ring_loop c k rt fd n 0 req [Syscall.setsockopt fd .PACKET_VERSION]).max_order,
        error := "Failed to map memory for ring buffer",
        calls := (ring_loop c k rt fd n 0 req [Syscall.setsockopt fd .PACKET_VERSION]).calls ++
          [Syscall.mmap (u32
            ((ring_loop c k rt fd n 0 req [Syscall.setsockopt fd .PACKET_VERSION]).req.tp_block_size *
             (ring_loop c k rt fd n 0 req [Syscall.setsockopt fd .PACKET_VERSION]).req.tp_block_nr))
            fd] } := by
  unfold socket_to_packetmmap
  simp only [hv, hl, if_pos hm]

/-- Complete description of a call of `socket_to_packetmmap` once the protocol version
has been accepted. -/
theorem socket_to_packetmmap_spec (c : Consts) (k : RingKernel) (rt : Nat) (fd : Int)
    (req : tpacket_req) (rl n : Nat) (err : String) (res : MmapResult)
    (hres : res = socket_to_packetmmap c k rt fd req rl n err)
    (hv : k.version = .success) :
    ∃ (j : Nat) (reqs : List tpacket_req),
      res.max_order + j = n ∧ ring_requests res.calls = reqs ∧
      (∀ t, t < j → k.ring t = .failure ENOMEM) ∧
      (∀ t (h : t < reqs.length),
        calculate_buffers c k.pagesize k.ifr_mtu (n - t) = .ok (reqs.get ⟨t, h⟩)) ∧
      ((res.ret = .ok (-1) ∧ res.error = "Cannot allocate enough memory for ring buffer" ∧
          res.max_order = 0 ∧ reqs.length = j ∧ mmap_calls res.calls = [] ∧
          res.ring_location = rl) ∨
       (1 ≤ res.max_order ∧ reqs.length = j + 1 ∧ k.ring j = .success ∧
          calculate_buffers c k.pagesize k.ifr_mtu res.max_order = .ok res.req ∧
          mmap_calls res.calls = [u32 (res.req.tp_block_size * res.req.tp_block_nr)] ∧
          res.ring_location = k.mmap ∧
          ((res.ret = .ok 0 ∧ res.error = err ∧ k.mmap ≠ MAP_FAILED) ∨
           (res.ret = .ok (-1) ∧ res.error = "Failed to map memory for ring buffer" ∧
              k.mmap = MAP_FAILED))) ∨
       (∃ e, res.ret = .ok (-1) ∧ res.error = "Error setting the ring buffer size" ∧
          1 ≤ res.max_order ∧ reqs.length = j + 1 ∧ k.ring j = .failure e ∧ e ≠ ENOMEM ∧
          calculate_buffers c k.pagesize k.ifr_mtu res.max_order = .ok res.req ∧
          mmap_calls res.calls = [] ∧ res.ring_location = rl) ∨
       (∃ f, res.ret = .error f ∧ 1 ≤ res.max_order ∧ reqs.length = j ∧
          calculate_buffers c k.pagesize k.ifr_mtu res.max_order = .error f ∧
          mmap_calls res.calls = [] ∧ res.ring_location = rl)) := by
  obtain ⟨j, reqs, h1, h2, h3, h4, h5⟩ :=
    ring_loop_spec c k rt fd n 0 req [Syscall.setsockopt fd .PACKET_VERSION] _ rfl
  simp only [Nat.zero_add] at h3 h5
  have hrq : ring_requests (ring_loop c k rt fd n 0 req
      [Syscall.setsockopt fd .PACKET_VERSION]).calls = reqs := by
    rw [h2, ring_requests_append, ring_requests_map]; rfl
  have hmm : mmap_calls (ring_loop c k rt fd n 0 req
      [Syscall.setsockopt fd .PACKET_VERSION]).calls = [] := by
    rw [h2, mmap_calls_append, mmap_calls_map]; rfl
  refine ⟨j, reqs, ?_⟩
  rcases h5 with h5 | h5 | ⟨e, h5⟩ | ⟨f, h5⟩
  · rw [socket_to_packetmmap_out_of_memory c k rt fd req rl n err hv h5.1] at hres
    subst hres
    exact ⟨h1, hrq, h3, h4, Or.inl ⟨rfl, rfl, h5.2.1, h5.2.2, hmm, rfl⟩⟩
  · by_cases hm : k.mmap = MAP_FAILED
    · rw [socket_to_packetmmap_map_failed c k rt fd req rl n err hv h5.1 hm] at hres
      subst hres
      refine ⟨h1, ?_, h3, h4, Or.inr (Or.inl ⟨h5.2.1, h5.2.2.1, h5.2.2.2.1, h5.2.2.2.2, ?_,
        rfl, Or.inr ⟨rfl, rfl, hm⟩⟩)⟩
      · simp only [ring_requests_append, hrq]; simp [ring_requests]
      · simp only [mmap_calls_append, hmm]; simp [mmap_calls]
    · rw [socket_to_packetmmap_mapped c k rt fd req rl n err hv h5.1 hm] at hres
      subst hres
      refine ⟨h1, ?_, h3, h4, Or.inr (Or.inl ⟨h5.2.1, h5.2.2.1, h5.2.2.2.1, h5.2.2.2.2, ?_,
        rfl, Or.inl ⟨rfl, rfl, hm⟩⟩)⟩
      · simp only [ring_requests_append, hrq]; simp [ring_requests]
      · simp only [mmap_calls_append, hmm]; simp [mmap_calls]
  · rw [socket_to_packetmmap_rejected c k rt fd req rl n err hv h5.1] at hres
    subst hres
    exact ⟨h1, hrq, h3, h4, Or.inr (Or.inr (Or.inl ⟨e, rfl, rfl, h5.2.1, h5.2.2.1,
      h5.2.2.2.1, h5.2.2.2.2.1, h5.2.2.2.2.2, hmm, rfl⟩))⟩
  · rw [socket_to_packetmmap_fault c k rt fd req rl n err f hv h5.1] at hres
    subst hres
    exact ⟨h1, hrq, h3, h4, Or.inr (Or.inr (Or.inr ⟨f, rfl, h5.2.1, h5.2.2.1, h5.2.2.2,
      hmm, rfl⟩))⟩

/-! ## Ring geometry (C1 - C4) -/

/-- C1 (defect of the code): for the page size 4096 (a power of two below
`LIBTRACE_PACKET_BUFSIZE`), the interface MTU 9000 and `max_order` 1 (4096 << 1 fits in 32
bits), `calculate_buffers` computes the frame size 16384, the block size 8192, 512 blocks
and 0 frames, and stops at its fourth closing assertion `assert(req->tp_frame_nr)`; the
fifth, `tp_block_size % tp_frame_size == 0`, does not hold of these values either.  The
same happens when the MTU query fails and `max_order` is 3. -/
theorem C1_calculate_buffers_assertion_fails :
    calc_frame_size libtrace_consts 4096 (some 9000) = .ok 16384 ∧
    calc_block_size libtrace_consts 4096 16384 1 = .ok 8192 ∧
    calc_block_nr libtrace_consts 16384 8192 = .ok 512 ∧
    calc_frame_nr 16384 8192 512 = .ok 0 ∧
    8192 % 16384 ≠ 0 ∧
    calculate_buffers libtrace_consts 4096 (some 9000) 1 = .error (.assertion_failed 151) ∧
    calculate_buffers libtrace_consts 4096 none 3 = .error (.assertion_failed 151) :=
  ⟨rfl, rfl, rfl, rfl, by decide, rfl, rfl⟩

/-- C2: for a page size `2 ^ p` not above the packet buffer size `2 ^ b` and an MTU that is
a non-negative C `int`, the frame size stage of `calculate_buffers` returns the smallest
value `2 ^ p * 2 ^ k` that is at least `min (MTU + TPACKET_ALIGN(TPACKET2_HDRLEN))
LIBTRACE_PACKET_BUFSIZE`; it is a power of two, at least the page size and at most the
packet buffer size, and it is the `tp_frame_size` of every request `calculate_buffers`
returns.  With page size 4096 and MTU 1500 it is 4096. -/
theorem C2_frame_size (c : Consts) (b p : Nat) (mtu : Int)
    (hB : c.LIBTRACE_PACKET_BUFSIZE = 2 ^ b) (hb : b ≤ 31) (hp : p ≤ b)
    (h0 : 0 ≤ mtu) (h1 : mtu < 2 ^ 31) :
    ∃ k, calc_frame_size c (2 ^ p) (some mtu) = .ok (2 ^ p * 2 ^ k) ∧
      min (mtu.toNat + TPACKET_ALIGN TPACKET2_HDRLEN) c.LIBTRACE_PACKET_BUFSIZE
        ≤ 2 ^ p * 2 ^ k ∧
      (∀ j, min (mtu.toNat + TPACKET_ALIGN TPACKET2_HDRLEN) c.LIBTRACE_PACKET_BUFSIZE
          ≤ 2 ^ p * 2 ^ j → 2 ^ p * 2 ^ k ≤ 2 ^ p * 2 ^ j) ∧
      2 ^ p * 2 ^ k = 2 ^ (p + k) ∧
      2 ^ p ≤ 2 ^ p * 2 ^ k ∧
      2 ^ p * 2 ^ k ≤ c.LIBTRACE_PACKET_BUFSIZE ∧
      (∀ max_order r, calculate_buffers c (2 ^ p) (some mtu) max_order = .ok r →
        r.tp_frame_size = 2 ^ p * 2 ^ k) ∧
      (p = 12 → mtu = 1500 → calc_frame_size c 4096 (some 1500) = .ok 4096) := by
  have hBlt : c.LIBTRACE_PACKET_BUFSIZE < 2 ^ 32 := by rw [hB]; exact pow2_lt_u32 hb
  have hmf := max_frame_some c mtu h0 h1 hBlt
  have hmfle : max_frame c (some mtu) ≤ 2 ^ b := by
    rw [hmf, ← hB]; exact Nat.min_le_right _ _
  obtain ⟨k, hk1, hk2, hk3, hk4, hk5⟩ := calc_frame_size_pow c b p (some mtu) hB hb hp hmfle
  have hsplit : 2 ^ p * 2 ^ (k - p) = 2 ^ k := by
    rw [← pow_add]; congr 1; omega
  refine ⟨k - p, ?_, ?_, ?_, ?_, ?_, ?_, ?_, ?_⟩
  · rw [hsplit]; exact hk3
  · rw [hsplit, ← hmf]; exact hk4
  · intro j hj
    rw [hsplit, ← pow_add]
    rw [← hmf, ← pow_add] at hj
    by_contra hcon
    have hlt : p + j < k := by
      by_contra h2
      exact hcon (Nat.pow_le_pow_right (by norm_num) (by omega))
    have := hk5 (p + j) (by omega) hlt
    omega
  · rw [← pow_add]
  · rw [hsplit]; exact Nat.pow_le_pow_right (by norm_num) hk1
  · rw [hsplit, hB]; exact Nat.pow_le_pow_right (by norm_num) hk2
  · intro max_order r hr
    have h := (calculate_buffers_ok hr).1
    rw [hk3] at h
    rw [hsplit]
    exact (Except.ok.inj h).symm
  · intro hp12 hm
    subst hp12
    subst hm
    have hk0 : k = 12 := by
      by_contra hne
      have := hk5 12 (le_refl _) (by omega)
      rw [hmf, TPACKET_ALIGN_HDRLEN] at this
      have h4096 : (2 : Nat) ^ 12 = 4096 := by norm_num
      have hto : (1500 : Int).toNat = 1500 := rfl
      rw [h4096, hto] at this
      have h5 : min (1500 + 64) c.LIBTRACE_PACKET_BUFSIZE ≤ 1564 := Nat.min_le_left _ _
      omega
    rw [hk0] at hk3
    exact hk3

/-- Witness for C2: libtrace's constants, page size `2 ^ 12`, MTU 1500. -/
theorem C2_frame_size_witness :
    libtrace_consts.LIBTRACE_PACKET_BUFSIZE = 2 ^ 16 ∧ (0 : Int) ≤ 1500 ∧
    ∃ k, calc_frame_size libtrace_consts (2 ^ 12) (some 1500) = .ok (2 ^ 12 * 2 ^ k) ∧
      min ((1500 : Int).toNat + TPACKET_ALIGN TPACKET2_HDRLEN)
        libtrace_consts.LIBTRACE_PACKET_BUFSIZE ≤ 2 ^ 12 * 2 ^ k ∧
      (∀ j, min ((1500 : Int).toNat + TPACKET_ALIGN TPACKET2_HDRLEN)
          libtrace_consts.LIBTRACE_PACKET_BUFSIZE ≤ 2 ^ 12 * 2 ^ j →
        2 ^ 12 * 2 ^ k ≤ 2 ^ 12 * 2 ^ j) ∧
      2 ^ 12 * 2 ^ k = 2 ^ (12 + k) ∧
      2 ^ 12 ≤ 2 ^ 12 * 2 ^ k ∧
      2 ^ 12 * 2 ^ k ≤ libtrace_consts.LIBTRACE_PACKET_BUFSIZE ∧
      (∀ max_order r, calculate_buffers libtrace_consts (2 ^ 12) (some 1500) max_order = .ok r →
        r.tp_frame_size = 2 ^ 12 * 2 ^ k) ∧
      (12 = 12 → (1500 : Int) = 1500 →
        calc_frame_size libtrace_consts 4096 (some 1500) = .ok 4096) :=
  ⟨rfl, by decide,
    C2_frame_size libtrace_consts 16 12 1500 rfl (by decide) (by decide) (by decide)
      (by decide)⟩

/-- The value of `max_frame` never exceeds the packet buffer size. -/
theorem max_frame_le (c : Consts) (ifr_mtu : Option Int)
    (hB : c.LIBTRACE_PACKET_BUFSIZE < 2 ^ 32) :
    max_frame c ifr_mtu ≤ c.LIBTRACE_PACKET_BUFSIZE := by
  unfold max_frame
  simp only []
  split_ifs with h
  · rw [u32_of_lt hB]
  · exact not_lt.mp h

/-- The frame size stage for a power-of-two page size above the packet buffer size: the
loop is not entered and the page size is halved once. -/
theorem calc_frame_size_large_page (c : Consts) (b p : Nat) (ifr_mtu : Option Int)
    (hB : c.LIBTRACE_PACKET_BUFSIZE = 2 ^ b) (hbp : b < p) (hp : p ≤ 31) :
    calc_frame_size c (2 ^ p) ifr_mtu = .ok (2 ^ (p - 1)) := by
  have hlt : (2 : Nat) ^ b < 2 ^ p := Nat.pow_lt_pow_right (by norm_num) hbp
  unfold calc_frame_size
  rw [u32_of_lt (pow2_lt_u32 hp)]
  have hloop : frame_size_loop c (max_frame c ifr_mtu) loopBound (2 ^ p) = .ok (2 ^ p) := by
    unfold loopBound
    simp only [frame_size_loop]
    rw [if_neg]
    rintro ⟨_, h2⟩
    rw [hB] at h2
    omega
  rw [hloop]
  have hgt : 2 ^ p > c.LIBTRACE_PACKET_BUFSIZE := by rw [hB]; exact hlt
  simp only [bind, Except.bind, if_pos hgt]
  have hhalf : (2 : Nat) ^ p / 2 = 2 ^ (p - 1) := by
    obtain ⟨q, rfl⟩ : ∃ q, p = q + 1 := ⟨p - 1, by omega⟩
    rw [pow_succ, Nat.add_sub_cancel]
    exact Nat.mul_div_cancel _ (by norm_num)
  rw [hhalf]
  rfl

/-- The frame size loop started at 0 or a power of two leaves at 0 or a power of two. -/
theorem frame_size_loop_pow2 (c : Consts) (mf : Nat) :
    ∀ (fuel fs r : Nat), (fs = 0 ∨ ∃ k, fs = 2 ^ k) →
      frame_size_loop c mf fuel fs = .ok r → (r = 0 ∨ ∃ k, r = 2 ^ k) := by
  intro fuel
  induction fuel with
  | zero =>
    intro fs r _ h
    simp [frame_size_loop] at h
  | succ n ih =>
    intro fs r hfs h
    simp only [frame_size_loop] at h
    by_cases hc : fs < mf ∧ fs < c.LIBTRACE_PACKET_BUFSIZE
    · rw [if_pos hc] at h
      refine ih (u32 (fs * 2)) r ?_ h
      rcases hfs with h0 | ⟨k, hk⟩
      · left
        rw [h0]
        rfl
      · rw [hk, ← pow_succ, u32_pow2]
        split_ifs
        · exact Or.inr ⟨k + 1, rfl⟩
        · exact Or.inl rfl
    · rw [if_neg hc] at h
      have : fs = r := Except.ok.inj h
      rw [← this]
      exact hfs

/-- The frame size computed from a power-of-two page size is 0 or a power of two. -/
theorem calc_frame_size_pow2 (c : Consts) (p fs : Nat) (ifr_mtu : Option Int)
    (h : calc_frame_size c (2 ^ p) ifr_mtu = .ok fs) : fs = 0 ∨ ∃ k, fs = 2 ^ k := by
  unfold calc_frame_size at h
  have hstart : u32 (2 ^ p) = 0 ∨ ∃ k, u32 (2 ^ p) = 2 ^ k := by
    rw [u32_pow2]
    split_ifs
    · exact Or.inr ⟨p, rfl⟩
    · exact Or.inl rfl
  cases hl : frame_size_loop c (max_frame c ifr_mtu) loopBound (u32 (2 ^ p)) with
  | error e =>
    rw [hl] at h
    cases h
  | ok x =>
    rw [hl] at h
    have hx := frame_size_loop_pow2 c _ _ _ x hstart hl
    simp only [bind, Except.bind] at h
    split_ifs at h with hgt
    · have e : x / 2 = fs := Except.ok.inj h
      rw [← e]
      rcases hx with h0 | ⟨k, hk⟩
      · left
        rw [h0]
      · rw [hk]
        cases k with
        | zero => left; rfl
        | succ q =>
          right
          refine ⟨q, ?_⟩
          rw [pow_succ]
          exact Nat.mul_div_cancel _ (by norm_num)
    · have e : x = fs := Except.ok.inj h
      rw [← e]
      exact hx

/-- C3: for a power-of-two page size `2 ^ p`, `CONF_RING_FRAMES` a power of two (at least
2) and `max_order ≥ 1`, `calculate_buffers` computes a power-of-two frame size `2 ^ f`, and
its block size stage returns `min (P << max_order) (CONF_RING_FRAMES * F)`, the shift
being the 32-bit one of the code (and the plain one whenever it fits in 32 bits).
`CONF_RING_FRAMES * F` is the smallest power of two that holds `CONF_RING_FRAMES` frames,
so the block size is that power of two unless the ceiling `P << max_order` is lower; it
never exceeds `P << max_order`, and it is the `tp_block_size` of every request
`calculate_buffers` returns.  The page sizes covered are those with
`CONF_RING_FRAMES * P ≤ 2 ^ 32` (with libtrace's constants every page size up to
`2 ^ 24`), the packet buffer size being a power of two with
`CONF_RING_FRAMES * LIBTRACE_PACKET_BUFSIZE < 2 ^ 32`. -/
theorem C3_block_size (c : Consts) (b j p max_order : Nat) (ifr_mtu : Option Int)
    (hB : c.LIBTRACE_PACKET_BUFSIZE = 2 ^ b) (hC : c.CONF_RING_FRAMES = 2 ^ j)
    (hj : 1 ≤ j) (hjb : j + b < 32) (hjp : j + p ≤ 32) (hm : 1 ≤ max_order) :
    ∃ f, calc_frame_size c (2 ^ p) ifr_mtu = .ok (2 ^ f) ∧
      calc_block_size c (2 ^ p) (2 ^ f) max_order =
        .ok (min (u32 (2 ^ p * 2 ^ max_order)) (c.CONF_RING_FRAMES * 2 ^ f)) ∧
      (2 ^ p * 2 ^ max_order < 2 ^ 32 →
        calc_block_size c (2 ^ p) (2 ^ f) max_order =
          .ok (min (2 ^ p * 2 ^ max_order) (c.CONF_RING_FRAMES * 2 ^ f))) ∧
      min (u32 (2 ^ p * 2 ^ max_order)) (c.CONF_RING_FRAMES * 2 ^ f)
        ≤ 2 ^ p * 2 ^ max_order ∧
      c.CONF_RING_FRAMES * 2 ^ f = 2 ^ (j + f) ∧
      (∀ r, calculate_buffers c (2 ^ p) ifr_mtu max_order = .ok r →
        r.tp_frame_size = 2 ^ f ∧
        r.tp_block_size =
          min (u32 (2 ^ p * 2 ^ max_order)) (c.CONF_RING_FRAMES * 2 ^ f)) := by
  have hb31 : b ≤ 31 := by omega
  have hBlt : c.LIBTRACE_PACKET_BUFSIZE < 2 ^ 32 := by rw [hB]; exact pow2_lt_u32 hb31
  -- the frame size is a power of two `2 ^ f` with `CONF_RING_FRAMES * 2 ^ f < 2 ^ 32`
  have hfs : ∃ f, calc_frame_size c (2 ^ p) ifr_mtu = .ok (2 ^ f) ∧ j + f < 32 := by
    by_cases hpb : p ≤ b
    · have hmf : max_frame c ifr_mtu ≤ 2 ^ b := by
        rw [← hB]
        exact max_frame_le c ifr_mtu hBlt
      obtain ⟨k, _, hk2, hk3, _, _⟩ := calc_frame_size_pow c b p ifr_mtu hB hb31 hpb hmf
      exact ⟨k, hk3, by omega⟩
    · exact ⟨p - 1, calc_frame_size_large_page c b p ifr_mtu hB (by omega) (by omega),
        by omega⟩
  obtain ⟨f, hf, hjf⟩ := hfs
  have hT : c.CONF_RING_FRAMES * 2 ^ f = 2 ^ (j + f) := by rw [hC, pow_add]
  have hhi : c.CONF_RING_FRAMES * 2 ^ f < 2 ^ 32 := by
    rw [hT]
    exact Nat.pow_lt_pow_right (by norm_num) hjf
  have hlo : 2 ≤ c.CONF_RING_FRAMES * 2 ^ f := by
    rw [hT]
    calc 2 = 2 ^ 1 := rfl
      _ ≤ 2 ^ (j + f) := Nat.pow_le_pow_right (by norm_num) (by omega)
  have hmain := calc_block_size_pow c p f j max_order hm hC hlo hhi
  refine ⟨f, hf, hmain, ?_, ?_, hT, ?_⟩
  · intro hfit
    rw [hmain, u32_of_lt hfit]
  · exact le_trans (Nat.min_le_left _ _) (Nat.mod_le _ _)
  · intro r hr
    obtain ⟨h1, h2, _⟩ := calculate_buffers_ok hr
    rw [hf] at h1
    have e1 : r.tp_frame_size = 2 ^ f := (Except.ok.inj h1).symm
    rw [e1, hmain] at h2
    exact ⟨e1, (Except.ok.inj h2).symm⟩

/-- Witness for C3: libtrace's constants, page size `2 ^ 12`, MTU 1500, `max_order` 10:
frames of 4096 bytes and blocks of `min (2 ^ 22) (2 ^ 20)` = 1048576 bytes. -/
theorem C3_block_size_witness :
    (libtrace_consts.LIBTRACE_PACKET_BUFSIZE = 2 ^ 16 ∧
      libtrace_consts.CONF_RING_FRAMES = 2 ^ 8) ∧
    calculate_buffers libtrace_consts (2 ^ 12) (some 1500) 10 = .ok ring_req ∧
    ∃ f, calc_frame_size libtrace_consts (2 ^ 12) (some 1500) = .ok (2 ^ f) ∧
      calc_block_size libtrace_consts (2 ^ 12) (2 ^ f) 10 =
        .ok (min (u32 (2 ^ 12 * 2 ^ 10)) (libtrace_consts.CONF_RING_FRAMES * 2 ^ f)) ∧
      (2 ^ 12 * 2 ^ 10 < 2 ^ 32 →
        calc_block_size libtrace_consts (2 ^ 12) (2 ^ f) 10 =
          .ok (min (2 ^ 12 * 2 ^ 10) (libtrace_consts.CONF_RING_FRAMES * 2 ^ f))) ∧
      min (u32 (2 ^ 12 * 2 ^ 10)) (libtrace_consts.CONF_RING_FRAMES * 2 ^ f)
        ≤ 2 ^ 12 * 2 ^ 10 ∧
      libtrace_consts.CONF_RING_FRAMES * 2 ^ f = 2 ^ (8 + f) ∧
      (∀ r, calculate_buffers libtrace_consts (2 ^ 12) (some 1500) 10 = .ok r →
        r.tp_frame_size = 2 ^ f ∧
        r.tp_block_size =
          min (u32 (2 ^ 12 * 2 ^ 10)) (libtrace_consts.CONF_RING_FRAMES * 2 ^ f)) :=
  ⟨⟨rfl, rfl⟩, rfl,
    C3_block_size libtrace_consts 16 8 12 10 (some 1500) rfl rfl (by decide) (by decide)
      (by decide) (by decide)⟩

theorem calc_block_size_lt {c : Consts} {pagesize fs max_order bs : Nat}
    (h : calc_block_size c pagesize fs max_order = .ok bs) : bs < 2 ^ 32 := by
  unfold calc_block_size at h
  cases hl : block_size_loop (u32 (c.CONF_RING_FRAMES * fs)) loopBound
      (u32 (pagesize * 2 ^ max_order)) with
  | error e => rw [hl] at h; cases h
  | ok x =>
    rw [hl] at h
    have : u32 (x * 2) = bs := Except.ok.inj h
    rw [← this]
    exact u32_lt _

theorem calc_block_size_target_ne_zero {c : Consts} {pagesize fs max_order bs : Nat}
    (h : calc_block_size c pagesize fs max_order = .ok bs) :
    u32 (c.CONF_RING_FRAMES * fs) ≠ 0 := by
  intro h0
  unfold calc_block_size at h
  rw [h0, block_size_loop_zero_target] at h
  cases h

/-- The block count and frame count stages, when the first two stages produce a block
size that is a nonzero multiple of the frame size and the product
`CONF_RING_FRAMES * tp_frame_size` has not wrapped around in 32 bits. -/
theorem calculate_buffers_block_count (c : Consts) (pagesize max_order fs bs : Nat) (ifr_mtu : Option Int)
    (hconf : c.CONF_RING_FRAMES < 2 ^ 31)
    (h1 : calc_frame_size c pagesize ifr_mtu = .ok fs)
    (h2 : calc_block_size c pagesize fs max_order = .ok bs)
    (hnz : bs ≠ 0) (hmul : bs % fs = 0)
    (hhi : c.CONF_RING_FRAMES * fs < 2 ^ 32) :
    ∃ r, calculate_buffers c pagesize ifr_mtu max_order = .ok r ∧
      r.tp_frame_size = fs ∧ r.tp_block_size = bs ∧
      c.CONF_RING_FRAMES ≤ r.tp_block_nr * (bs / fs) ∧
      (∀ n, c.CONF_RING_FRAMES ≤ n * (bs / fs) → r.tp_block_nr ≤ n) ∧
      r.tp_frame_nr = r.tp_block_nr * (bs / fs) ∧
      c.CONF_RING_FRAMES ≤ r.tp_frame_nr := by
  have hfs : fs ≠ 0 := by
    intro h0
    rw [h0, Nat.mod_zero] at hmul
    exact hnz hmul
  have hbs : bs / fs * fs = bs := Nat.div_mul_cancel (Nat.dvd_of_mod_eq_zero hmul)
  have hq : 0 < bs / fs := by
    rcases Nat.eq_zero_or_pos (bs / fs) with h | h
    · rw [h, Nat.zero_mul] at hbs; exact absurd hbs.symm hnz
    · exact h
  obtain ⟨nr, hnr, hge, hmin, hup⟩ := calc_block_nr_spec c fs (bs / fs) (by omega) hq hhi
  rw [hbs] at hnr
  have hT := calc_block_size_target_ne_zero h2
  rw [u32_of_lt hhi] at hT
  have hC1 : 1 ≤ c.CONF_RING_FRAMES := by
    rcases Nat.eq_zero_or_pos c.CONF_RING_FRAMES with h | h
    · rw [h, Nat.zero_mul] at hT; exact absurd rfl hT
    · exact h
  have hbslt := calc_block_size_lt h2
  have hqle : bs / fs ≤ bs := Nat.div_le_self _ _
  have hprod : nr * (bs / fs) < 2 ^ 32 := by
    by_cases hcq : c.CONF_RING_FRAMES ≤ bs / fs
    · have hnr1 : nr ≤ 1 := hmin 1 (by rw [Nat.one_mul]; exact hcq)
      have : nr * (bs / fs) ≤ 1 * (bs / fs) := Nat.mul_le_mul_right _ hnr1
      omega
    · omega
  have hfnr : calc_frame_nr fs bs nr = .ok (nr * (bs / fs)) := by
    unfold calc_frame_nr
    rw [if_neg hfs, u32_of_lt hprod]
    rfl
  have hnr0 : nr ≠ 0 := by
    intro h0
    rw [h0, Nat.zero_mul] at hge
    omega
  have hfnr0 : nr * (bs / fs) ≠ 0 := by omega
  refine ⟨{ tp_block_size := bs, tp_block_nr := nr, tp_frame_size := fs,
            tp_frame_nr := nr * (bs / fs) }, ?_, rfl, rfl, hge, hmin, rfl, hge⟩
  rw [calculate_buffers_of_stages h1 h2 hnr hfnr]
  unfold check_asserts
  simp only [hnz, hnr0, hfs, hfnr0, hmul, if_false, ne_eq, not_true_eq_false]

/-- C4: for a power-of-two page size and `CONF_RING_FRAMES` a power of two that a C `int`
holds, whenever the first two stages of `calculate_buffers` produce a block size that is a
nonzero multiple of the frame size, `calculate_buffers` returns, its block count is the
smallest `n` with `n * (block_size / frame_size) ≥ CONF_RING_FRAMES`, and its frame count
`tp_block_nr * (tp_block_size / tp_frame_size)` is at least `CONF_RING_FRAMES`. -/
theorem C4_block_count (c : Consts) (p j max_order fs bs : Nat) (ifr_mtu : Option Int)
    (hC : c.CONF_RING_FRAMES = 2 ^ j) (hj : j < 31)
    (h1 : calc_frame_size c (2 ^ p) ifr_mtu = .ok fs)
    (h2 : calc_block_size c (2 ^ p) fs max_order = .ok bs)
    (hnz : bs ≠ 0) (hmul : bs % fs = 0) :
    ∃ r, calculate_buffers c (2 ^ p) ifr_mtu max_order = .ok r ∧
      r.tp_frame_size = fs ∧ r.tp_block_size = bs ∧
      c.CONF_RING_FRAMES ≤ r.tp_block_nr * (bs / fs) ∧
      (∀ n, c.CONF_RING_FRAMES ≤ n * (bs / fs) → r.tp_block_nr ≤ n) ∧
      r.tp_frame_nr = r.tp_block_nr * (bs / fs) ∧
      c.CONF_RING_FRAMES ≤ r.tp_frame_nr := by
  have hconf : c.CONF_RING_FRAMES < 2 ^ 31 := by
    rw [hC]
    exact Nat.pow_lt_pow_right (by norm_num) hj
  have hfs0 : fs ≠ 0 := by
    intro h0
    rw [h0, Nat.mod_zero] at hmul
    exact hnz hmul
  -- the frame size is a power of two, so the 32-bit product is the product or 0
  have hhi : c.CONF_RING_FRAMES * fs < 2 ^ 32 := by
    rcases calc_frame_size_pow2 c p fs ifr_mtu h1 with h0 | ⟨k, hk⟩
    · exact absurd h0 hfs0
    · have hT := calc_block_size_target_ne_zero h2
      rw [hC, hk, ← pow_add, u32_pow2] at hT
      rw [hC, hk, ← pow_add]
      by_cases hlt : j + k < 32
      · exact Nat.pow_lt_pow_right (by norm_num) hlt
      · rw [if_neg hlt] at hT
        exact absurd rfl hT
  exact calculate_buffers_block_count c (2 ^ p) max_order fs bs ifr_mtu hconf h1 h2 hnz hmul
    hhi

/-- Witness for C4: libtrace's constants, page size 4096, MTU 1500, `max_order` 6:
frames of 4096 bytes in blocks of 262144 bytes. -/
theorem C4_block_count_witness :
    (calc_frame_size libtrace_consts (2 ^ 12) (some 1500) = .ok 4096 ∧
      calc_block_size libtrace_consts (2 ^ 12) 4096 6 = .ok 262144 ∧
      262144 % 4096 = 0 ∧ libtrace_consts.CONF_RING_FRAMES = 2 ^ 8) ∧
    ∃ r, calculate_buffers libtrace_consts (2 ^ 12) (some 1500) 6 = .ok r ∧
      r.tp_frame_size = 4096 ∧ r.tp_block_size = 262144 ∧
      libtrace_consts.CONF_RING_FRAMES ≤ r.tp_block_nr * (262144 / 4096) ∧
      (∀ n, libtrace_consts.CONF_RING_FRAMES ≤ n * (262144 / 4096) → r.tp_block_nr ≤ n) ∧
      r.tp_frame_nr = r.tp_block_nr * (262144 / 4096) ∧
      libtrace_consts.CONF_RING_FRAMES ≤ r.tp_frame_nr :=
  ⟨⟨rfl, rfl, by decide, rfl⟩,
    C4_block_count libtrace_consts 12 8 6 4096 262144 (some 1500) rfl (by decide) rfl rfl
      (by decide) (by decide)⟩

/-! ## Ring allocation (C5 - C7) -/

/-- When the kernel rejects every ring request with `ENOMEM` and `calculate_buffers`
returns for each of the orders `1 .. n`, `socket_to_packetmmap` issues exactly `n`
requests, for the orders `n, n - 1, ..., 1`, and returns -1 with the out-of-memory
message, `*max_order` 0 and nothing mapped. -/
theorem socket_to_packetmmap_all_enomem (c : Consts) (k : RingKernel) (rt : Nat) (fd : Int)
    (req : tpacket_req) (rl n : Nat) (err : String)
    (hv : k.version = .success) (hk : ∀ i, k.ring i = .failure ENOMEM)
    (hcb : ∀ m, 1 ≤ m → m ≤ n → ∃ q, calculate_buffers c k.pagesize k.ifr_mtu m = .ok q) :
    (socket_to_packetmmap c k rt fd req rl n err).ret = .ok (-1) ∧
    (socket_to_packetmmap c k rt fd req rl n err).error =
      "Cannot allocate enough memory for ring buffer" ∧
    (socket_to_packetmmap c k rt fd req rl n err).max_order = 0 ∧
    (ring_requests (socket_to_packetmmap c k rt fd req rl n err).calls).length = n ∧
    (∀ t (h : t < (ring_requests (socket_to_packetmmap c k rt fd req rl n err).calls).length),
      calculate_buffers c k.pagesize k.ifr_mtu (n - t) =
        .ok ((ring_requests (socket_to_packetmmap c k rt fd req rl n err).calls).get ⟨t, h⟩)) ∧
    mmap_calls (socket_to_packetmmap c k rt fd req rl n err).calls = [] ∧
    (socket_to_packetmmap c k rt fd req rl n err).ring_location = rl := by
  obtain ⟨j, reqs, h1, h2, h3, h4, h5⟩ :=
    socket_to_packetmmap_spec c k rt fd req rl n err _ rfl hv
  subst h2
  rcases h5 with h5 | h5 | ⟨e, h5⟩ | ⟨f, h5⟩
  · obtain ⟨a1, a2, a3, a4, a5, a6⟩ := h5
    exact ⟨a1, a2, a3, by omega, h4, a5, a6⟩
  · have := hk j
    rw [h5.2.2.1] at this
    cases this
  · have := hk j
    rw [h5.2.2.2.2.1] at this
    exact absurd (SyscallResult.failure.inj this) h5.2.2.2.2.2.1
  · obtain ⟨q, hq⟩ := hcb _ h5.2.1 (by omega)
    rw [h5.2.2.2.1] at hq
    cases hq

/-- C5 (defect of the code): with libtrace's constants, 4096-byte pages, an interface MTU
of 9000 and a kernel that rejects every ring request with `ENOMEM`, `socket_to_packetmmap`
started at `max_order` 10 does not return: after 9 requests, with `*max_order` equal to 1,
the process stops at the assertion `assert(req->tp_frame_nr)` of `calculate_buffers`. -/
theorem C5_retry_stops_at_assertion :
    kernel_jumbo_enomem.version = .success ∧
    (∀ i, kernel_jumbo_enomem.ring i = .failure ENOMEM) ∧
    (socket_to_packetmmap libtrace_consts kernel_jumbo_enomem PACKET_RX_RING 3 zero_req
      MAP_FAILED 10 "No known error").ret = .error (.assertion_failed 151) ∧
    (ring_requests (socket_to_packetmmap libtrace_consts kernel_jumbo_enomem PACKET_RX_RING 3
      zero_req MAP_FAILED 10 "No known error").calls).length = 9 ∧
    (socket_to_packetmmap libtrace_consts kernel_jumbo_enomem PACKET_RX_RING 3 zero_req
      MAP_FAILED 10 "No known error").max_order = 1 :=
  ⟨rfl, fun _ => rfl, rfl, rfl, rfl⟩

theorem start_after_bind_max_order (k : StartKernel) (libtrace : libtrace_t)
    (fmt : linux_format_data_t) (stream : linux_per_stream_t) (ifindex : Nat)
    (calls : List Syscall) :
    (start_after_bind k libtrace fmt stream ifindex calls).format_data.max_order =
      fmt.max_order := by
  unfold start_after_bind
  cases hf : fmt.filter with
  | none => simp only [hf]
  | some filter =>
    simp only [hf]
    split_ifs <;> rfl

/-- The socket set-up of a stream leaves `max_order` as it finds it. -/
theorem linuxcommon_start_input_stream_max_order (k : StartKernel) (libtrace : libtrace_t)
    (fmt : linux_format_data_t) (stream : linux_per_stream_t) :
    (linuxcommon_start_input_stream k libtrace fmt stream).format_data.max_order =
      fmt.max_order := by
  unfold linuxcommon_start_input_stream
  by_cases h1 : k.socket_fd = -1
  · rw [if_pos h1]
  · rw [if_neg h1]
    by_cases h2 : libtrace.uridata.length ≠ 0 ∧ k.if_index = 0
    · rw [if_pos h2]
    · rw [if_neg h2]
      cases hb : k.bind with
      | success => simp only [hb]; exact start_after_bind_max_order _ _ _ _ _ _
      | failure e => simp only [hb]

/-- What `linuxring_start_input_stream` leaves in the format data once the socket set-up
has succeeded: the request and the `max_order` that `socket_to_packetmmap`, started at
`FORMAT_DATA->max_order`, leaves behind. -/
theorem linuxring_start_input_stream_geometry (c : Consts) (k : StreamKernel)
    (libtrace : libtrace_t) (fmt : linux_format_data_t) (stream : linux_per_stream_t)
    (h : (linuxcommon_start_input_stream k.start libtrace fmt stream).ret = .ok 0) :
    (linuxring_start_input_stream c k libtrace fmt stream).format_data.max_order =
      (socket_to_packetmmap c k.ring PACKET_RX_RING
        (linuxcommon_start_input_stream k.start libtrace fmt stream).stream.fd
        (linuxcommon_start_input_stream k.start libtrace fmt stream).format_data.req
        (linuxcommon_start_input_stream k.start libtrace fmt stream).stream.rx_ring
        fmt.max_order "No known error").max_order ∧
    (linuxring_start_input_stream c k libtrace fmt stream).format_data.req =
      (socket_to_packetmmap c k.ring PACKET_RX_RING
        (linuxcommon_start_input_stream k.start libtrace fmt stream).stream.fd
        (linuxcommon_start_input_stream k.start libtrace fmt stream).format_data.req
        (linuxcommon_start_input_stream k.start libtrace fmt stream).stream.rx_ring
        fmt.max_order "No known error").req := by
  have hmo := linuxcommon_start_input_stream_max_order k.start libtrace fmt stream
  unfold linuxring_start_input_stream
  simp only [h, hmo]
  rw [if_neg (by decide)]
  split
  · exact ⟨rfl, rfl⟩
  · split_ifs <;> exact ⟨rfl, rfl⟩

theorem socket_to_packetmmap_version_failed (c : Consts) (k : RingKernel) (rt : Nat)
    (fd : Int) (req : tpacket_req) (rl n : Nat) (err : String) (e : Nat)
    (hv : k.version = .failure e) :
    socket_to_packetmmap c k rt fd req rl n err =
      { ret := .ok (-1), req := req, ring_location := rl, max_order := n,
        error := "TPACKET2 not supported",
        calls := [Syscall.setsockopt fd .PACKET_VERSION] } := by
  unfold socket_to_packetmmap
  simp only [hv]

/-- C6: whatever the kernel answers, `socket_to_packetmmap` issues at most (initial
`max_order`) ring requests and never increases `max_order`.  When it succeeds, the final
`max_order` is at least 1 and equals the initial value minus the number `j` of `ENOMEM`
rejections, and the request left behind is the one `calculate_buffers` computes at the
final `max_order`.  `linuxring_start_input_stream` runs it on `FORMAT_DATA->max_order` and
`FORMAT_DATA->req`, so the final values are in the shared format data, where the next
stream start of the session picks `max_order` up. -/
theorem C6_max_order_shrinks (c : Consts) (k : RingKernel) (rt : Nat) (fd : Int)
    (req : tpacket_req) (rl n : Nat) (err : String) :
    (ring_requests (socket_to_packetmmap c k rt fd req rl n err).calls).length ≤ n ∧
    (socket_to_packetmmap c k rt fd req rl n err).max_order ≤ n ∧
    ((socket_to_packetmmap c k rt fd req rl n err).ret = .ok 0 →
      1 ≤ (socket_to_packetmmap c k rt fd req rl n err).max_order ∧
      (∃ j, (∀ t, t < j → k.ring t = .failure ENOMEM) ∧ k.ring j = .success ∧
        (socket_to_packetmmap c k rt fd req rl n err).max_order + j = n ∧
        (ring_requests (socket_to_packetmmap c k rt fd req rl n err).calls).length = j + 1) ∧
      calculate_buffers c k.pagesize k.ifr_mtu
          (socket_to_packetmmap c k rt fd req rl n err).max_order =
        .ok (socket_to_packetmmap c k rt fd req rl n err).req) ∧
    (∀ (ks : StreamKernel) (libtrace : libtrace_t) (fmt : linux_format_data_t)
        (stream : linux_per_stream_t),
      (linuxcommon_start_input_stream ks.start libtrace fmt stream).ret = .ok 0 →
      (linuxring_start_input_stream c ks libtrace fmt stream).format_data.max_order =
        (socket_to_packetmmap c ks.ring PACKET_RX_RING
          (linuxcommon_start_input_stream ks.start libtrace fmt stream).stream.fd
          (linuxcommon_start_input_stream ks.start libtrace fmt stream).format_data.req
          (linuxcommon_start_input_stream ks.start libtrace fmt stream).stream.rx_ring
          fmt.max_order "No known error").max_order ∧
      (linuxring_start_input_stream c ks libtrace fmt stream).format_data.req =
        (socket_to_packetmmap c ks.ring PACKET_RX_RING
          (linuxcommon_start_input_stream ks.start libtrace fmt stream).stream.fd
          (linuxcommon_start_input_stream ks.start libtrace fmt stream).format_data.req
          (linuxcommon_start_input_stream ks.start libtrace fmt stream).stream.rx_ring
          fmt.max_order "No known error").req ∧
      (linuxring_start_input_stream c ks libtrace fmt stream).format_data.max_order ≤
        fmt.max_order) := by
  have hgen : ∀ (k : RingKernel) (rt : Nat) (fd : Int) (req : tpacket_req) (rl n : Nat)
      (err : String),
      (ring_requests (socket_to_packetmmap c k rt fd req rl n err).calls).length ≤ n ∧
      (socket_to_packetmmap c k rt fd req rl n err).max_order ≤ n ∧
      ((socket_to_packetmmap c k rt fd req rl n err).ret = .ok 0 →
        1 ≤ (socket_to_packetmmap c k rt fd req rl n err).max_order ∧
        (∃ j, (∀ t, t < j → k.ring t = .failure ENOMEM) ∧ k.ring j = .success ∧
          (socket_to_packetmmap c k rt fd req rl n err).max_order + j = n ∧
          (ring_requests (socket_to_packetmmap c k rt fd req rl n err).calls).length = j + 1) ∧
        calculate_buffers c k.pagesize k.ifr_mtu
            (socket_to_packetmmap c k rt fd req rl n err).max_order =
          .ok (socket_to_packetmmap c k rt fd req rl n err).req) := by
    intro k rt fd req rl n err
    cases hv : k.version with
    | failure e =>
      rw [socket_to_packetmmap_version_failed c k rt fd req rl n err e hv]
      refine ⟨Nat.zero_le _, le_refl _, ?_⟩
      intro h
      exact absurd (Except.ok.inj h) (by decide)
    | success =>
      obtain ⟨j, reqs, h1, h2, h3, h4, h5⟩ :=
        socket_to_packetmmap_spec c k rt fd req rl n err _ rfl hv
      rw [h2]
      rcases h5 with h5 | h5 | ⟨e, h5⟩ | ⟨f, h5⟩
      · refine ⟨by omega, by omega, ?_⟩
        intro h
        rw [h5.1] at h
        exact absurd (Except.ok.inj h) (by decide)
      · refine ⟨by omega, by omega, ?_⟩
        intro _
        exact ⟨h5.1, ⟨j, h3, h5.2.2.1, h1, h5.2.1⟩, h5.2.2.2.1⟩
      · refine ⟨by omega, by omega, ?_⟩
        intro h
        rw [h5.1] at h
        exact absurd (Except.ok.inj h) (by decide)
      · refine ⟨by omega, by omega, ?_⟩
        intro h
        rw [h5.1] at h
        cases h
  obtain ⟨g1, g2, g3⟩ := hgen k rt fd req rl n err
  refine ⟨g1, g2, g3, ?_⟩
  intro ks libtrace fmt stream hs
  obtain ⟨e1, e2⟩ := linuxring_start_input_stream_geometry c ks libtrace fmt stream hs
  refine ⟨e1, e2, ?_⟩
  rw [e1]
  exact (hgen ks.ring PACKET_RX_RING _ _ _ fmt.max_order "No known error").2.1

/-- Witness for C6: the first stream of a trace on `eth0` is opened with libtrace's
constants while the kernel rejects two ring requests with `ENOMEM` and accepts the third.
`socket_to_packetmmap` succeeds; three requests were issued and `max_order` went from 10 to
8, which is what the format data holds afterwards. -/
theorem C6_max_order_shrinks_witness :
    (socket_to_packetmmap libtrace_consts kernel_two_enomem PACKET_RX_RING 3 zero_req
      MAP_FAILED 10 "No known error").ret = .ok 0 ∧
    (socket_to_packetmmap libtrace_consts kernel_two_enomem PACKET_RX_RING 3 zero_req
      MAP_FAILED 10 "No known error").max_order = 8 ∧
    (linuxcommon_start_input_stream start_kernel_ok trace_eth0
      (init_format_data libtrace_consts 7) ZERO_LINUX_STREAM).ret = .ok 0 ∧
    (linuxring_start_input_stream libtrace_consts
      { start := start_kernel_ok, ring := kernel_two_enomem } trace_eth0
      (init_format_data libtrace_consts 7) ZERO_LINUX_STREAM).format_data.max_order = 8 ∧
    1 ≤ (socket_to_packetmmap libtrace_consts kernel_two_enomem PACKET_RX_RING 3 zero_req
      MAP_FAILED 10 "No known error").max_order ∧
    (linuxring_start_input_stream libtrace_consts
      { start := start_kernel_ok, ring := kernel_two_enomem } trace_eth0
      (init_format_data libtrace_consts 7) ZERO_LINUX_STREAM).format_data.max_order ≤
        (init_format_data libtrace_consts 7).max_order :=
  ⟨rfl, rfl, rfl, rfl,
    ((C6_max_order_shrinks libtrace_consts kernel_two_enomem PACKET_RX_RING 3 zero_req
      MAP_FAILED 10 "No known error").2.2.1 rfl).1,
    ((C6_max_order_shrinks libtrace_consts kernel_two_enomem PACKET_RX_RING 3 zero_req
      MAP_FAILED 10 "No known error").2.2.2
      { start := start_kernel_ok, ring := kernel_two_enomem } trace_eth0
      (init_format_data libtrace_consts 7) ZERO_LINUX_STREAM rfl).2.2⟩

/-- C7: when the `j`-th ring request that `socket_to_packetmmap` issues (counted from 0)
is rejected with an errno other than `ENOMEM`, the function returns -1 with the message
"Error setting the ring buffer size"; that request is the last one issued, `*max_order`
is still the order the request was computed for (the initial value minus the `j` earlier
rejections), no `mmap` call is made and `*ring_location` is unchanged. -/
theorem C7_other_errno_fails_at_once (c : Consts) (k : RingKernel) (rt : Nat) (fd : Int)
    (req : tpacket_req) (rl n : Nat) (err : String) (j e : Nat)
    (hj : j < (ring_requests (socket_to_packetmmap c k rt fd req rl n err).calls).length)
    (hr : k.ring j = .failure e) (he : e ≠ ENOMEM) :
    (socket_to_packetmmap c k rt fd req rl n err).ret = .ok (-1) ∧
    (socket_to_packetmmap c k rt fd req rl n err).error =
      "Error setting the ring buffer size" ∧
    (ring_requests (socket_to_packetmmap c k rt fd req rl n err).calls).length = j + 1 ∧
    (socket_to_packetmmap c k rt fd req rl n err).max_order + j = n ∧
    calculate_buffers c k.pagesize k.ifr_mtu
        (socket_to_packetmmap c k rt fd req rl n err).max_order =
      .ok (socket_to_packetmmap c k rt fd req rl n err).req ∧
    mmap_calls (socket_to_packetmmap c k rt fd req rl n err).calls = [] ∧
    (socket_to_packetmmap c k rt fd req rl n err).ring_location = rl := by
  cases hv : k.version with
  | failure e2 =>
    rw [socket_to_packetmmap_version_failed c k rt fd req rl n err e2 hv] at hj
    simp [ring_requests] at hj
  | success =>
    obtain ⟨j0, reqs, h1, h2, h3, h4, h5⟩ :=
      socket_to_packetmmap_spec c k rt fd req rl n err _ rfl hv
    rw [h2] at hj ⊢
    have hjj : j0 ≤ j := by
      by_contra hlt
      have := h3 j (by omega)
      rw [hr] at this
      exact he (SyscallResult.failure.inj this)
    rcases h5 with h5 | h5 | ⟨e3, h5⟩ | ⟨f, h5⟩
    · omega
    · have hj0 : j = j0 := by omega
      subst hj0
      rw [hr] at h5
      cases h5.2.2.1
    · have hj0 : j = j0 := by omega
      subst hj0
      exact ⟨h5.1, h5.2.1, h5.2.2.2.1, h1, h5.2.2.2.2.2.2.1, h5.2.2.2.2.2.2.2.1,
        h5.2.2.2.2.2.2.2.2⟩
    · omega

/-- Witness for C7: the first request is rejected with `ENOMEM`, the second with `EINVAL`;
the call fails there with `*max_order` equal to 9. -/
theorem C7_other_errno_fails_at_once_witness :
    kernel_enomem_einval.ring 1 = .failure 22 ∧ 22 ≠ ENOMEM ∧
    (socket_to_packetmmap libtrace_consts kernel_enomem_einval PACKET_RX_RING 3 zero_req
      MAP_FAILED 10 "No known error").ret = .ok (-1) ∧
    (socket_to_packetmmap libtrace_consts kernel_enomem_einval PACKET_RX_RING 3 zero_req
      MAP_FAILED 10 "No known error").error = "Error setting the ring buffer size" ∧
    (ring_requests (socket_to_packetmmap libtrace_consts kernel_enomem_einval PACKET_RX_RING
      3 zero_req MAP_FAILED 10 "No known error").calls).length = 1 + 1 ∧
    (socket_to_packetmmap libtrace_consts kernel_enomem_einval PACKET_RX_RING 3 zero_req
      MAP_FAILED 10 "No known error").max_order + 1 = 10 ∧
    calculate_buffers libtrace_consts kernel_enomem_einval.pagesize
        kernel_enomem_einval.ifr_mtu
        (socket_to_packetmmap libtrace_consts kernel_enomem_einval PACKET_RX_RING 3 zero_req
          MAP_FAILED 10 "No known error").max_order =
      .ok (socket_to_packetmmap libtrace_consts kernel_enomem_einval PACKET_RX_RING 3
        zero_req MAP_FAILED 10 "No known error").req ∧
    mmap_calls (socket_to_packetmmap libtrace_consts kernel_enomem_einval PACKET_RX_RING 3
      zero_req MAP_FAILED 10 "No known error").calls = [] ∧
    (socket_to_packetmmap libtrace_consts kernel_enomem_einval PACKET_RX_RING 3 zero_req
      MAP_FAILED 10 "No known error").ring_location = MAP_FAILED :=
  ⟨rfl, by decide,
    C7_other_errno_fails_at_once libtrace_consts kernel_enomem_einval PACKET_RX_RING 3
      zero_req MAP_FAILED 10 "No known error" 1 22 (by decide) rfl (by decide)⟩

/-! ## Closing a stream and releasing a packet (C8, C9) -/

/-- C8: for every stream state, `linuxcommon_close_input_stream` leaves the descriptor
equal to -1 and the ring pointer equal to `MAP_FAILED`; a second call right after it makes
no system call (no `close`, no `munmap`) and leaves the stream unchanged; on a stream that
is still `ZERO_LINUX_STREAM` the first call already makes no system call. -/
theorem C8_close_is_idempotent (req req2 : tpacket_req) (stream : linux_per_stream_t) :
    (linuxcommon_close_input_stream req stream).1.fd = -1 ∧
    (linuxcommon_close_input_stream req stream).1.rx_ring = MAP_FAILED ∧
    linuxcommon_close_input_stream req2 (linuxcommon_close_input_stream req stream).1 =
      ((linuxcommon_close_input_stream req stream).1, []) ∧
    linuxcommon_close_input_stream req ZERO_LINUX_STREAM = (ZERO_LINUX_STREAM, []) := by
  refine ⟨rfl, rfl, ?_, ?_⟩
  · simp [linuxcommon_close_input_stream]
  · simp [linuxcommon_close_input_stream, ZERO_LINUX_STREAM]

/-- C9 (defect of the code): for a borrowed packet (`buf_control` is
`TRACE_CTRL_EXTERNAL`, buffer not NULL) whose trace is paused, so that the trace is not
started and the ring pointer of its first stream is `MAP_FAILED`, `linuxring_fin_packet`
does not complete: `MAP_FAILED` is not the null pointer, so the assertion
`assert(!!FORMAT_DATA_FIRST->rx_ring == !!packet->trace->started)` of line 589 fails
before the branch that only clears the buffer pointer is reached. -/
theorem C9_fin_packet_assertion_fails (libtrace : libtrace_t) (fmt : linux_format_data_t)
    (first : linux_per_stream_t) (rest : List linux_per_stream_t) (mem : Memory)
    (packet : libtrace_packet_t)
    (hb : packet.buffer ≠ NULL) (hc : packet.buf_control = .TRACE_CTRL_EXTERNAL)
    (hs : libtrace.started = false) (hl : fmt.per_stream = first :: rest)
    (hr : first.rx_ring = MAP_FAILED) :
    linuxring_fin_packet (some (libtrace, fmt)) mem packet =
      .error (.assertion_failed 589) := by
  have hne : first.rx_ring ≠ NULL := by rw [hr]; decide
  unfold linuxring_fin_packet
  rw [if_neg hb]
  simp only [hc, hl, List.head?_cons, if_true]
  rw [if_pos]
  simp [hs, hne]

/-- Witness for C9: the packet borrows the frame at address 4096 of a trace whose only
stream has been closed by a pause. -/
theorem C9_fin_packet_assertion_fails_witness :
    borrowed_packet.buffer ≠ NULL ∧
    borrowed_packet.buf_control = .TRACE_CTRL_EXTERNAL ∧
    trace_eth0.started = false ∧
    linuxring_fin_packet (some (trace_eth0, paused_format_data)) one_frame_memory
      borrowed_packet = .error (.assertion_failed 589) :=
  ⟨by decide, rfl, rfl,
    C9_fin_packet_assertion_fails trace_eth0 paused_format_data _ [] one_frame_memory
      borrowed_packet (by decide) rfl rfl rfl rfl⟩

/-! ## Truncating a packet (C10) -/

theorem int_of_u32_small {n : Nat} (h : n < 2 ^ 31) : int_of_u32 n = (n : Int) := by
  unfold int_of_u32
  rw [if_pos h]

theorem size_t_of_int_small {n : Nat} (h : n < 2 ^ 31) : size_t_of_int (n : Int) = n := by
  unfold size_t_of_int
  omega

theorem trace_get_capture_length_coherent (mem : Memory) (packet : libtrace_packet_t)
    (c : Nat) (hc : (mem packet.buffer).tp_snaplen = c) (hlt : c < 2 ^ 31)
    (hcache : packet.capture_length = -1 ∨ packet.capture_length = (c : Int)) :
    trace_get_capture_length mem packet = c := by
  unfold trace_get_capture_length linuxring_get_capture_length
  rcases hcache with h | h
  · rw [if_pos h, hc, int_of_u32_small hlt, size_t_of_int_small hlt]
  · by_cases h1 : packet.capture_length = -1
    · rw [if_pos h1, hc, int_of_u32_small hlt, size_t_of_int_small hlt]
    · rw [if_neg h1, h, size_t_of_int_small hlt]

/-- C10: for a ring packet whose captured length is `c` (the frame's `tp_snaplen`, a
non-negative C `int`; the cached length is either absent or `c`) and every requested size
`n`, `linuxring_set_capture_length` returns `min n c`, and afterwards the frame's
`tp_snaplen`, the value of `linuxring_get_capture_length` and the reported captured length
are `min n c`, which is never greater than `c`; when `n ≤ c` the cached capture length is
reset to -1. -/
theorem C10_set_capture_length (mem : Memory) (packet : libtrace_packet_t) (n c : Nat)
    (hc : (mem packet.buffer).tp_snaplen = c) (hlt : c < 2 ^ 31)
    (hcache : packet.capture_length = -1 ∨ packet.capture_length = (c : Int)) :
    trace_get_capture_length mem packet = c ∧
    (linuxring_set_capture_length mem packet n).ret = min n c ∧
    ((linuxring_set_capture_length mem packet n).mem
      (linuxring_set_capture_length mem packet n).packet.buffer).tp_snaplen = min n c ∧
    linuxring_get_capture_length (linuxring_set_capture_length mem packet n).mem
      (linuxring_set_capture_length mem packet n).packet = ((min n c : Nat) : Int) ∧
    trace_get_capture_length (linuxring_set_capture_length mem packet n).mem
      (linuxring_set_capture_length mem packet n).packet = min n c ∧
    min n c ≤ c ∧
    (n ≤ c → (linuxring_set_capture_length mem packet n).packet.capture_length = -1) := by
  have hcur := trace_get_capture_length_coherent mem packet c hc hlt hcache
  refine ⟨hcur, ?_⟩
  by_cases hn : n > c
  · have hmin : min n c = c := by omega
    have hres : linuxring_set_capture_length mem packet n =
        { ret := c, packet := packet, mem := mem } := by
      unfold linuxring_set_capture_length
      rw [hcur, if_pos hn]
    rw [hres, hmin]
    refine ⟨rfl, hc, ?_, hcur, le_refl _, fun h => by omega⟩
    unfold linuxring_get_capture_length
    rw [hc, int_of_u32_small hlt]
  · have hmin : min n c = n := by omega
    have hn31 : n < 2 ^ 31 := by omega
    have hu : u32 n = n := u32_of_lt (by omega)
    have hsnap : (write_tp_snaplen mem packet.buffer n packet.buffer).tp_snaplen = n := by
      simp [write_tp_snaplen]
    have hnew : trace_get_capture_length (write_tp_snaplen mem packet.buffer n)
        { packet with capture_length := -1 } = n :=
      trace_get_capture_length_coherent _ _ n hsnap hn31 (Or.inl rfl)
    have hres : linuxring_set_capture_length mem packet n =
        { ret := n, packet := { packet with capture_length := -1 },
          mem := write_tp_snaplen mem packet.buffer n } := by
      unfold linuxring_set_capture_length
      rw [hcur, if_neg hn]
      simp only [hu, hnew]
    rw [hres, hmin]
    refine ⟨rfl, hsnap, ?_, hnew, by omega, fun _ => rfl⟩
    unfold linuxring_get_capture_length
    rw [hsnap, int_of_u32_small hn31]

/-- Witness for C10: the packet borrows a frame with 1000 captured bytes, nothing is
cached, and 600 bytes are requested. -/
theorem C10_set_capture_length_witness :
    (one_frame_memory borrowed_packet.buffer).tp_snaplen = 1000 ∧
    (linuxring_set_capture_length one_frame_memory borrowed_packet 600).ret = min 600 1000 ∧
    (linuxring_set_capture_length one_frame_memory borrowed_packet 600).packet.capture_length
      = -1 :=
  ⟨rfl,
    (C10_set_capture_length one_frame_memory borrowed_packet 600 1000 rfl (by decide)
      (Or.inl rfl)).2.1,
    (C10_set_capture_length one_frame_memory borrowed_packet 600 1000 rfl (by decide)
      (Or.inl rfl)).2.2.2.2.2.2 (by decide)⟩

/-! ## Wire length (C11) -/

/-- C11: for every ring packet whose `tp_len + 4` is a C `int`, the link type is
`TRACE_TYPE_ETH` exactly when `sll_hatype` is `ARPHRD_ETHER` or `ARPHRD_LOOPBACK`;
`linuxring_get_wire_length` returns `tp_len + 4` in that case and exactly `tp_len` for
every other hardware type. -/
theorem C11_wire_length (mem : Memory) (sll : LinkMemory) (packet : libtrace_packet_t)
    (hlen : (mem packet.buffer).tp_len + 4 < 2 ^ 31) :
    (trace_get_link_type sll packet = .TRACE_TYPE_ETH ↔
      ((sll packet.buffer).sll_hatype = LIBTRACE_ARPHRD_ETHER ∨
       (sll packet.buffer).sll_hatype = LIBTRACE_ARPHRD_LOOPBACK)) ∧
    (((sll packet.buffer).sll_hatype = LIBTRACE_ARPHRD_ETHER ∨
       (sll packet.buffer).sll_hatype = LIBTRACE_ARPHRD_LOOPBACK) →
      linuxring_get_wire_length mem sll packet = ((mem packet.buffer).tp_len : Int) + 4) ∧
    (¬ ((sll packet.buffer).sll_hatype = LIBTRACE_ARPHRD_ETHER ∨
       (sll packet.buffer).sll_hatype = LIBTRACE_ARPHRD_LOOPBACK) →
      linuxring_get_wire_length mem sll packet = ((mem packet.buffer).tp_len : Int)) := by
  have hiff : trace_get_link_type sll packet = .TRACE_TYPE_ETH ↔
      ((sll packet.buffer).sll_hatype = LIBTRACE_ARPHRD_ETHER ∨
       (sll packet.buffer).sll_hatype = LIBTRACE_ARPHRD_LOOPBACK) := by
    unfold trace_get_link_type linuxring_get_link_type linuxcommon_get_link_type
    constructor
    · intro h
      by_contra hne
      rw [if_neg hne] at h
      split_ifs at h
    · intro h
      rw [if_pos h]
  have hint : int_of_u32 (mem packet.buffer).tp_len = ((mem packet.buffer).tp_len : Int) :=
    int_of_u32_small (by omega)
  refine ⟨hiff, ?_, ?_⟩
  · intro h
    unfold linuxring_get_wire_length
    simp only [hint]
    rw [if_pos (hiff.mpr h)]
  · intro h
    unfold linuxring_get_wire_length
    simp only [hint]
    rw [if_neg (fun h2 => h (hiff.mp h2))]

/-- Witness for C11: a frame of 1514 bytes received on an Ethernet interface has the wire
length 1518. -/
theorem C11_wire_length_witness :
    (one_frame_memory borrowed_packet.buffer).tp_len + 4 < 2 ^ 31 ∧
    (ether_link_memory borrowed_packet.buffer).sll_hatype = LIBTRACE_ARPHRD_ETHER ∧
    linuxring_get_wire_length one_frame_memory ether_link_memory borrowed_packet =
      ((one_frame_memory borrowed_packet.buffer).tp_len : Int) + 4 :=
  ⟨by decide, rfl,
    (C11_wire_length one_frame_memory ether_link_memory borrowed_packet (by decide)).2.1
      (Or.inl rfl)⟩

/-! ## Statistics (C14 - C16) -/

theorem update_statistics_loop_closed (query : Nat → Option tpacket_stats) :
    ∀ (l : List linux_per_stream_t) (i : Nat) (fmt : linux_format_data_t)
      (calls : List Syscall), (∀ s ∈ l, s.fd = -1) →
      update_statistics_loop query i l fmt calls = (fmt, calls) := by
  intro l
  induction l with
  | nil => intro i fmt calls _; rfl
  | cons s rest ih =>
    intro i fmt calls h
    have hs : s.fd = -1 := h s (List.mem_cons_self _ _)
    have hstep : update_statistics_stream (query i) fmt s = (fmt, []) := by
      unfold update_statistics_stream
      rw [if_neg (by simp [hs])]
    simp only [update_statistics_loop, hstep, List.append_nil]
    exact ih (i + 1) fmt calls (fun t ht => h t (List.mem_cons_of_mem _ ht))

theorem update_statistics_loop_append (query : Nat → Option tpacket_stats) :
    ∀ (l1 l2 : List linux_per_stream_t) (i : Nat) (fmt : linux_format_data_t)
      (calls : List Syscall),
      update_statistics_loop query i (l1 ++ l2) fmt calls =
        update_statistics_loop query (i + l1.length) l2
          (update_statistics_loop query i l1 fmt calls).1
          (update_statistics_loop query i l1 fmt calls).2 := by
  intro l1
  induction l1 with
  | nil => intro l2 i fmt calls; rfl
  | cons s rest ih =>
    intro l2 i fmt calls
    show update_statistics_loop query i (s :: (rest ++ l2)) fmt calls = _
    simp only [update_statistics_loop, List.length_cons]
    rw [ih]
    rw [show i + 1 + rest.length = i + (rest.length + 1) by omega]

/-- C14: starting from invalid totals, for a collection that holds exactly one live
stream, whose kernel counters are `(p, d)`, among any number of streams with descriptor
-1 before and after it, `linuxcommon_update_statistics` queries the live stream only and
leaves `tp_packets = p`, `tp_drops = d` and `stats_valid = 1`. -/
theorem C14_invalid_streams_skipped (query : Nat → Option tpacket_stats)
    (fmt : linux_format_data_t) (before after : List linux_per_stream_t)
    (live : linux_per_stream_t) (p d : Nat)
    (hv : fmt.stats_valid = 0) (hs : fmt.per_stream = before ++ live :: after)
    (hb : ∀ s ∈ before, s.fd = -1) (ha : ∀ s ∈ after, s.fd = -1) (hl : live.fd ≠ -1)
    (hq : query before.length = some { tp_packets := p, tp_drops := d }) :
    (linuxcommon_update_statistics query fmt).1.stats = { tp_packets := p, tp_drops := d } ∧
    (linuxcommon_update_statistics query fmt).1.stats_valid = 1 ∧
    (linuxcommon_update_statistics query fmt).2 = [Syscall.getsockopt_statistics live.fd] := by
  have hstep : update_statistics_stream (query before.length) fmt live =
      ({ fmt with stats := { tp_packets := p, tp_drops := d }, stats_valid := 1 },
        [Syscall.getsockopt_statistics live.fd]) := by
    unfold update_statistics_stream
    rw [if_pos hl, hq]
    simp only [hv, if_true]
  have hall : linuxcommon_update_statistics query fmt =
      ({ fmt with stats := { tp_packets := p, tp_drops := d }, stats_valid := 1 },
        [Syscall.getsockopt_statistics live.fd]) := by
    unfold linuxcommon_update_statistics
    rw [show update_statistics_loop query 0 fmt.per_stream fmt [] =
      update_statistics_loop query 0 (before ++ live :: after) fmt [] by rw [hs]]
    rw [update_statistics_loop_append, update_statistics_loop_closed query before 0 fmt [] hb]
    simp only [Nat.zero_add, update_statistics_loop, hstep, List.nil_append]
    exact update_statistics_loop_closed query after _ _ _ ha
  rw [hall]
  exact ⟨rfl, rfl, rfl⟩

/-- Witness for C14: two streams, the first without descriptor, the second reporting 100
packets and 5 drops. -/
theorem C14_invalid_streams_skipped_witness :
    stats_format_data.stats_valid = 0 ∧
    (linuxcommon_update_statistics query_second stats_format_data).1.stats =
      { tp_packets := 100, tp_drops := 5 } ∧
    (linuxcommon_update_statistics query_second stats_format_data).1.stats_valid = 1 ∧
    (linuxcommon_update_statistics query_second stats_format_data).2 =
      [Syscall.getsockopt_statistics 4] :=
  ⟨rfl,
    C14_invalid_streams_skipped query_second stats_format_data
      [{ fd := -1, rx_ring := MAP_FAILED, rxring_offset := 0 }] []
      { fd := 4, rx_ring := 4096, rxring_offset := 0 } 100 5 rfl rfl
      (by intro s hs; simp at hs; rw [hs])
      (by intro s hs; simp at hs) (by decide) rfl⟩

/-- C15 (defect of the code): starting from invalid totals, one pass of
`linuxcommon_update_statistics` over two live streams whose kernel counters are
`(100, 5)` and `(50, 2)` leaves `tp_packets = 100` and `tp_drops = 57`: the second stream
adds its packets to the drops total (line 496) and nothing to the packets total, where
the sums are 150 packets and 7 drops. -/
theorem C15_drops_counted_as_packets :
    two_live_format_data.stats_valid = 0 ∧
    query_two 0 = some { tp_packets := 100, tp_drops := 5 } ∧
    query_two 1 = some { tp_packets := 50, tp_drops := 2 } ∧
    (linuxcommon_update_statistics query_two two_live_format_data).1.stats =
      { tp_packets := 100, tp_drops := 57 } ∧
    (linuxcommon_update_statistics query_two two_live_format_data).1.stats ≠
      { tp_packets := 100 + 50, tp_drops := 5 + 2 } := by
  refine ⟨rfl, rfl, rfl, rfl, ?_⟩
  have h : (linuxcommon_update_statistics query_two two_live_format_data).1.stats =
      { tp_packets := 100, tp_drops := 57 } := rfl
  rw [h]
  decide

theorem update_statistics_stream_none (fmt : linux_format_data_t)
    (stream : linux_per_stream_t) :
    (update_statistics_stream none fmt stream).1 = fmt := by
  unfold update_statistics_stream
  split_ifs <;> rfl

theorem update_statistics_loop_no_answer (query : Nat → Option tpacket_stats)
    (hq : ∀ i, query i = none) :
    ∀ (l : List linux_per_stream_t) (i : Nat) (fmt : linux_format_data_t)
      (calls : List Syscall), (update_statistics_loop query i l fmt calls).1 = fmt := by
  intro l
  induction l with
  | nil => intro i fmt calls; rfl
  | cons s rest ih =>
    intro i fmt calls
    simp only [update_statistics_loop]
    rw [ih, hq, update_statistics_stream_none]

/-- C16: `linuxcommon_get_captured_packets` and `linuxcommon_get_dropped_packets` return
`UINT64_MAX`, which is not 0, when the trace has no format data, when the descriptor of
the first stream is -1, and when the totals are invalid and no counter query succeeds
during the refresh, in which case `stats_valid` stays 0;
`linuxcommon_get_filtered_packets` returns `UINT64_MAX` for every trace. -/
theorem C16_unknown_is_uint64_max (query : Nat → Option tpacket_stats)
    (fmt : linux_format_data_t) (first : linux_per_stream_t)
    (rest : List linux_per_stream_t) (format_data : Option linux_format_data_t) :
    UINT64_MAX ≠ 0 ∧
    (∃ r, linuxcommon_get_captured_packets query none = .ok r ∧ r.value = UINT64_MAX) ∧
    (∃ r, linuxcommon_get_dropped_packets query none = .ok r ∧ r.value = UINT64_MAX) ∧
    (fmt.per_stream = first :: rest → first.fd = -1 →
      (∃ r, linuxcommon_get_captured_packets query (some fmt) = .ok r ∧
        r.value = UINT64_MAX) ∧
      (∃ r, linuxcommon_get_dropped_packets query (some fmt) = .ok r ∧
        r.value = UINT64_MAX)) ∧
    (fmt.per_stream = first :: rest → fmt.stats_valid = 0 → (∀ i, query i = none) →
      (∃ r, linuxcommon_get_captured_packets query (some fmt) = .ok r ∧
        r.value = UINT64_MAX ∧ r.format_data = some fmt) ∧
      (∃ r, linuxcommon_get_dropped_packets query (some fmt) = .ok r ∧
        r.value = UINT64_MAX ∧ r.format_data = some fmt)) ∧
    linuxcommon_get_filtered_packets format_data = UINT64_MAX := by
  refine ⟨by decide, ⟨_, rfl, rfl⟩, ⟨_, rfl, rfl⟩, ?_, ?_, rfl⟩
  · intro hs hfd
    constructor
    · unfold linuxcommon_get_captured_packets
      simp only [hs, List.head?_cons, hfd, if_true]
      exact ⟨_, rfl, rfl⟩
    · unfold linuxcommon_get_dropped_packets
      simp only [hs, List.head?_cons, hfd, if_true]
      exact ⟨_, rfl, rfl⟩
  · intro hs hv hq
    have hu : (linuxcommon_update_statistics query fmt).1 = fmt := by
      unfold linuxcommon_update_statistics
      exact update_statistics_loop_no_answer query hq _ _ _ _
    constructor
    · unfold linuxcommon_get_captured_packets
      simp only [hs, List.head?_cons]
      by_cases hfd : first.fd = -1
      · rw [if_pos hfd]; exact ⟨_, rfl, rfl, rfl⟩
      · rw [if_neg hfd]
        simp only [← hs, hu, hv, ne_eq, not_true_eq_false, if_false]
        exact ⟨_, rfl, rfl, rfl⟩
    · unfold linuxcommon_get_dropped_packets
      simp only [hs, List.head?_cons]
      by_cases hfd : first.fd = -1
      · rw [if_pos hfd]; exact ⟨_, rfl, rfl, rfl⟩
      · rw [if_neg hfd]
        simp only [← hs, hu, hv, ne_eq, not_true_eq_false, if_false]
        exact ⟨_, rfl, rfl, rfl⟩

/-- Witness for C16: a trace whose two streams are live while no counter query succeeds
reports `UINT64_MAX` captured packets, and a trace whose first stream has no descriptor
does so without asking. -/
theorem C16_unknown_is_uint64_max_witness :
    (∃ r, linuxcommon_get_captured_packets query_none (some two_live_format_data) = .ok r ∧
      r.value = UINT64_MAX ∧ r.format_data = some two_live_format_data) ∧
    (∃ r, linuxcommon_get_dropped_packets query_second (some stats_format_data) = .ok r ∧
      r.value = UINT64_MAX) :=
  ⟨((C16_unknown_is_uint64_max query_none two_live_format_data
      { fd := 3, rx_ring := 4096, rxring_offset := 0 }
      [{ fd := 4, rx_ring := 8192, rxring_offset := 0 }] none).2.2.2.2.1 rfl rfl
      (fun _ => rfl)).1,
    ((C16_unknown_is_uint64_max query_second stats_format_data
      { fd := -1, rx_ring := MAP_FAILED, rxring_offset := 0 }
      [{ fd := 4, rx_ring := 4096, rxring_offset := 0 }] none).2.2.2.1 rfl rfl).2⟩

/-! ## Filters at stream start (C20) -/

/-- When the start loop is left because stream `k` could not join the fanout group, the
loop variable was at most `k` on entry and stream `k` of the collection has the
descriptor -1. -/
theorem pstart_loop_join_failed (start_stream : StartStream) (fanout : Nat → SyscallResult)
    (k : Nat) :
    ∀ (n i : Nat) (libtrace : libtrace_t) (fmt : linux_format_data_t)
      (calls : List Syscall),
      (pstart_loop start_stream fanout n i libtrace fmt calls).exit = .join_failed k →
      i ≤ k ∧ k < i + n ∧ ∃ s,
        (pstart_loop start_stream fanout n i libtrace fmt calls).format_data.per_stream[k]?
          = some s ∧ s.fd = -1 := by
  intro n
  induction n with
  | zero =>
    intro i libtrace fmt calls h
    simp [pstart_loop] at h
  | succ n ih =>
    intro i libtrace fmt calls h
    simp only [pstart_loop] at h ⊢
    generalize (if fmt.per_stream.length ≤ i then fmt.per_stream ++ [ZERO_LINUX_STREAM]
        else fmt.per_stream) = streams at h ⊢
    cases hsi : streams[i]? with
    | none => simp [hsi] at h
    | some stream =>
      simp only [hsi] at h ⊢
      have hlen : i < streams.length := by
        by_contra hcon
        rw [List.getElem?_eq_none (by omega)] at hsi
        cases hsi
      generalize start_stream i libtrace { fmt with per_stream := streams } stream = r at h ⊢
      cases hret : r.ret with
      | error f => simp [hret] at h
      | ok v =>
        simp only [hret] at h ⊢
        by_cases hv : v ≠ 0
        · simp [hv] at h
        · simp only [hv, if_false] at h ⊢
          split_ifs at h ⊢ with hj
          · simp only [PstartExit.join_failed.injEq] at h
            subst h
            refine ⟨le_refl _, by omega, { r.stream with fd := -1 }, ?_, rfl⟩
            exact List.getElem?_set_self hlen
          · obtain ⟨h1, h2, h3⟩ := ih _ _ _ _ h
            exact ⟨by omega, by omega, h3⟩

/-- The unwinding loop started at `j` closes the streams below `j` and leaves the others
as they are. -/
theorem pstart_unwind_spec (req : tpacket_req) :
    ∀ (j : Nat) (streams : List linux_per_stream_t) (calls : List Syscall),
      j ≤ streams.length →
      ∃ u, pstart_unwind req j streams calls = .ok u ∧
        (∀ t, t < j → ∃ s, u.1[t]? = some s ∧ s.fd = -1 ∧ s.rx_ring = MAP_FAILED) ∧
        (∀ t, j ≤ t → u.1[t]? = streams[t]?) := by
  intro j
  induction j with
  | zero =>
    intro streams calls _
    exact ⟨_, rfl, fun t ht => by omega, fun t _ => rfl⟩
  | succ j ih =>
    intro streams calls hj
    have hlt : j < streams.length := by omega
    have hget : streams[j]? = some streams[j] := List.getElem?_eq_getElem hlt
    obtain ⟨u, hu1, hu2, hu3⟩ :=
      ih (streams.set j (linuxcommon_close_input_stream req streams[j]).1)
        (calls ++ (linuxcommon_close_input_stream req streams[j]).2)
        (by rw [List.length_set]; omega)
    refine ⟨u, ?_, ?_, ?_⟩
    · simp only [pstart_unwind, hget]
      exact hu1
    · intro t ht
      by_cases htj : t = j
      · subst htj
        have := hu3 t (le_refl _)
        rw [this, List.getElem?_set_self hlt]
        exact ⟨_, rfl, rfl, rfl⟩
      · exact hu2 t (by omega)
    · intro t ht
      rw [hu3 t (by omega), List.getElem?_set_ne (by omega)]


theorem pstart_loop_length (k : Nat) (l : PstartLoopResult) (s : linux_per_stream_t)
    (h : l.format_data.per_stream[k]? = some s) : k ≤ l.format_data.per_stream.length := by
  by_contra hcon
  rw [List.getElem?_eq_none (by omega)] at h
  cases h

/-- C12: when the start loop of `linuxcommon_pstart_input` is left because streams
`0 .. k - 1` were started and joined to the fanout group and stream `k` was started but
could not join, then `k` is below the thread count, `linuxcommon_pstart_input` returns -1,
the format data is freed, and at the moment the stream collection is discarded every
stream `0 .. k` has the descriptor -1. -/
theorem C12_fanout_failure_closes_batch (start_stream : StartStream)
    (fanout : Nat → SyscallResult) (libtrace : libtrace_t) (fmt : linux_format_data_t)
    (k : Nat)
    (h : (pstart_loop start_stream fanout libtrace.perpkt_thread_count 0 libtrace fmt
      []).exit = .join_failed k) :
    k < libtrace.perpkt_thread_count ∧
    (linuxcommon_pstart_input start_stream fanout libtrace fmt).ret = .ok (-1) ∧
    (linuxcommon_pstart_input start_stream fanout libtrace fmt).format_data = none ∧
    ∃ d, (linuxcommon_pstart_input start_stream fanout libtrace fmt).discarded = some d ∧
      ∀ i, i ≤ k → ∃ s, d.per_stream[i]? = some s ∧ s.fd = -1 := by
  obtain ⟨_, hk, s, hs1, hs2⟩ := pstart_loop_join_failed start_stream fanout k _ _ _ _ _ h
  have hlen := pstart_loop_length k _ s hs1
  obtain ⟨u, hu1, hu2, hu3⟩ := pstart_unwind_spec
    (pstart_loop start_stream fanout libtrace.perpkt_thread_count 0 libtrace fmt
      []).format_data.req k
    (pstart_loop start_stream fanout libtrace.perpkt_thread_count 0 libtrace fmt
      []).format_data.per_stream
    (pstart_loop start_stream fanout libtrace.perpkt_thread_count 0 libtrace fmt []).calls hlen
  have hres : linuxcommon_pstart_input start_stream fanout libtrace fmt =
      { ret := .ok (-1),
        libtrace := (pstart_loop start_stream fanout libtrace.perpkt_thread_count 0 libtrace
          fmt []).libtrace,
        format_data := none,
        discarded := some
          { (pstart_loop start_stream fanout libtrace.perpkt_thread_count 0 libtrace fmt
              []).format_data with per_stream := u.1 },
        calls := u.2 } := by
    unfold linuxcommon_pstart_input
    simp only [h, pstart_failure, hu1]
  rw [hres]
  refine ⟨by omega, rfl, rfl, _, rfl, ?_⟩
  intro i hi
  by_cases hik : i < k
  · obtain ⟨t, ht1, ht2, _⟩ := hu2 i hik
    exact ⟨t, ht1, ht2⟩
  · have hik2 : i = k := by omega
    subst hik2
    refine ⟨s, ?_, hs2⟩
    show u.1[i]? = some s
    rw [hu3 i (le_refl _), hs1]

/-- Witness for C12: three worker threads on `eth0`; every stream starts and maps its
ring, the first two join the fanout group and the join of the third fails.  The parallel
start returns -1 and leaves no stream with a descriptor. -/
theorem C12_fanout_failure_closes_batch_witness :
    (2 < trace_three_threads.perpkt_thread_count ∧
    (linuxring_pstart_input libtrace_consts (fun _ => stream_kernel_ok) fanout_third_fails
      trace_three_threads (init_format_data libtrace_consts 7)).ret = .ok (-1) ∧
    (linuxring_pstart_input libtrace_consts (fun _ => stream_kernel_ok) fanout_third_fails
      trace_three_threads (init_format_data libtrace_consts 7)).format_data = none ∧
    ∃ d, (linuxring_pstart_input libtrace_consts (fun _ => stream_kernel_ok)
        fanout_third_fails trace_three_threads
        (init_format_data libtrace_consts 7)).discarded = some d ∧
      ∀ i, i ≤ 2 → ∃ s, d.per_stream[i]? = some s ∧ s.fd = -1) :=
  C12_fanout_failure_closes_batch
    (fun i => linuxring_start_input_stream libtrace_consts ((fun _ => stream_kernel_ok) i))
    fanout_third_fails trace_three_threads (init_format_data libtrace_consts 7) 2 rfl

/-- C13 (defect of the code): one worker thread on `eth0`; the stream starts, its ring is
mapped at address 4096, and the join to the fanout group fails.
`linuxring_pstart_input` returns -1 and frees the format data while the only stream has
the descriptor -1 but still the ring pointer 4096, not `MAP_FAILED`: the ring was mapped
by one `mmap` call and no `munmap` call was made. -/
theorem C13_fanout_failure_leaves_ring_mapped :
    (linuxring_pstart_input libtrace_consts (fun _ => stream_kernel_ok) fanout_fails
      trace_eth0 (init_format_data libtrace_consts 7)).ret = .ok (-1) ∧
    (linuxring_pstart_input libtrace_consts (fun _ => stream_kernel_ok) fanout_fails
      trace_eth0 (init_format_data libtrace_consts 7)).format_data = none ∧
    ((linuxring_pstart_input libtrace_consts (fun _ => stream_kernel_ok) fanout_fails
      trace_eth0 (init_format_data libtrace_consts 7)).discarded.map
        (fun d => d.per_stream)) = some [{ fd := -1, rx_ring := 4096, rxring_offset := 0 }] ∧
    (4096 : Nat) ≠ MAP_FAILED ∧
    mmap_calls (linuxring_pstart_input libtrace_consts (fun _ => stream_kernel_ok)
      fanout_fails trace_eth0 (init_format_data libtrace_consts 7)).calls = [1048576] ∧
    munmap_calls (linuxring_pstart_input libtrace_consts (fun _ => stream_kernel_ok)
      fanout_fails trace_eth0 (init_format_data libtrace_consts 7)).calls = [] :=
  ⟨rfl, rfl, rfl, by decide, rfl, rfl⟩

/-! ## Snap length on read and interrupted waits (C17 - C19) -/

/-- The snap length `linuxring_read_stream` applies (lines 510-512), as an unsigned
value. -/
theorem read_snaplen_nonneg (c : Consts) (snaplen : Int)
    (hB : sizeof_tpacket2_hdr ≤ c.LIBTRACE_PACKET_BUFSIZE) (hs : 0 ≤ snaplen)
    (hB2 : c.LIBTRACE_PACKET_BUFSIZE < 2 ^ 32) :
    u32_of_int (min ((c.LIBTRACE_PACKET_BUFSIZE : Int) - (sizeof_tpacket2_hdr : Int)) snaplen)
      ≤ c.LIBTRACE_PACKET_BUFSIZE - sizeof_tpacket2_hdr := by
  unfold u32_of_int
  have h1 : (0 : Int) ≤ min ((c.LIBTRACE_PACKET_BUFSIZE : Int) - (sizeof_tpacket2_hdr : Int))
      snaplen := by
    apply le_min
    · omega
    · exact hs
  have h2 : min ((c.LIBTRACE_PACKET_BUFSIZE : Int) - (sizeof_tpacket2_hdr : Int)) snaplen ≤
      (c.LIBTRACE_PACKET_BUFSIZE : Int) - (sizeof_tpacket2_hdr : Int) := min_le_left _ _
  omega

theorem read_frame_spec (c : Consts) (libtrace : libtrace_t) (fmt : linux_format_data_t)
    (stream : linux_per_stream_t) (packet : libtrace_packet_t) (header : Nat)
    (l : RxLoopResult) (v : Int)
    (hret : (read_frame c libtrace fmt stream packet header l).ret = .ok v) :
    fmt.req.tp_frame_nr ≠ 0 ∧
    (read_frame c libtrace fmt stream packet header l).packet.buffer = header ∧
    (read_frame c libtrace fmt stream packet header l).mem =
      write_tp_snaplen l.mem header
        (min
          (u32_of_int (min ((c.LIBTRACE_PACKET_BUFSIZE : Int) - (sizeof_tpacket2_hdr : Int))
            fmt.snaplen))
          (l.mem header).tp_len) := by
  unfold read_frame at hret ⊢
  by_cases hnr : fmt.req.tp_frame_nr = 0
  · simp only [hnr, if_true] at hret
    cases hret
  · simp only [hnr, if_false]
    refine ⟨hnr, ?_, ?_⟩
    · split_ifs <;> rfl
    · split_ifs <;> rfl

/-- What a read that hands over a packet leaves behind: the frame at the cursor was found
user-owned, its `tp_snaplen` was overwritten with the smaller of the snap length and
`tp_len`, and the packet borrows that frame. -/
theorem linuxring_read_stream_packet (c : Consts) (env : ReadEnv) (libtrace : libtrace_t)
    (fmt : linux_format_data_t) (stream : linux_per_stream_t) (mem : Memory)
    (packet : libtrace_packet_t) (v : Int)
    (hexit : (linuxring_read_stream c env libtrace fmt stream mem packet).exit = .frame_ready)
    (hret : (linuxring_read_stream c env libtrace fmt stream mem packet).ret = .ok v) :
    fmt.req.tp_frame_nr ≠ 0 ∧
    (linuxring_read_stream c env libtrace fmt stream mem packet).packet.buffer =
      GET_CURRENT_BUFFER fmt stream ∧
    ∃ m : Memory,
      (linuxring_read_stream c env libtrace fmt stream mem packet).mem =
        write_tp_snaplen m (GET_CURRENT_BUFFER fmt stream)
          (min
            (u32_of_int (min ((c.LIBTRACE_PACKET_BUFSIZE : Int) - (sizeof_tpacket2_hdr : Int))
              fmt.snaplen))
            (m (GET_CURRENT_BUFFER fmt stream)).tp_len) := by
  unfold linuxring_read_stream at hexit hret ⊢
  simp only [] at hexit hret ⊢
  by_cases ha : GET_CURRENT_BUFFER fmt stream &&&
      (if env.pagesize = 0 then 2 ^ 64 - 1 else env.pagesize - 1) ≠ 0
  · rw [if_pos ha] at hexit
    cases hexit
  · rw [if_neg ha] at hexit hret ⊢
    generalize rx_wait_loop stream.fd env.with_queue (GET_CURRENT_BUFFER fmt stream)
      env.waits (ring_release_frame mem packet).mem (ring_release_frame mem packet).calls = l
      at hexit hret ⊢
    cases hle : l.exit with
    | frame_ready =>
      simp only [hle] at hexit hret ⊢
      obtain ⟨h1, h2, h3⟩ := read_frame_spec c libtrace fmt stream _ _ l v hret
      exact ⟨h1, h2, l.mem, h3⟩
    | message => simp only [hle] at hexit; cases hexit
    | poll_failed e => simp only [hle] at hexit; cases hexit
    | halted => simp only [hle] at hexit; cases hexit
    | blocked => simp only [hle] at hexit; cases hexit
    | not_reached => simp only [hle] at hexit; cases hexit

theorem write_tp_snaplen_same (mem : Memory) (addr v : Nat) :
    (write_tp_snaplen mem addr v addr).tp_snaplen = v ∧
    (write_tp_snaplen mem addr v addr).tp_len = (mem addr).tp_len := by
  simp [write_tp_snaplen]

/-- After `linuxring_read_stream` has returned a packet, the captured length `tp_snaplen`
of its frame is at most the original length `tp_len`; when the configured snap length is
not negative it is also at most `LIBTRACE_PACKET_BUFSIZE - sizeof(struct tpacket2_hdr)`. -/
theorem linuxring_read_stream_snaplen_bounds (c : Consts) (env : ReadEnv) (libtrace : libtrace_t)
    (fmt : linux_format_data_t) (stream : linux_per_stream_t) (mem : Memory)
    (packet : libtrace_packet_t) (v : Int)
    (hB : sizeof_tpacket2_hdr ≤ c.LIBTRACE_PACKET_BUFSIZE)
    (hB2 : c.LIBTRACE_PACKET_BUFSIZE < 2 ^ 32)
    (hexit : (linuxring_read_stream c env libtrace fmt stream mem packet).exit = .frame_ready)
    (hret : (linuxring_read_stream c env libtrace fmt stream mem packet).ret = .ok v) :
    ((linuxring_read_stream c env libtrace fmt stream mem packet).mem
        (linuxring_read_stream c env libtrace fmt stream mem packet).packet.buffer).tp_snaplen
      ≤ ((linuxring_read_stream c env libtrace fmt stream mem packet).mem
        (linuxring_read_stream c env libtrace fmt stream mem packet).packet.buffer).tp_len ∧
    (0 ≤ fmt.snaplen →
      ((linuxring_read_stream c env libtrace fmt stream mem packet).mem
        (linuxring_read_stream c env libtrace fmt stream mem packet).packet.buffer).tp_snaplen
      ≤ c.LIBTRACE_PACKET_BUFSIZE - sizeof_tpacket2_hdr) := by
  obtain ⟨_, h2, m, h3⟩ :=
    linuxring_read_stream_packet c env libtrace fmt stream mem packet v hexit hret
  rw [h2, h3]
  obtain ⟨e1, e2⟩ := write_tp_snaplen_same m (GET_CURRENT_BUFFER fmt stream)
    (min
      (u32_of_int (min ((c.LIBTRACE_PACKET_BUFSIZE : Int) - (sizeof_tpacket2_hdr : Int))
        fmt.snaplen))
      (m (GET_CURRENT_BUFFER fmt stream)).tp_len)
  rw [e1, e2]
  refine ⟨Nat.min_le_right _ _, ?_⟩
  intro hs
  exact le_trans (Nat.min_le_left _ _) (read_snaplen_nonneg c fmt.snaplen hB hs hB2)

/-- C17 (defect of the code): the snap length -1 is configured and the kernel hands over a
frame that holds 4000 bytes (`tp_snaplen`) of a packet of 65550 bytes (`tp_len`).  The
clamp of lines 510-512, `min (LIBTRACE_PACKET_BUFSIZE - sizeof(*header)) snaplen`, is -1
as an `int` and `2 ^ 32 - 1` once stored in the `unsigned int`, and line 514 takes the
minimum with `tp_len`: `linuxring_read_stream` returns a packet whose frame has
`tp_snaplen` 65550, above the cap `LIBTRACE_PACKET_BUFSIZE - sizeof(struct tpacket2_hdr)`
= 65504 and above the 4000 bytes the kernel captured. -/
theorem C17_negative_snaplen_escapes_cap :
    (large_frame_memory (GET_CURRENT_BUFFER ring_format_data live_stream)).tp_snaplen
      = 4000 ∧
    (large_frame_memory (GET_CURRENT_BUFFER ring_format_data live_stream)).tp_len = 65550 ∧
    u32_of_int (min ((libtrace_consts.LIBTRACE_PACKET_BUFSIZE : Int) -
      (sizeof_tpacket2_hdr : Int)) (-1)) = 2 ^ 32 - 1 ∧
    (linuxring_read_stream libtrace_consts read_env_no_wait trace_eth0
      { ring_format_data with snaplen := -1 } live_stream large_frame_memory
      empty_packet).exit = .frame_ready ∧
    (linuxring_read_stream libtrace_consts read_env_no_wait trace_eth0
      { ring_format_data with snaplen := -1 } live_stream large_frame_memory
      empty_packet).ret = .ok 65616 ∧
    ((linuxring_read_stream libtrace_consts read_env_no_wait trace_eth0
      { ring_format_data with snaplen := -1 } live_stream large_frame_memory
      empty_packet).mem 1048576).tp_snaplen = 65550 ∧
    ¬ (65550 ≤ libtrace_consts.LIBTRACE_PACKET_BUFSIZE - sizeof_tpacket2_hdr) ∧
    libtrace_consts.LIBTRACE_PACKET_BUFSIZE - sizeof_tpacket2_hdr = 65504 :=
  ⟨rfl, rfl, by decide, rfl, rfl, rfl, by decide, rfl⟩

/-- C18 (defect of the code): the kernel hands over a frame of 4096 bytes that holds the
first 4030 bytes (`tp_snaplen`) of a packet of 9000 bytes (`tp_len`); with the default
snap length `linuxring_read_stream` writes 9000 into `tp_snaplen`, and the packet it
returns reports a captured length of 9000, more than the 4030 bytes captured and more
than the frame holds. -/
theorem C18_read_raises_captured_length :
    (truncated_frame_memory (GET_CURRENT_BUFFER ring_format_data live_stream)).tp_snaplen
      = 4030 ∧
    (truncated_frame_memory (GET_CURRENT_BUFFER ring_format_data live_stream)).tp_len
      = 9000 ∧
    (linuxring_read_stream libtrace_consts read_env_no_wait trace_eth0 ring_format_data
      live_stream truncated_frame_memory empty_packet).exit = .frame_ready ∧
    ((linuxring_read_stream libtrace_consts read_env_no_wait trace_eth0 ring_format_data
      live_stream truncated_frame_memory empty_packet).mem
        (GET_CURRENT_BUFFER ring_format_data live_stream)).tp_snaplen = 9000 ∧
    linuxring_get_capture_length
      (linuxring_read_stream libtrace_consts read_env_no_wait trace_eth0 ring_format_data
        live_stream truncated_frame_memory empty_packet).mem
      (linuxring_read_stream libtrace_consts read_env_no_wait trace_eth0 ring_format_data
        live_stream truncated_frame_memory empty_packet).packet = 9000 ∧
    ¬ ((9000 : Nat) ≤ 4030) ∧
    ring_format_data.req.tp_frame_size = 4096 :=
  ⟨rfl, rfl, rfl, rfl, rfl, by decide, rfl⟩

/-- C19 (defect of the code): a `poll` that fails with `EINTR` ends both operations with
the return value -1, although the frame has become ready (respectively available) in the
meantime.  On the read side no error is set, the cursor stays and the packet holds no
buffer; on the write side the error "sendto after timeout failed" is set with errno
`EINTR`, nothing is written to the frame and the cursor stays. -/
theorem C19_eintr_ends_the_wait :
    (linuxring_read_stream libtrace_consts read_env_interrupted trace_eth0 ring_format_data
      live_stream zero_memory empty_packet).exit = .poll_failed EINTR ∧
    (linuxring_read_stream libtrace_consts read_env_interrupted trace_eth0 ring_format_data
      live_stream zero_memory empty_packet).ret = .ok (-1) ∧
    (linuxring_read_stream libtrace_consts read_env_interrupted trace_eth0 ring_format_data
      live_stream zero_memory empty_packet).libtrace.err = none ∧
    (linuxring_read_stream libtrace_consts read_env_interrupted trace_eth0 ring_format_data
      live_stream zero_memory empty_packet).packet.buffer = NULL ∧
    (linuxring_read_stream libtrace_consts read_env_interrupted trace_eth0 ring_format_data
      live_stream zero_memory empty_packet).stream.rxring_offset = 0 ∧
    ((linuxring_read_stream libtrace_consts read_env_interrupted trace_eth0 ring_format_data
      live_stream zero_memory empty_packet).mem 1048576).tp_status = TP_STATUS_USER ∧
    (linuxring_write_packet libtrace_consts write_env_interrupted trace_out_eth0
      ring_format_data_out busy_tx_memory (fun _ => 0) tx_packet_60).exit
        = .send_failed EINTR ∧
    (linuxring_write_packet libtrace_consts write_env_interrupted trace_out_eth0
      ring_format_data_out busy_tx_memory (fun _ => 0) tx_packet_60).ret = .ok (-1) ∧
    (linuxring_write_packet libtrace_consts write_env_interrupted trace_out_eth0
      ring_format_data_out busy_tx_memory (fun _ => 0) tx_packet_60).libtrace.err
        = some (.errno EINTR, "sendto after timeout failed") ∧
    (linuxring_write_packet libtrace_consts write_env_interrupted trace_out_eth0
      ring_format_data_out busy_tx_memory (fun _ => 0) tx_packet_60).format_data.txring_offset
        = 0 ∧
    ((linuxring_write_packet libtrace_consts write_env_interrupted trace_out_eth0
      ring_format_data_out busy_tx_memory (fun _ => 0) tx_packet_60).mem 2097152).tp_status
        = TP_STATUS_AVAILABLE :=
  ⟨rfl, rfl, rfl, rfl, rfl, rfl, rfl, rfl, rfl, rfl, rfl⟩

/-! ## Binding failures (C21) -/

/-- C21 (as amended): when a non-empty interface name does not resolve to an interface
index, `linuxcommon_start_input_stream` returns -1 with error kind
`TRACE_ERR_INIT_FAILED`; when `bind()` is refused it returns -1 with the errno of `bind()`
as error kind.  In both cases the message ends with the interface name and the descriptor
of the stream is -1 on return. -/
theorem C21_binding_failure (k : StartKernel) (libtrace : libtrace_t)
    (fmt : linux_format_data_t) (stream : linux_per_stream_t)
    (hsock : k.socket_fd ≠ -1) :
    (libtrace.uridata.length ≠ 0 ∧ k.if_index = 0 →
      (linuxcommon_start_input_stream k libtrace fmt stream).ret = .ok (-1) ∧
      (linuxcommon_start_input_stream k libtrace fmt stream).libtrace.err =
        some (.TRACE_ERR_INIT_FAILED, "Failed to find interface " ++ libtrace.uridata) ∧
      (linuxcommon_start_input_stream k libtrace fmt stream).stream.fd = -1) ∧
    (∀ e, ¬ (libtrace.uridata.length ≠ 0 ∧ k.if_index = 0) → k.bind = .failure e →
      (linuxcommon_start_input_stream k libtrace fmt stream).ret = .ok (-1) ∧
      (linuxcommon_start_input_stream k libtrace fmt stream).libtrace.err =
        some (.errno e, "Failed to bind to interface " ++ libtrace.uridata) ∧
      (linuxcommon_start_input_stream k libtrace fmt stream).stream.fd = -1) := by
  refine ⟨?_, ?_⟩
  · intro h
    unfold linuxcommon_start_input_stream
    simp only []
    rw [if_neg hsock, if_pos h]
    refine ⟨?_, ?_, ?_⟩ <;> trivial
  · intro e h hb
    unfold linuxcommon_start_input_stream
    simp only []
    rw [if_neg hsock, if_neg h]
    simp only [hb]
    refine ⟨?_, ?_, ?_⟩ <;> trivial

/-- Witness for C21: `bind()` on `eth0` is refused with `ENODEV` (19). -/
theorem C21_binding_failure_witness :
    start_kernel_bind_refused.socket_fd ≠ -1 ∧
    start_kernel_bind_refused.bind = .failure 19 ∧
    (linuxcommon_start_input_stream start_kernel_bind_refused trace_eth0
      (init_format_data libtrace_consts 7) ZERO_LINUX_STREAM).libtrace.err =
        some (.errno 19, "Failed to bind to interface " ++ trace_eth0.uridata) :=
  ⟨by decide, rfl,
    ((C21_binding_failure start_kernel_bind_refused trace_eth0
      (init_format_data libtrace_consts 7) ZERO_LINUX_STREAM (by decide)).2 19
        (by decide) rfl).2.1⟩

/-- Counterexample to C21 as stated: `bind()` on `eth0` is refused with `ENODEV` (19);
`linuxcommon_start_input_stream` returns -1 and closes the stream, but the error kind it
sets is the errno value 19, not `TRACE_ERR_INIT_FAILED`. -/
theorem C21_counterexample :
    (linuxcommon_start_input_stream start_kernel_bind_refused trace_eth0
      (init_format_data libtrace_consts 7) ZERO_LINUX_STREAM).ret = .ok (-1) ∧
    (linuxcommon_start_input_stream start_kernel_bind_refused trace_eth0
      (init_format_data libtrace_consts 7) ZERO_LINUX_STREAM).stream.fd = -1 ∧
    (linuxcommon_start_input_stream start_kernel_bind_refused trace_eth0
      (init_format_data libtrace_consts 7) ZERO_LINUX_STREAM).libtrace.err =
        some (.errno 19, "Failed to bind to interface eth0") ∧
    ¬ ∃ msg, (linuxcommon_start_input_stream start_kernel_bind_refused trace_eth0
      (init_format_data libtrace_consts 7) ZERO_LINUX_STREAM).libtrace.err =
        some (.TRACE_ERR_INIT_FAILED, msg) := by
  refine ⟨rfl, rfl, by decide, ?_⟩
  rintro ⟨msg, h⟩
  have h2 : (linuxcommon_start_input_stream start_kernel_bind_refused trace_eth0
      (init_format_data libtrace_consts 7) ZERO_LINUX_STREAM).libtrace.err =
        some (.errno 19, "Failed to bind to interface eth0") := by decide
  rw [h2] at h
  cases h

/-! ## Packet direction (C28) -/

/-- C28: for each of the directions outgoing, incoming and other,
`linuxcommon_set_direction` returns the direction and stores a packet type on which
`linuxcommon_get_direction` returns it again; for every other direction value it returns
-1 and leaves the address structure as it was; `linuxcommon_get_direction` maps
`PACKET_OUTGOING` and `PACKET_LOOPBACK` to outgoing, `PACKET_OTHERHOST` to other and every
other packet type to incoming.  The ring format reaches both through the address structure
of the frame the packet holds. -/
theorem C28_direction_round_trip (skadr : sockaddr_ll) (sll : LinkMemory)
    (packet : libtrace_packet_t) :
    (∀ d, d = libtrace_direction_t.TRACE_DIR_OUTGOING ∨ d = .TRACE_DIR_INCOMING ∨
        d = .TRACE_DIR_OTHER →
      (linuxcommon_set_direction skadr d).ret = d ∧
      linuxcommon_get_direction (linuxcommon_set_direction skadr d).skadr.sll_pkttype = d ∧
      (linuxcommon_set_direction skadr d).skadr.sll_hatype = skadr.sll_hatype ∧
      (linuxring_set_direction sll packet d).1 = d ∧
      linuxring_get_direction (linuxring_set_direction sll packet d).2 packet = d) ∧
    (∀ d, d ≠ libtrace_direction_t.TRACE_DIR_OUTGOING → d ≠ .TRACE_DIR_INCOMING →
        d ≠ .TRACE_DIR_OTHER →
      (linuxcommon_set_direction skadr d).ret = .not_a_direction (-1) ∧
      (linuxcommon_set_direction skadr d).skadr = skadr ∧
      (linuxring_set_direction sll packet d).1 = .not_a_direction (-1) ∧
      (linuxring_set_direction sll packet d).2 packet.buffer = sll packet.buffer) ∧
    linuxcommon_get_direction PACKET_OUTGOING = .TRACE_DIR_OUTGOING ∧
    linuxcommon_get_direction PACKET_LOOPBACK = .TRACE_DIR_OUTGOING ∧
    linuxcommon_get_direction PACKET_OTHERHOST = .TRACE_DIR_OTHER ∧
    (∀ p, p ≠ PACKET_OUTGOING → p ≠ PACKET_LOOPBACK → p ≠ PACKET_OTHERHOST →
      linuxcommon_get_direction p = .TRACE_DIR_INCOMING) := by
  refine ⟨?_, ?_, rfl, rfl, rfl, ?_⟩
  · intro d hd
    rcases hd with h | h | h <;> subst h <;>
      simp [linuxcommon_set_direction, linuxcommon_get_direction, linuxring_set_direction,
        linuxring_get_direction, PACKET_OUTGOING, PACKET_LOOPBACK, PACKET_OTHERHOST,
        PACKET_HOST]
  · intro d h1 h2 h3
    cases d with
    | TRACE_DIR_OUTGOING => exact absurd rfl h1
    | TRACE_DIR_INCOMING => exact absurd rfl h2
    | TRACE_DIR_OTHER => exact absurd rfl h3
    | TRACE_DIR_UNKNOWN => simp [linuxcommon_set_direction, linuxring_set_direction]
    | not_a_direction v => simp [linuxcommon_set_direction, linuxring_set_direction]
  · intro p h1 h2 h3
    unfold linuxcommon_get_direction
    rw [if_neg (by rintro (h | h) <;> contradiction), if_neg h3]


/-- Witness for C28: setting the direction other on an address structure of a packet
addressed to this host, and reading the packet types 1 (broadcast) as incoming. -/
theorem C28_direction_round_trip_witness :
    linuxcommon_get_direction
      (linuxcommon_set_direction { sll_hatype := 1, sll_pkttype := 0 }
        .TRACE_DIR_OTHER).skadr.sll_pkttype = .TRACE_DIR_OTHER ∧
    (linuxcommon_set_direction { sll_hatype := 1, sll_pkttype := 0 }
      .TRACE_DIR_UNKNOWN).skadr = { sll_hatype := 1, sll_pkttype := 0 } ∧
    linuxcommon_get_direction 1 = .TRACE_DIR_INCOMING :=
  ⟨((C28_direction_round_trip { sll_hatype := 1, sll_pkttype := 0 } ether_link_memory
      borrowed_packet).1 .TRACE_DIR_OTHER (Or.inr (Or.inr rfl))).2.1,
    ((C28_direction_round_trip { sll_hatype := 1, sll_pkttype := 0 } ether_link_memory
      borrowed_packet).2.1 .TRACE_DIR_UNKNOWN (by decide) (by decide) (by decide)).2.1,
    (C28_direction_round_trip { sll_hatype := 1, sll_pkttype := 0 } ether_link_memory
      borrowed_packet).2.2.2.2.2 1 (by decide) (by decide) (by decide)⟩

/-! ## Writing to the transmit ring (C22, C29) -/

/-- A packet that is not a data packet is skipped. -/
theorem linuxring_write_packet_nondata (c : Consts) (env : WriteEnv)
    (libtrace : libtrace_out_t) (out : linux_format_data_out_t) (mem : Memory)
    (bytes : Nat → Nat) (packet : TxPacket)
    (h : packet.link_type = .TRACE_TYPE_NONDATA) :
    linuxring_write_packet c env libtrace out mem bytes packet =
      { ret := .ok 0, exit := .not_reached, libtrace := libtrace, format_data := out,
        mem := mem, bytes := bytes, calls := [] } := by
  unfold linuxring_write_packet
  rw [if_pos h]

/-- How the wait of a call of `linuxring_write_packet` ends. -/
theorem linuxring_write_packet_exit (c : Consts) (env : WriteEnv)
    (libtrace : libtrace_out_t) (out : linux_format_data_out_t) (mem : Memory)
    (bytes : Nat → Nat) (packet : TxPacket) :
    (linuxring_write_packet c env libtrace out mem bytes packet).exit =
      if packet.link_type = .TRACE_TYPE_NONDATA then .not_reached
      else (tx_wait_loop out.fd (tx_frame_address out) env.waits mem []).exit := by
  unfold linuxring_write_packet tx_frame_address
  by_cases hd : packet.link_type = .TRACE_TYPE_NONDATA
  · rw [if_pos hd, if_pos hd]
  · rw [if_neg hd, if_neg hd]
    simp only []
    generalize tx_wait_loop out.fd
      (out.tx_ring + u32 (u32_of_int out.txring_offset * out.req.tp_frame_size))
      env.waits mem [] = l
    cases hle : l.exit with
    | frame_available =>
      simp only [hle]
      by_cases h1 : out.req.tp_frame_nr = 0
      · rw [if_pos h1]
      · rw [if_neg h1]
        by_cases h2 : c.TX_MAX_QUEUE = 0
        · rw [if_pos h2]
        · rw [if_neg h2]
          by_cases h3 : Int.tmod (out.queue + 1) c.TX_MAX_QUEUE = 0
          · rw [if_pos h3]
            cases env.flush <;> rfl
          · rw [if_neg h3]
    | poll_failed e => rfl
    | send_failed e => rfl
    | blocked => rfl
    | not_reached => rfl

theorem ite_gt_eq_min (a b : Nat) : (if a > b then b else a) = min a b := by
  split_ifs with h
  · exact (min_eq_right (le_of_lt h)).symm
  · exact (min_eq_left (not_lt.mp h)).symm

/-- What a call of `linuxring_write_packet` that found the frame at the cursor available
has done: the frame header, the data area, the cursor, the batch counter, the calls made
and the value returned. -/
theorem linuxring_write_packet_submitted (c : Consts) (env : WriteEnv)
    (libtrace : libtrace_out_t) (out : linux_format_data_out_t) (mem : Memory)
    (bytes : Nat → Nat) (packet : TxPacket)
    (hexit : (linuxring_write_packet c env libtrace out mem bytes packet).exit
      = .frame_available) :
    packet.link_type ≠ .TRACE_TYPE_NONDATA ∧
    (tx_wait_loop out.fd (tx_frame_address out) env.waits mem []).exit = .frame_available ∧
    (linuxring_write_packet c env libtrace out mem bytes packet).mem =
      (fun a =>
        if a = tx_frame_address out then
          { (tx_wait_loop out.fd (tx_frame_address out) env.waits mem []).mem a with
            tp_len := min (u32 packet.capture_length) (tx_max_size out),
            tp_status := TP_STATUS_SEND_REQUEST }
        else (tx_wait_loop out.fd (tx_frame_address out) env.waits mem []).mem a) ∧
    (linuxring_write_packet c env libtrace out mem bytes packet).bytes =
      (fun a =>
        if tx_frame_address out + (TPACKET2_HDRLEN - sizeof_sockaddr_ll) ≤ a ∧
            a < tx_frame_address out + (TPACKET2_HDRLEN - sizeof_sockaddr_ll) +
              min (u32 packet.capture_length) (tx_max_size out) then
          packet.payload (a - (tx_frame_address out + (TPACKET2_HDRLEN - sizeof_sockaddr_ll)))
        else bytes a) ∧
    (out.req.tp_frame_nr ≠ 0 →
      (linuxring_write_packet c env libtrace out mem bytes packet).format_data.txring_offset
        = int_of_u32 (u32_of_int (out.txring_offset + 1) % out.req.tp_frame_nr) ∧
      (linuxring_write_packet c env libtrace out mem bytes packet).format_data.fd = out.fd ∧
      (linuxring_write_packet c env libtrace out mem bytes packet).format_data.req
        = out.req) ∧
    (out.req.tp_frame_nr ≠ 0 → c.TX_MAX_QUEUE ≠ 0 →
      (linuxring_write_packet c env libtrace out mem bytes packet).format_data.queue
        = Int.tmod (out.queue + 1) c.TX_MAX_QUEUE ∧
      (linuxring_write_packet c env libtrace out mem bytes packet).calls =
        (tx_wait_loop out.fd (tx_frame_address out) env.waits mem []).calls ++
          (if Int.tmod (out.queue + 1) c.TX_MAX_QUEUE = 0 then [Syscall.sendto out.fd true]
           else []) ∧
      (linuxring_write_packet c env libtrace out mem bytes packet).ret =
        (if Int.tmod (out.queue + 1) c.TX_MAX_QUEUE = 0 then
          match env.flush with
          | .failure _ => .ok (-1)
          | .success => .ok (int_of_u32 (min (u32 packet.capture_length) (tx_max_size out)))
         else .ok (int_of_u32 (min (u32 packet.capture_length) (tx_max_size out)))) ∧
      (linuxring_write_packet c env libtrace out mem bytes packet).libtrace =
        (if Int.tmod (out.queue + 1) c.TX_MAX_QUEUE = 0 then
          match env.flush with
          | .failure e => trace_set_err_out libtrace (.errno e) "sendto failed"
          | .success => libtrace
         else libtrace)) := by
  have hx := linuxring_write_packet_exit c env libtrace out mem bytes packet
  rw [hexit] at hx
  have hd : packet.link_type ≠ .TRACE_TYPE_NONDATA := by
    intro h
    rw [if_pos h] at hx
    cases hx
  rw [if_neg hd] at hx
  refine ⟨hd, hx.symm, ?_⟩
  unfold tx_frame_address at hx
  unfold linuxring_write_packet tx_frame_address tx_max_size
  rw [if_neg hd]
  simp only [← hx, ite_gt_eq_min]
  by_cases h1 : out.req.tp_frame_nr = 0
  · rw [if_pos h1]
    exact ⟨rfl, rfl, fun h => absurd h1 h, fun h => absurd h1 h⟩
  · rw [if_neg h1]
    by_cases h2 : c.TX_MAX_QUEUE = 0
    · rw [if_pos h2]
      exact ⟨rfl, rfl, fun _ => ⟨rfl, rfl, rfl⟩, fun _ h => absurd h2 h⟩
    · rw [if_neg h2]
      by_cases h3 : Int.tmod (out.queue + 1) c.TX_MAX_QUEUE = 0
      · rw [if_pos h3, if_pos h3, if_pos h3, if_pos h3]
        cases env.flush with
        | success =>
          exact ⟨rfl, rfl, fun _ => ⟨rfl, rfl, rfl⟩, fun _ _ => ⟨rfl, rfl, rfl, rfl⟩⟩
        | failure e =>
          exact ⟨rfl, rfl, fun _ => ⟨rfl, rfl, rfl⟩, fun _ _ => ⟨rfl, rfl, rfl, rfl⟩⟩
      · rw [if_neg h3, if_neg h3, if_neg h3, if_neg h3]
        exact ⟨rfl, rfl, fun _ => ⟨rfl, rfl, rfl⟩,
          fun _ _ => ⟨rfl, by simp, rfl, rfl⟩⟩

/-- The value of `max_size` when the frame holds at least its header. -/
theorem tx_max_size_eq (out : linux_format_data_out_t)
    (h1 : TPACKET2_HDRLEN - sizeof_sockaddr_ll ≤ out.req.tp_frame_size)
    (h2 : out.req.tp_frame_size < 2 ^ 32) :
    tx_max_size out + TPACKET2_HDRLEN = out.req.tp_frame_size + sizeof_sockaddr_ll := by
  have e1 : TPACKET2_HDRLEN = 52 := by decide
  have e2 : sizeof_sockaddr_ll = 20 := by decide
  unfold tx_max_size u32_of_int
  rw [e1, e2] at h1 ⊢
  omega

/-- C22: a packet of link type `TRACE_TYPE_NONDATA` is skipped, with return value 0 and
no change to the ring, the cursor or the batch counter.  For a data packet of captured
length `n` (a C `int`), once the frame at the output cursor is available
`linuxring_write_packet` writes `tp_len = min n max_size`, copies exactly that many
payload bytes to the data area of the frame, marks the frame `TP_STATUS_SEND_REQUEST`
and, when no flush fails, returns that length; `max_size` is
`tp_frame_size - TPACKET2_HDRLEN + sizeof(struct sockaddr_ll)`. -/
theorem C22_write_packet (c : Consts) (env : WriteEnv) (libtrace : libtrace_out_t)
    (out : linux_format_data_out_t) (mem : Memory) (bytes : Nat → Nat) (packet : TxPacket)
    (hlen : packet.capture_length < 2 ^ 31) :
    (packet.link_type = .TRACE_TYPE_NONDATA →
      (linuxring_write_packet c env libtrace out mem bytes packet).ret = .ok 0 ∧
      (linuxring_write_packet c env libtrace out mem bytes packet).mem = mem ∧
      (linuxring_write_packet c env libtrace out mem bytes packet).bytes = bytes ∧
      (linuxring_write_packet c env libtrace out mem bytes packet).format_data = out ∧
      (linuxring_write_packet c env libtrace out mem bytes packet).calls = []) ∧
    ((linuxring_write_packet c env libtrace out mem bytes packet).exit = .frame_available →
      packet.link_type ≠ .TRACE_TYPE_NONDATA ∧
      ((linuxring_write_packet c env libtrace out mem bytes packet).mem
        (tx_frame_address out)).tp_len = min packet.capture_length (tx_max_size out) ∧
      ((linuxring_write_packet c env libtrace out mem bytes packet).mem
        (tx_frame_address out)).tp_status = TP_STATUS_SEND_REQUEST ∧
      (∀ j, j < min packet.capture_length (tx_max_size out) →
        (linuxring_write_packet c env libtrace out mem bytes packet).bytes
          (tx_frame_address out + (TPACKET2_HDRLEN - sizeof_sockaddr_ll) + j)
            = packet.payload j) ∧
      (∀ a, a < tx_frame_address out + (TPACKET2_HDRLEN - sizeof_sockaddr_ll) ∨
          tx_frame_address out + (TPACKET2_HDRLEN - sizeof_sockaddr_ll) +
            min packet.capture_length (tx_max_size out) ≤ a →
        (linuxring_write_packet c env libtrace out mem bytes packet).bytes a = bytes a) ∧
      (out.req.tp_frame_nr ≠ 0 → c.TX_MAX_QUEUE ≠ 0 →
        ((linuxring_write_packet c env libtrace out mem bytes packet).format_data.queue ≠ 0 ∨
          env.flush = .success) →
        (linuxring_write_packet c env libtrace out mem bytes packet).ret =
          .ok ((min packet.capture_length (tx_max_size out) : Nat) : Int)) ∧
      (TPACKET2_HDRLEN - sizeof_sockaddr_ll ≤ out.req.tp_frame_size →
        out.req.tp_frame_size < 2 ^ 32 →
        tx_max_size out + TPACKET2_HDRLEN = out.req.tp_frame_size + sizeof_sockaddr_ll)) := by
  refine ⟨?_, ?_⟩
  · intro h
    rw [linuxring_write_packet_nondata c env libtrace out mem bytes packet h]
    exact ⟨rfl, rfl, rfl, rfl, rfl⟩
  · intro hexit
    obtain ⟨hd, _, hmem, hbytes, _, hq⟩ :=
      linuxring_write_packet_submitted c env libtrace out mem bytes packet hexit
    have hu : u32 packet.capture_length = packet.capture_length :=
      u32_of_lt (by omega)
    rw [hu] at hmem hbytes hq
    have hsmall : min packet.capture_length (tx_max_size out) < 2 ^ 31 :=
      lt_of_le_of_lt (Nat.min_le_left _ _) hlen
    refine ⟨hd, ?_, ?_, ?_, ?_, ?_, tx_max_size_eq out⟩
    · rw [hmem]
      simp
    · rw [hmem]
      simp
    · intro j hj
      rw [hbytes]
      simp only []
      rw [if_pos ⟨by omega, by omega⟩]
      congr 1
      omega
    · intro a ha
      rw [hbytes]
      simp only []
      rw [if_neg]
      intro hcon
      omega
    · intro hnr hK hflush
      obtain ⟨hqueue, _, hret, _⟩ := hq hnr hK
      rw [hret, int_of_u32_small hsmall]
      by_cases h3 : Int.tmod (out.queue + 1) c.TX_MAX_QUEUE = 0
      · rw [if_pos h3]
        rcases hflush with h | h
        · rw [hqueue] at h
          exact absurd h3 h
        · rw [h]
      · rw [if_neg h3]

/-- Witness for C22: a packet of 60 bytes written to the first frame of a ring of frames
of 4096 bytes; the frame is available, and 60 is returned. -/
theorem C22_write_packet_witness :
    (linuxring_write_packet libtrace_consts write_env_no_wait trace_out_eth0
      ring_format_data_out zero_memory (fun _ => 7) tx_packet_60).exit = .frame_available ∧
    ((linuxring_write_packet libtrace_consts write_env_no_wait trace_out_eth0
      ring_format_data_out zero_memory (fun _ => 7) tx_packet_60).mem
        (tx_frame_address ring_format_data_out)).tp_len = min 60 4064 ∧
    (linuxring_write_packet libtrace_consts write_env_no_wait trace_out_eth0
      ring_format_data_out zero_memory (fun _ => 7) tx_packet_60).ret = .ok 60 :=
  ⟨rfl,
    ((C22_write_packet libtrace_consts write_env_no_wait trace_out_eth0 ring_format_data_out
      zero_memory (fun _ => 7) tx_packet_60 (by decide)).2 rfl).2.1,
    ((C22_write_packet libtrace_consts write_env_no_wait trace_out_eth0 ring_format_data_out
      zero_memory (fun _ => 7) tx_packet_60 (by decide)).2 rfl).2.2.2.2.2.1
        (by decide) (by decide) (Or.inr rfl)⟩

/-- C29: when the frame size is at least `TPACKET2_HDRLEN - sizeof(struct sockaddr_ll)`,
the payload copy of `linuxring_write_packet` stays inside the frame at the cursor, for
every packet length: it starts at that offset of the frame, the offset plus the `tp_len`
written is at most `tp_frame_size`, and no byte outside the frame is changed. -/
theorem C29_copy_inside_frame (c : Consts) (env : WriteEnv) (libtrace : libtrace_out_t)
    (out : linux_format_data_out_t) (mem : Memory) (bytes : Nat → Nat) (packet : TxPacket)
    (hfs : TPACKET2_HDRLEN - sizeof_sockaddr_ll ≤ out.req.tp_frame_size)
    (hfs2 : out.req.tp_frame_size < 2 ^ 32)
    (hexit : (linuxring_write_packet c env libtrace out mem bytes packet).exit
      = .frame_available) :
    (TPACKET2_HDRLEN - sizeof_sockaddr_ll) +
      ((linuxring_write_packet c env libtrace out mem bytes packet).mem
        (tx_frame_address out)).tp_len ≤ out.req.tp_frame_size ∧
    (∀ a, (linuxring_write_packet c env libtrace out mem bytes packet).bytes a ≠ bytes a →
      tx_frame_address out + (TPACKET2_HDRLEN - sizeof_sockaddr_ll) ≤ a ∧
      a < tx_frame_address out + (TPACKET2_HDRLEN - sizeof_sockaddr_ll) +
        ((linuxring_write_packet c env libtrace out mem bytes packet).mem
          (tx_frame_address out)).tp_len ∧
      a < tx_frame_address out + out.req.tp_frame_size) := by
  obtain ⟨_, _, hmem, hbytes, _, _⟩ :=
    linuxring_write_packet_submitted c env libtrace out mem bytes packet hexit
  have hmax := tx_max_size_eq out hfs hfs2
  have e1 : TPACKET2_HDRLEN = 52 := by decide
  have e2 : sizeof_sockaddr_ll = 20 := by decide
  have hlen : ((linuxring_write_packet c env libtrace out mem bytes packet).mem
      (tx_frame_address out)).tp_len = min (u32 packet.capture_length) (tx_max_size out) := by
    rw [hmem]
    simp
  have hle : min (u32 packet.capture_length) (tx_max_size out) ≤ tx_max_size out :=
    Nat.min_le_right _ _
  rw [hlen]
  rw [e1, e2] at hmax hfs ⊢
  refine ⟨by omega, ?_⟩
  intro a ha
  rw [hbytes] at ha
  simp only [e1, e2] at ha
  by_cases hin : tx_frame_address out + (52 - 20) ≤ a ∧
      a < tx_frame_address out + (52 - 20) +
        min (u32 packet.capture_length) (tx_max_size out)
  · exact ⟨hin.1, hin.2, by omega⟩
  · rw [if_neg hin] at ha
    exact absurd rfl ha

/-- Witness for C29: a packet of 9000 bytes written to a frame of 4096 bytes. -/
theorem C29_copy_inside_frame_witness :
    (TPACKET2_HDRLEN - sizeof_sockaddr_ll) +
      ((linuxring_write_packet libtrace_consts write_env_no_wait trace_out_eth0
        ring_format_data_out zero_memory (fun _ => 7) tx_packet_9000).mem
          (tx_frame_address ring_format_data_out)).tp_len ≤ 4096 ∧
    ((linuxring_write_packet libtrace_consts write_env_no_wait trace_out_eth0
        ring_format_data_out zero_memory (fun _ => 7) tx_packet_9000).mem
          (tx_frame_address ring_format_data_out)).tp_len = 4064 :=
  ⟨(C29_copy_inside_frame libtrace_consts write_env_no_wait trace_out_eth0
      ring_format_data_out zero_memory (fun _ => 7) tx_packet_9000 (by decide) (by decide)
      rfl).1, rfl⟩

/-! ## Batching of the transmit ring (C23) -/

/-- The wait loop of `linuxring_write_packet` issues no non-blocking `sendto`. -/
theorem tx_wait_loop_no_flush (fd fd2 : Int) (header : Nat) :
    ∀ (waits : List TxWait) (mem : Memory) (calls : List Syscall),
      Syscall.sendto fd2 true ∉ calls →
      Syscall.sendto fd2 true ∉ (tx_wait_loop fd header waits mem calls).calls := by
  intro waits
  induction waits with
  | nil =>
    intro mem calls h
    unfold tx_wait_loop
    split_ifs <;> exact h
  | cons w rest ih =>
    intro mem calls h
    unfold tx_wait_loop
    by_cases hs : (mem header).tp_status ≠ TP_STATUS_AVAILABLE
    · rw [if_pos hs]
      simp only []
      have h1 : Syscall.sendto fd2 true ∉ calls ++ [Syscall.poll fd false 1000] := by
        simp [h]
      have h2 : Syscall.sendto fd2 true ∉
          calls ++ [Syscall.poll fd false 1000] ++ [Syscall.sendto fd false] := by
        simp [h]
      cases hp : w.poll with
      | ready b => exact ih _ _ h1
      | failed e =>
        simp only []
        split_ifs <;> exact h1
      | timeout =>
        simp only []
        cases hst : w.sendto with
        | success => exact ih _ _ h2
        | failure e => exact h2
    · rw [if_neg hs]
      exact h

/-- A call of `linuxring_write_packet` that did not reach an available frame leaves the
format data as it was and issues no non-blocking `sendto`. -/
theorem linuxring_write_packet_not_submitted (c : Consts) (env : WriteEnv)
    (libtrace : libtrace_out_t) (out : linux_format_data_out_t) (mem : Memory)
    (bytes : Nat → Nat) (packet : TxPacket)
    (hexit : (linuxring_write_packet c env libtrace out mem bytes packet).exit
      ≠ .frame_available) :
    (linuxring_write_packet c env libtrace out mem bytes packet).format_data = out ∧
    Syscall.sendto out.fd true ∉
      (linuxring_write_packet c env libtrace out mem bytes packet).calls := by
  have hx := linuxring_write_packet_exit c env libtrace out mem bytes packet
  by_cases hd : packet.link_type = .TRACE_TYPE_NONDATA
  · rw [linuxring_write_packet_nondata c env libtrace out mem bytes packet hd]
    exact ⟨rfl, by simp⟩
  · rw [if_neg hd] at hx
    rw [hx] at hexit
    have hno := tx_wait_loop_no_flush out.fd out.fd (tx_frame_address out) env.waits mem []
      (by simp)
    unfold tx_frame_address at hexit hno
    unfold linuxring_write_packet
    rw [if_neg hd]
    simp only []
    generalize tx_wait_loop out.fd
      (out.tx_ring + u32 (u32_of_int out.txring_offset * out.req.tp_frame_size))
      env.waits mem [] = l at hexit hno ⊢
    cases hle : l.exit with
    | frame_available => exact absurd hle hexit
    | poll_failed e => exact ⟨rfl, hno⟩
    | send_failed e => exact ⟨rfl, hno⟩
    | blocked => exact ⟨rfl, hno⟩
    | not_reached => exact ⟨rfl, hno⟩

theorem queue_step (a K : Nat) (hK : 0 < K) :
    Int.tmod (((a % K : Nat) : Int) + 1) (K : Int) = (((a + 1) % K : Nat) : Int) := by
  rw [Int.tmod_eq_emod (by positivity) (by positivity)]
  push_cast
  rw [Int.emod_add_emod]

/-- One call of `linuxring_write_packet` on a batch counter that stands at `j0 mod
TX_MAX_QUEUE`: the counter moves on exactly when a frame is submitted, and the
non-blocking `sendto` is issued exactly when the counter comes back to 0. -/
theorem linuxring_write_packet_queue (c : Consts) (env : WriteEnv)
    (libtrace : libtrace_out_t) (out : linux_format_data_out_t) (mem : Memory)
    (bytes : Nat → Nat) (packet : TxPacket) (j0 : Nat)
    (hK : 0 < c.TX_MAX_QUEUE) (hnr : out.req.tp_frame_nr ≠ 0)
    (hq : out.queue = ((j0 % c.TX_MAX_QUEUE : Nat) : Int)) :
    (linuxring_write_packet c env libtrace out mem bytes packet).format_data.req = out.req ∧
    (linuxring_write_packet c env libtrace out mem bytes packet).format_data.queue =
      (((j0 + submissions [linuxring_write_packet c env libtrace out mem bytes packet])
        % c.TX_MAX_QUEUE : Nat) : Int) ∧
    (flushed (linuxring_write_packet c env libtrace out mem bytes packet) = true ↔
      submitted (linuxring_write_packet c env libtrace out mem bytes packet) = true ∧
      c.TX_MAX_QUEUE ∣
        j0 + submissions [linuxring_write_packet c env libtrace out mem bytes packet]) := by
  by_cases hs : (linuxring_write_packet c env libtrace out mem bytes packet).exit
      = .frame_available
  · obtain ⟨_, _, _, _, hcur, hqq⟩ :=
      linuxring_write_packet_submitted c env libtrace out mem bytes packet hs
    obtain ⟨_, hfd, hreq⟩ := hcur hnr
    obtain ⟨hqueue, hcalls, _, _⟩ := hqq hnr (by omega)
    have hsub : submitted (linuxring_write_packet c env libtrace out mem bytes packet)
        = true := by
      unfold submitted
      exact decide_eq_true hs
    have hcount : submissions [linuxring_write_packet c env libtrace out mem bytes packet]
        = 1 := by
      unfold submissions
      simp [List.filter, hsub]
    rw [hq, queue_step j0 c.TX_MAX_QUEUE hK] at hqueue hcalls
    refine ⟨hreq, ?_, ?_⟩
    · rw [hqueue, hcount]
    · have hno := tx_wait_loop_no_flush out.fd out.fd (tx_frame_address out) env.waits
        mem [] (by simp)
      unfold flushed
      rw [hfd, hcalls, hcount, decide_eq_true_iff, Nat.dvd_iff_mod_eq_zero]
      constructor
      · intro hmem
        refine ⟨hsub, ?_⟩
        by_contra hne
        rw [if_neg (by exact_mod_cast hne)] at hmem
        simp only [List.append_nil] at hmem
        exact hno hmem
      · intro h
        rw [if_pos (by exact_mod_cast h.2)]
        simp
  · obtain ⟨hfmt, hno⟩ :=
      linuxring_write_packet_not_submitted c env libtrace out mem bytes packet hs
    have hsub : submitted (linuxring_write_packet c env libtrace out mem bytes packet)
        = false := by
      unfold submitted
      exact decide_eq_false hs
    have hcount : submissions [linuxring_write_packet c env libtrace out mem bytes packet]
        = 0 := by
      unfold submissions
      simp [List.filter, hsub]
    refine ⟨by rw [hfmt], ?_, ?_⟩
    · rw [hfmt, hcount, hq]
      rfl
    · unfold flushed
      rw [hfmt, decide_eq_true_iff, hsub]
      constructor
      · intro h
        exact absurd h hno
      · intro h
        cases h.1

theorem submissions_cons (r : WriteResult) (rs : List WriteResult) :
    submissions (r :: rs) = submissions [r] + submissions rs := by
  unfold submissions
  by_cases h : submitted r = true
  · simp [List.filter, h]
    omega
  · simp [List.filter, h]

/-- The batch counter and the flushes along a sequence of calls of
`linuxring_write_packet`, from a counter that stands at `j0 mod TX_MAX_QUEUE`. -/
theorem write_packets_queue (c : Consts) (hK : 0 < c.TX_MAX_QUEUE) :
    ∀ (calls : List WriteCall) (libtrace : libtrace_out_t) (out : linux_format_data_out_t)
      (mem : Memory) (bytes : Nat → Nat) (j0 : Nat),
      out.req.tp_frame_nr ≠ 0 → out.queue = ((j0 % c.TX_MAX_QUEUE : Nat) : Int) →
      ∀ (n : Nat) (r : WriteResult),
        (write_packets c calls libtrace out mem bytes)[n]? = some r →
        r.format_data.queue =
          (((j0 + submissions ((write_packets c calls libtrace out mem bytes).take (n + 1)))
            % c.TX_MAX_QUEUE : Nat) : Int) ∧
        (flushed r = true ↔ submitted r = true ∧
          c.TX_MAX_QUEUE ∣
            j0 + submissions ((write_packets c calls libtrace out mem bytes).take (n + 1))) := by
  intro calls
  induction calls with
  | nil =>
    intro libtrace out mem bytes j0 _ _ n r h
    simp [write_packets] at h
  | cons w rest ih =>
    intro libtrace out mem bytes j0 hnr hq n r h
    obtain ⟨hreq, hqueue, hflush⟩ :=
      linuxring_write_packet_queue c w.env libtrace out (w.kernel mem) bytes w.packet j0 hK
        hnr hq
    rw [write_packets] at h ⊢
    cases hret : (linuxring_write_packet c w.env libtrace out (w.kernel mem) bytes
        w.packet).ret with
    | error f =>
      simp only [hret] at h ⊢
      cases n with
      | zero =>
        simp only [List.getElem?_cons_zero, Option.some.injEq] at h
        subst h
        exact ⟨hqueue, hflush⟩
      | succ m => simp at h
    | ok v =>
      simp only [hret] at h ⊢
      cases n with
      | zero =>
        simp only [List.getElem?_cons_zero, Option.some.injEq] at h
        subst h
        simp only [List.take_succ_cons, List.take_zero]
        exact ⟨hqueue, hflush⟩
      | succ m =>
        rw [List.getElem?_cons_succ] at h
        have hnr2 : (linuxring_write_packet c w.env libtrace out (w.kernel mem) bytes
            w.packet).format_data.req.tp_frame_nr ≠ 0 := by
          rw [hreq]
          exact hnr
        have := ih _ _ _ _ _ hnr2 hqueue m r h
        rw [List.take_succ_cons, submissions_cons, ← Nat.add_assoc]
        exact this

/-- C23: starting from a batch counter of 0, along any sequence of calls of
`linuxring_write_packet` the non-blocking flush `sendto` is issued by exactly those calls
that submit a frame and whose frame is the `TX_MAX_QUEUE`-th, `2 * TX_MAX_QUEUE`-th, ...
submitted; after every call the counter is the number of frames submitted so far modulo
`TX_MAX_QUEUE`, hence in `[0, TX_MAX_QUEUE)`.  And whatever the state a call starts from,
when the call submits a frame and its flush fails, it returns -1 with the error "sendto
failed" while the frame is marked `TP_STATUS_SEND_REQUEST`, the output cursor has
advanced and the counter is back at 0. -/
theorem C23_flush_every_kth (c : Consts) (calls : List WriteCall)
    (libtrace : libtrace_out_t) (out : linux_format_data_out_t) (mem : Memory)
    (bytes : Nat → Nat)
    (hK : 0 < c.TX_MAX_QUEUE) (hnr : out.req.tp_frame_nr ≠ 0) (hq : out.queue = 0) :
    (∀ (n : Nat) (r : WriteResult),
      (write_packets c calls libtrace out mem bytes)[n]? = some r →
      0 ≤ r.format_data.queue ∧ r.format_data.queue < c.TX_MAX_QUEUE ∧
      r.format_data.queue =
        ((submissions ((write_packets c calls libtrace out mem bytes).take (n + 1))
          % c.TX_MAX_QUEUE : Nat) : Int) ∧
      (flushed r = true ↔ submitted r = true ∧
        c.TX_MAX_QUEUE ∣
          submissions ((write_packets c calls libtrace out mem bytes).take (n + 1)))) ∧
    (∀ (env : WriteEnv) (libtrace2 : libtrace_out_t) (out2 : linux_format_data_out_t)
        (mem2 : Memory) (bytes2 : Nat → Nat) (packet : TxPacket) (e : Nat),
      out2.req.tp_frame_nr ≠ 0 →
      (linuxring_write_packet c env libtrace2 out2 mem2 bytes2 packet).exit
        = .frame_available →
      flushed (linuxring_write_packet c env libtrace2 out2 mem2 bytes2 packet) = true →
      env.flush = .failure e →
      (linuxring_write_packet c env libtrace2 out2 mem2 bytes2 packet).ret = .ok (-1) ∧
      (linuxring_write_packet c env libtrace2 out2 mem2 bytes2 packet).libtrace.err =
        some (.errno e, "sendto failed") ∧
      ((linuxring_write_packet c env libtrace2 out2 mem2 bytes2 packet).mem
        (tx_frame_address out2)).tp_status = TP_STATUS_SEND_REQUEST ∧
      (linuxring_write_packet c env libtrace2 out2 mem2 bytes2 packet).format_data.txring_offset
        = int_of_u32 (u32_of_int (out2.txring_offset + 1) % out2.req.tp_frame_nr) ∧
      (linuxring_write_packet c env libtrace2 out2 mem2 bytes2 packet).format_data.queue
        = 0) := by
  refine ⟨?_, ?_⟩
  · intro n r h
    have hq0 : out.queue = ((0 % c.TX_MAX_QUEUE : Nat) : Int) := by
      rw [hq, Nat.zero_mod]
      rfl
    obtain ⟨h1, h2⟩ := write_packets_queue c hK calls libtrace out mem bytes 0 hnr hq0 n r h
    rw [Nat.zero_add] at h1 h2
    refine ⟨?_, ?_, h1, h2⟩
    · rw [h1]
      exact Int.natCast_nonneg _
    · rw [h1]
      exact_mod_cast Nat.mod_lt _ hK
  · intro env libtrace2 out2 mem2 bytes2 packet e hnr2 hexit hfl hfail
    obtain ⟨_, _, hmem, _, hcur, hqq⟩ :=
      linuxring_write_packet_submitted c env libtrace2 out2 mem2 bytes2 packet hexit
    obtain ⟨hoff, hfd, _⟩ := hcur hnr2
    obtain ⟨hqueue, hcalls, hret, hlib⟩ := hqq hnr2 (by omega)
    have hno := tx_wait_loop_no_flush out2.fd out2.fd (tx_frame_address out2) env.waits
      mem2 [] (by simp)
    have h3 : Int.tmod (out2.queue + 1) c.TX_MAX_QUEUE = 0 := by
      by_contra hne
      unfold flushed at hfl
      rw [hfd, hcalls, if_neg hne, decide_eq_true_iff] at hfl
      simp only [List.append_nil] at hfl
      exact hno hfl
    rw [if_pos h3, hfail] at hret hlib
    refine ⟨hret, ?_, ?_, hoff, ?_⟩
    · rw [hlib]
      rfl
    · rw [hmem]
      simp
    · rw [hqueue, h3]

/-- Witness for C23, with `TX_MAX_QUEUE` = 10.  Ten packets of 60 bytes are written one
after the other from the counter 0, and the flush of the tenth call is refused with
`ENOBUFS`: the first nine calls do not flush and return 60, the tenth flushes, returns -1
and leaves the counter at 0 and the cursor on the eleventh frame, its frame marked
`TP_STATUS_SEND_REQUEST`.  The same is shown of a single call that starts from the counter
9. -/
theorem C23_flush_every_kth_witness :
    (0 < libtrace_consts.TX_MAX_QUEUE ∧ ring_format_data_out.req.tp_frame_nr ≠ 0) ∧
    ((write_packets libtrace_consts ten_writes_last_flush_fails trace_out_eth0
        ring_format_data_out zero_memory (fun _ => 7)).map
      (fun r => (submitted r, flushed r, r.format_data.queue, r.format_data.txring_offset,
        r.libtrace.err, (r.mem (1048576 * 2 + 4096 * 9)).tp_status))) =
      [(true, false, 1, 1, none, 0), (true, false, 2, 2, none, 0),
        (true, false, 3, 3, none, 0), (true, false, 4, 4, none, 0),
        (true, false, 5, 5, none, 0), (true, false, 6, 6, none, 0),
        (true, false, 7, 7, none, 0), (true, false, 8, 8, none, 0),
        (true, false, 9, 9, none, 0),
        (true, true, 0, 10, some (.errno 105, "sendto failed"), TP_STATUS_SEND_REQUEST)] ∧
    (∀ (n : Nat) (r : WriteResult),
      (write_packets libtrace_consts ten_writes_last_flush_fails trace_out_eth0
        ring_format_data_out zero_memory (fun _ => 7))[n]? = some r →
      0 ≤ r.format_data.queue ∧ r.format_data.queue < libtrace_consts.TX_MAX_QUEUE ∧
      r.format_data.queue =
        ((submissions ((write_packets libtrace_consts ten_writes_last_flush_fails
          trace_out_eth0 ring_format_data_out zero_memory (fun _ => 7)).take (n + 1))
          % libtrace_consts.TX_MAX_QUEUE : Nat) : Int) ∧
      (flushed r = true ↔ submitted r = true ∧
        libtrace_consts.TX_MAX_QUEUE ∣
          submissions ((write_packets libtrace_consts ten_writes_last_flush_fails
            trace_out_eth0 ring_format_data_out zero_memory (fun _ => 7)).take (n + 1)))) ∧
    flushed (linuxring_write_packet libtrace_consts write_env_flush_fails trace_out_eth0
      { ring_format_data_out with queue := 9 } zero_memory (fun _ => 7) tx_packet_60)
        = true ∧
    (linuxring_write_packet libtrace_consts write_env_flush_fails trace_out_eth0
      { ring_format_data_out with queue := 9 } zero_memory (fun _ => 7) tx_packet_60).ret
        = .ok (-1) ∧
    ((linuxring_write_packet libtrace_consts write_env_flush_fails trace_out_eth0
      { ring_format_data_out with queue := 9 } zero_memory (fun _ => 7) tx_packet_60).mem
        (tx_frame_address { ring_format_data_out with queue := 9 })).tp_status
          = TP_STATUS_SEND_REQUEST ∧
    (linuxring_write_packet libtrace_consts write_env_flush_fails trace_out_eth0
      { ring_format_data_out with queue := 9 } zero_memory (fun _ => 7)
      tx_packet_60).format_data.txring_offset = 1 :=
  ⟨⟨by decide, by decide⟩, rfl,
    (C23_flush_every_kth libtrace_consts ten_writes_last_flush_fails trace_out_eth0
      ring_format_data_out zero_memory (fun _ => 7) (by decide) (by decide) rfl).1,
    rfl,
    ((C23_flush_every_kth libtrace_consts ten_writes_last_flush_fails trace_out_eth0
      ring_format_data_out zero_memory (fun _ => 7) (by decide) (by decide) rfl).2
      write_env_flush_fails trace_out_eth0 { ring_format_data_out with queue := 9 }
      zero_memory (fun _ => 7) tx_packet_60 105 (by decide) rfl rfl rfl).1,
    ((C23_flush_every_kth libtrace_consts ten_writes_last_flush_fails trace_out_eth0
      ring_format_data_out zero_memory (fun _ => 7) (by decide) (by decide) rfl).2
      write_env_flush_fails trace_out_eth0 { ring_format_data_out with queue := 9 }
      zero_memory (fun _ => 7) tx_packet_60 105 (by decide) rfl rfl rfl).2.2.1,
    rfl⟩

/-! ## The ring cursors (C24) -/

/-- What lines 505-527 of `linuxring_read_stream` leave behind when the frame count is not
zero: the cursor, the packet and the value returned. -/
theorem read_frame_result (c : Consts) (libtrace : libtrace_t) (fmt : linux_format_data_t)
    (stream : linux_per_stream_t) (packet : libtrace_packet_t) (header : Nat)
    (l : RxLoopResult) (hnr : fmt.req.tp_frame_nr ≠ 0) :
    (read_frame c libtrace fmt stream packet header l).stream =
      { stream with
        rxring_offset :=
          int_of_u32 (u32_of_int (stream.rxring_offset + 1) % fmt.req.tp_frame_nr) } ∧
    (read_frame c libtrace fmt stream packet header l).packet.buffer = header ∧
    (read_frame c libtrace fmt stream packet header l).packet.payload =
      header +
        TP_TRACE_START ((read_frame c libtrace fmt stream packet header l).mem header).tp_mac
          ((read_frame c libtrace fmt stream packet header l).mem header).tp_net
          TPACKET2_HDRLEN ∧
    (read_frame c libtrace fmt stream packet header l).ret =
      .ok (linuxring_get_framing_length (read_frame c libtrace fmt stream packet header l).packet
        + linuxring_get_capture_length (read_frame c libtrace fmt stream packet header l).mem
            (read_frame c libtrace fmt stream packet header l).packet) := by
  unfold read_frame
  simp only [hnr, if_false]
  have hp : (linuxring_prepare_packet
      (write_tp_snaplen l.mem header
        (min (u32_of_int (min ((c.LIBTRACE_PACKET_BUFSIZE : Int) - (sizeof_tpacket2_hdr : Int))
          fmt.snaplen)) (l.mem header).tp_len))
      { packet with buffer := header } header packet.type false).ret = 0 := rfl
  simp only [hp, ne_eq, not_true_eq_false, if_false]
  refine ⟨?_, ?_, ?_, ?_⟩ <;> trivial

/-- What a call of `linuxring_read_stream` that found a user-owned frame leaves behind. -/
theorem linuxring_read_stream_frame (c : Consts) (env : ReadEnv) (libtrace : libtrace_t)
    (fmt : linux_format_data_t) (stream : linux_per_stream_t) (mem : Memory)
    (packet : libtrace_packet_t) (hnr : fmt.req.tp_frame_nr ≠ 0)
    (hexit : (linuxring_read_stream c env libtrace fmt stream mem packet).exit = .frame_ready) :
    (linuxring_read_stream c env libtrace fmt stream mem packet).stream =
      { stream with
        rxring_offset :=
          int_of_u32 (u32_of_int (stream.rxring_offset + 1) % fmt.req.tp_frame_nr) } ∧
    (linuxring_read_stream c env libtrace fmt stream mem packet).packet.buffer =
      GET_CURRENT_BUFFER fmt stream ∧
    (linuxring_read_stream c env libtrace fmt stream mem packet).packet.payload =
      GET_CURRENT_BUFFER fmt stream +
        TP_TRACE_START
          ((linuxring_read_stream c env libtrace fmt stream mem packet).mem
            (GET_CURRENT_BUFFER fmt stream)).tp_mac
          ((linuxring_read_stream c env libtrace fmt stream mem packet).mem
            (GET_CURRENT_BUFFER fmt stream)).tp_net
          TPACKET2_HDRLEN ∧
    (linuxring_read_stream c env libtrace fmt stream mem packet).ret =
      .ok (linuxring_get_framing_length
          (linuxring_read_stream c env libtrace fmt stream mem packet).packet
        + linuxring_get_capture_length
            (linuxring_read_stream c env libtrace fmt stream mem packet).mem
            (linuxring_read_stream c env libtrace fmt stream mem packet).packet) := by
  unfold linuxring_read_stream at hexit ⊢
  simp only [] at hexit ⊢
  by_cases ha : GET_CURRENT_BUFFER fmt stream &&&
      (if env.pagesize = 0 then 2 ^ 64 - 1 else env.pagesize - 1) ≠ 0
  · rw [if_pos ha] at hexit
    cases hexit
  · rw [if_neg ha] at hexit ⊢
    generalize rx_wait_loop stream.fd env.with_queue (GET_CURRENT_BUFFER fmt stream)
      env.waits (ring_release_frame mem packet).mem (ring_release_frame mem packet).calls = l
      at hexit ⊢
    cases hle : l.exit with
    | frame_ready =>
      simp only [hle] at hexit ⊢
      exact read_frame_result c libtrace fmt stream _ _ l hnr
    | message => simp only [hle] at hexit; cases hexit
    | poll_failed e => simp only [hle] at hexit; cases hexit
    | halted => simp only [hle] at hexit; cases hexit
    | blocked => simp only [hle] at hexit; cases hexit
    | not_reached => simp only [hle] at hexit; cases hexit

/-- The cursor arithmetic of both rings: for a cursor in `[0, nr)` and a frame count that
a C `int` holds, the 32-bit computation `(cursor + 1) % nr` is the mathematical one. -/
theorem cursor_step (off : Int) (nr : Nat) (h0 : 0 ≤ off) (h1 : off < nr)
    (h2 : nr < 2 ^ 31) :
    int_of_u32 (u32_of_int (off + 1) % nr) = (off + 1) % (nr : Int) := by
  obtain ⟨k, rfl⟩ := Int.eq_ofNat_of_zero_le h0
  have hk : k < nr := by exact_mod_cast h1
  have hu : u32_of_int ((k : Int) + 1) = k + 1 := by
    unfold u32_of_int
    omega
  rw [hu]
  have hlt : (k + 1) % nr < 2 ^ 31 := lt_of_lt_of_le (Nat.mod_lt _ (by omega)) (le_of_lt h2)
  rw [int_of_u32_small hlt]
  push_cast
  rfl

theorem cursor_step_range (off : Int) (nr : Nat) (h1 : off < nr) (h0 : 0 ≤ off) :
    0 ≤ (off + 1) % (nr : Int) ∧ (off + 1) % (nr : Int) < nr := by
  have hpos : (0 : Int) < nr := by omega
  exact ⟨Int.emod_nonneg _ (by omega), Int.emod_lt_of_pos _ hpos⟩


/-- One successful read moves a read cursor in `[0, nr)` to `(cursor + 1) mod nr`. -/
theorem linuxring_read_stream_cursor (c : Consts) (env : ReadEnv) (libtrace : libtrace_t)
    (fmt : linux_format_data_t) (stream : linux_per_stream_t) (mem : Memory)
    (packet : libtrace_packet_t) (v : Int)
    (h0 : 0 ≤ stream.rxring_offset) (h1 : stream.rxring_offset < fmt.req.tp_frame_nr)
    (h2 : fmt.req.tp_frame_nr < 2 ^ 31)
    (hexit : (linuxring_read_stream c env libtrace fmt stream mem packet).exit = .frame_ready)
    (_hret : (linuxring_read_stream c env libtrace fmt stream mem packet).ret = .ok v) :
    (linuxring_read_stream c env libtrace fmt stream mem packet).stream.rxring_offset =
      (stream.rxring_offset + 1) % (fmt.req.tp_frame_nr : Int) := by
  have hnr : fmt.req.tp_frame_nr ≠ 0 := by
    intro h
    rw [h] at h1
    omega
  obtain ⟨hs, _⟩ := linuxring_read_stream_frame c env libtrace fmt stream mem packet hnr hexit
  rw [hs]
  exact cursor_step _ _ h0 h1 h2

/-- The read cursor along a sequence of successful reads. -/
theorem read_packets_cursor (c : Consts) (fmt : linux_format_data_t)
    (h2 : fmt.req.tp_frame_nr < 2 ^ 31) :
    ∀ (calls : List ReadCall) (libtrace : libtrace_t) (stream : linux_per_stream_t)
      (mem : Memory) (packet : libtrace_packet_t),
      0 ≤ stream.rxring_offset → stream.rxring_offset < fmt.req.tp_frame_nr →
      ∀ (n : Nat) (r : ReadResult),
        (read_packets c fmt calls libtrace stream mem packet)[n]? = some r →
        (∀ (m : Nat) (q : ReadResult), m ≤ n →
          (read_packets c fmt calls libtrace stream mem packet)[m]? = some q →
          q.exit = .frame_ready ∧ ∃ v, q.ret = .ok v) →
        r.stream.rxring_offset =
          (stream.rxring_offset + ((n + 1 : Nat) : Int)) % (fmt.req.tp_frame_nr : Int) := by
  intro calls
  induction calls with
  | nil =>
    intro libtrace stream mem packet _ _ n r h
    simp [read_packets] at h
  | cons w rest ih =>
    intro libtrace stream mem packet h0 h1 n r h hall
    rw [read_packets] at h hall
    cases hret : (linuxring_read_stream c w.env libtrace fmt stream (w.kernel mem)
        packet).ret with
    | error f =>
      simp only [hret] at hall
      obtain ⟨_, v, hv⟩ := hall 0 (linuxring_read_stream c w.env libtrace fmt stream (w.kernel mem) packet) (Nat.zero_le _) (by simp)
      rw [hret] at hv
      cases hv
    | ok v =>
      simp only [hret] at h hall
      obtain ⟨hex, _⟩ := hall 0 (linuxring_read_stream c w.env libtrace fmt stream (w.kernel mem) packet) (Nat.zero_le _) (by simp)
      have hcur := linuxring_read_stream_cursor c w.env libtrace fmt stream (w.kernel mem)
        packet v h0 h1 h2 hex hret
      obtain ⟨hr0, hr1⟩ := cursor_step_range stream.rxring_offset fmt.req.tp_frame_nr h1 h0
      cases n with
      | zero =>
        simp only [List.getElem?_cons_zero, Option.some.injEq] at h
        subst h
        rw [hcur]
        rfl
      | succ m =>
        rw [List.getElem?_cons_succ] at h
        have hall2 : ∀ (k : Nat) (q : ReadResult), k ≤ m →
            (read_packets c fmt rest
              (linuxring_read_stream c w.env libtrace fmt stream (w.kernel mem) packet).libtrace
              (linuxring_read_stream c w.env libtrace fmt stream (w.kernel mem) packet).stream
              (linuxring_read_stream c w.env libtrace fmt stream (w.kernel mem) packet).mem
              (linuxring_read_stream c w.env libtrace fmt stream (w.kernel mem) packet).packet)[k]?
              = some q →
            q.exit = .frame_ready ∧ ∃ v, q.ret = .ok v := by
          intro k q hk hq
          exact hall (k + 1) q (by omega) (by rw [List.getElem?_cons_succ]; exact hq)
        have := ih _ _ _ _ (by rw [hcur]; exact hr0) (by rw [hcur]; exact hr1) m r h hall2
        rw [this, hcur, Int.emod_add_emod]
        congr 1
        push_cast
        ring

/-- One write that reaches an available frame moves a write cursor in `[0, nr)` to
`(cursor + 1) mod nr`. -/
theorem linuxring_write_packet_cursor (c : Consts) (env : WriteEnv)
    (libtrace : libtrace_out_t) (out : linux_format_data_out_t) (mem : Memory)
    (bytes : Nat → Nat) (packet : TxPacket)
    (h0 : 0 ≤ out.txring_offset) (h1 : out.txring_offset < out.req.tp_frame_nr)
    (h2 : out.req.tp_frame_nr < 2 ^ 31)
    (hexit : (linuxring_write_packet c env libtrace out mem bytes packet).exit
      = .frame_available) :
    (linuxring_write_packet c env libtrace out mem bytes packet).format_data.txring_offset =
      (out.txring_offset + 1) % (out.req.tp_frame_nr : Int) ∧
    (linuxring_write_packet c env libtrace out mem bytes packet).format_data.req = out.req := by
  have hnr : out.req.tp_frame_nr ≠ 0 := by
    intro h
    rw [h] at h1
    omega
  obtain ⟨_, _, _, _, hcur, _⟩ :=
    linuxring_write_packet_submitted c env libtrace out mem bytes packet hexit
  obtain ⟨hoff, _, hreq⟩ := hcur hnr
  rw [hoff]
  exact ⟨cursor_step _ _ h0 h1 h2, hreq⟩

/-- The write cursor along a sequence of writes that each reach an available frame. -/
theorem write_packets_cursor (c : Consts) :
    ∀ (calls : List WriteCall) (libtrace : libtrace_out_t) (out : linux_format_data_out_t)
      (mem : Memory) (bytes : Nat → Nat),
      out.req.tp_frame_nr < 2 ^ 31 →
      0 ≤ out.txring_offset → out.txring_offset < out.req.tp_frame_nr →
      ∀ (n : Nat) (r : WriteResult),
        (write_packets c calls libtrace out mem bytes)[n]? = some r →
        (∀ (m : Nat) (q : WriteResult), m ≤ n →
          (write_packets c calls libtrace out mem bytes)[m]? = some q →
          q.exit = .frame_available) →
        r.format_data.txring_offset =
          (out.txring_offset + ((n + 1 : Nat) : Int)) % (out.req.tp_frame_nr : Int) := by
  intro calls
  induction calls with
  | nil =>
    intro libtrace out mem bytes _ _ _ n r h
    simp [write_packets] at h
  | cons w rest ih =>
    intro libtrace out mem bytes h2 h0 h1 n r h hall
    rw [write_packets] at h hall
    cases hret : (linuxring_write_packet c w.env libtrace out (w.kernel mem) bytes
        w.packet).ret with
    | error f =>
      simp only [hret] at h hall
      have hex := hall 0 (linuxring_write_packet c w.env libtrace out (w.kernel mem) bytes w.packet) (Nat.zero_le _) (by simp)
      obtain ⟨hcur, _⟩ := linuxring_write_packet_cursor c w.env libtrace out (w.kernel mem)
        bytes w.packet h0 h1 h2 hex
      cases n with
      | zero =>
        simp only [List.getElem?_cons_zero, Option.some.injEq] at h
        subst h
        rw [hcur]
        rfl
      | succ m => simp at h
    | ok v =>
      simp only [hret] at h hall
      have hex := hall 0 (linuxring_write_packet c w.env libtrace out (w.kernel mem) bytes w.packet) (Nat.zero_le _) (by simp)
      obtain ⟨hcur, hreq⟩ := linuxring_write_packet_cursor c w.env libtrace out
        (w.kernel mem) bytes w.packet h0 h1 h2 hex
      obtain ⟨hr0, hr1⟩ := cursor_step_range out.txring_offset out.req.tp_frame_nr h1 h0
      cases n with
      | zero =>
        simp only [List.getElem?_cons_zero, Option.some.injEq] at h
        subst h
        rw [hcur]
        rfl
      | succ m =>
        rw [List.getElem?_cons_succ] at h
        have hall2 : ∀ (k : Nat) (q : WriteResult), k ≤ m →
            (write_packets c rest
              (linuxring_write_packet c w.env libtrace out (w.kernel mem) bytes
                w.packet).libtrace
              (linuxring_write_packet c w.env libtrace out (w.kernel mem) bytes
                w.packet).format_data
              (linuxring_write_packet c w.env libtrace out (w.kernel mem) bytes w.packet).mem
              (linuxring_write_packet c w.env libtrace out (w.kernel mem) bytes
                w.packet).bytes)[k]?
              = some q →
            q.exit = .frame_available := by
          intro k q hk hq
          exact hall (k + 1) q (by omega) (by rw [List.getElem?_cons_succ]; exact hq)
        have := ih _ _ _ _ (by rw [hreq]; exact h2) (by rw [hcur]; exact hr0)
          (by rw [hcur, hreq]; exact hr1) m r h hall2
        rw [this, hcur, hreq, Int.emod_add_emod]
        congr 1
        push_cast
        ring

/-- C24: both ring cursors advance modulo the frame count and stay in range.  For a frame
count that a C `int` holds and a cursor in `[0, tp_frame_nr)`: after `n + 1` consecutive
reads with `linuxring_read_stream` that each return a packet, the read cursor is
`(rxring_offset + n + 1) mod tp_frame_nr`, so one read moves it to
`(rxring_offset + 1) mod tp_frame_nr`, it stays below `tp_frame_nr`, and `tp_frame_nr`
reads bring it back to where it started; the same holds of the write cursor
`txring_offset` along consecutive calls of `linuxring_write_packet` that each write a
frame. -/
theorem C24_cursors_wrap (c : Consts) (fmt : linux_format_data_t) (rcalls : List ReadCall)
    (libtrace : libtrace_t) (stream : linux_per_stream_t) (mem : Memory)
    (packet : libtrace_packet_t) (wcalls : List WriteCall) (libtrace_out : libtrace_out_t)
    (out : linux_format_data_out_t) (tmem : Memory) (bytes : Nat → Nat) :
    (0 ≤ stream.rxring_offset → stream.rxring_offset < fmt.req.tp_frame_nr →
      fmt.req.tp_frame_nr < 2 ^ 31 →
      ∀ (n : Nat) (r : ReadResult),
        (read_packets c fmt rcalls libtrace stream mem packet)[n]? = some r →
        (∀ (m : Nat) (q : ReadResult), m ≤ n →
          (read_packets c fmt rcalls libtrace stream mem packet)[m]? = some q →
          q.exit = .frame_ready ∧ ∃ v, q.ret = .ok v) →
        r.stream.rxring_offset =
          (stream.rxring_offset + ((n + 1 : Nat) : Int)) % (fmt.req.tp_frame_nr : Int) ∧
        0 ≤ r.stream.rxring_offset ∧ r.stream.rxring_offset < fmt.req.tp_frame_nr ∧
        (n + 1 = fmt.req.tp_frame_nr → r.stream.rxring_offset = stream.rxring_offset)) ∧
    (0 ≤ out.txring_offset → out.txring_offset < out.req.tp_frame_nr →
      out.req.tp_frame_nr < 2 ^ 31 →
      ∀ (n : Nat) (r : WriteResult),
        (write_packets c wcalls libtrace_out out tmem bytes)[n]? = some r →
        (∀ (m : Nat) (q : WriteResult), m ≤ n →
          (write_packets c wcalls libtrace_out out tmem bytes)[m]? = some q →
          q.exit = .frame_available) →
        r.format_data.txring_offset =
          (out.txring_offset + ((n + 1 : Nat) : Int)) % (out.req.tp_frame_nr : Int) ∧
        0 ≤ r.format_data.txring_offset ∧
        r.format_data.txring_offset < out.req.tp_frame_nr ∧
        (n + 1 = out.req.tp_frame_nr → r.format_data.txring_offset = out.txring_offset)) := by
  refine ⟨?_, ?_⟩
  · intro h0 h1 h2 n r h hall
    have hcur := read_packets_cursor c fmt h2 rcalls libtrace stream mem packet h0 h1 n r h
      hall
    have hpos : (0 : Int) < fmt.req.tp_frame_nr := by omega
    refine ⟨hcur, ?_, ?_, ?_⟩
    · rw [hcur]
      exact Int.emod_nonneg _ (by omega)
    · rw [hcur]
      exact Int.emod_lt_of_pos _ hpos
    · intro hn
      rw [hcur, hn, Int.add_emod_self]
      exact Int.emod_eq_of_lt h0 h1
  · intro h0 h1 h2 n r h hall
    have hcur := write_packets_cursor c wcalls libtrace_out out tmem bytes h2 h0 h1 n r h
      hall
    have hpos : (0 : Int) < out.req.tp_frame_nr := by omega
    refine ⟨hcur, ?_, ?_, ?_⟩
    · rw [hcur]
      exact Int.emod_nonneg _ (by omega)
    · rw [hcur]
      exact Int.emod_lt_of_pos _ hpos
    · intro hn
      rw [hcur, hn, Int.add_emod_self]
      exact Int.emod_eq_of_lt h0 h1

/-- Witness for C24: on rings of two frames, two reads (two writes) in a row move the
cursor from 0 to 1 and back to 0. -/
theorem C24_cursors_wrap_witness :
    (read_packets libtrace_consts two_frame_format_data two_reads trace_eth0 live_stream
      two_frames_memory empty_packet).map (fun r => r.stream.rxring_offset) = [1, 0] ∧
    (∀ r, (read_packets libtrace_consts two_frame_format_data two_reads trace_eth0
        live_stream two_frames_memory empty_packet)[1]? = some r →
      r.stream.rxring_offset = live_stream.rxring_offset) ∧
    (write_packets libtrace_consts two_writes trace_out_eth0 two_frame_format_data_out
      zero_memory (fun _ => 7)).map (fun r => r.format_data.txring_offset) = [1, 0] ∧
    (∀ r, (write_packets libtrace_consts two_writes trace_out_eth0
        two_frame_format_data_out zero_memory (fun _ => 7))[1]? = some r →
      r.format_data.txring_offset = two_frame_format_data_out.txring_offset) := by
  have hr0 : (read_packets libtrace_consts two_frame_format_data two_reads trace_eth0
      live_stream two_frames_memory empty_packet)[0]? =
      some (linuxring_read_stream libtrace_consts read_env_no_wait trace_eth0
        two_frame_format_data live_stream two_frames_memory empty_packet) := rfl
  have hr1 : (read_packets libtrace_consts two_frame_format_data two_reads trace_eth0
      live_stream two_frames_memory empty_packet)[1]? =
      some (linuxring_read_stream libtrace_consts read_env_no_wait
        (linuxring_read_stream libtrace_consts read_env_no_wait trace_eth0
          two_frame_format_data live_stream two_frames_memory empty_packet).libtrace
        two_frame_format_data
        (linuxring_read_stream libtrace_consts read_env_no_wait trace_eth0
          two_frame_format_data live_stream two_frames_memory empty_packet).stream
        (linuxring_read_stream libtrace_consts read_env_no_wait trace_eth0
          two_frame_format_data live_stream two_frames_memory empty_packet).mem
        (linuxring_read_stream libtrace_consts read_env_no_wait trace_eth0
          two_frame_format_data live_stream two_frames_memory empty_packet).packet) := rfl
  have hw0 : (write_packets libtrace_consts two_writes trace_out_eth0
      two_frame_format_data_out zero_memory (fun _ => 7))[0]? =
      some (linuxring_write_packet libtrace_consts write_env_no_wait trace_out_eth0
        two_frame_format_data_out zero_memory (fun _ => 7) tx_packet_60) := rfl
  have hw1 : (write_packets libtrace_consts two_writes trace_out_eth0
      two_frame_format_data_out zero_memory (fun _ => 7))[1]? =
      some (linuxring_write_packet libtrace_consts write_env_no_wait
        (linuxring_write_packet libtrace_consts write_env_no_wait trace_out_eth0
          two_frame_format_data_out zero_memory (fun _ => 7) tx_packet_60).libtrace
        (linuxring_write_packet libtrace_consts write_env_no_wait trace_out_eth0
          two_frame_format_data_out zero_memory (fun _ => 7) tx_packet_60).format_data
        (linuxring_write_packet libtrace_consts write_env_no_wait trace_out_eth0
          two_frame_format_data_out zero_memory (fun _ => 7) tx_packet_60).mem
        (linuxring_write_packet libtrace_consts write_env_no_wait trace_out_eth0
          two_frame_format_data_out zero_memory (fun _ => 7) tx_packet_60).bytes
        tx_packet_60) := rfl
  refine ⟨rfl, ?_, rfl, ?_⟩
  · intro r hr
    refine ((C24_cursors_wrap libtrace_consts two_frame_format_data two_reads trace_eth0
      live_stream two_frames_memory empty_packet two_writes trace_out_eth0
      two_frame_format_data_out zero_memory (fun _ => 7)).1 (by decide) (by decide)
      (by decide) 1 r hr ?_).2.2.2 rfl
    intro m q hm hq
    interval_cases m
    · rw [hr0] at hq
      cases hq
      exact ⟨rfl, 126, rfl⟩
    · rw [hr1] at hq
      cases hq
      exact ⟨rfl, 126, rfl⟩
  · intro r hr
    refine ((C24_cursors_wrap libtrace_consts two_frame_format_data two_reads trace_eth0
      live_stream two_frames_memory empty_packet two_writes trace_out_eth0
      two_frame_format_data_out zero_memory (fun _ => 7)).2 (by decide) (by decide)
      (by decide) 1 r hr ?_).2.2.2 rfl
    intro m q hm hq
    interval_cases m
    · rw [hw0] at hq
      cases hq
      rfl
    · rw [hw1] at hq
      cases hq
      rfl

/-! ## Frames inside the mapped ring (C25) -/

/-- C25: for every request `calculate_buffers` returns and every cursor value
`i < tp_frame_nr`, `(i + 1) * tp_frame_size ≤ tp_block_size * tp_block_nr`.  When that
product fits in 32 bits, so that it is the length passed to `mmap`, the frame that
`GET_CURRENT_BUFFER` addresses (and the one `linuxring_write_packet` addresses) is
`ring_base + i * tp_frame_size` and ends inside the mapped region. -/
theorem C25_frame_inside_ring (c : Consts) (pagesize max_order : Nat) (ifr_mtu : Option Int)
    (r : tpacket_req) (i : Nat)
    (h : calculate_buffers c pagesize ifr_mtu max_order = .ok r)
    (hi : i < r.tp_frame_nr) :
    (i + 1) * r.tp_frame_size ≤ r.tp_block_size * r.tp_block_nr ∧
    (r.tp_block_size * r.tp_block_nr < 2 ^ 32 →
      (∀ (fmt : linux_format_data_t) (stream : linux_per_stream_t),
        fmt.req = r → stream.rxring_offset = (i : Int) →
        GET_CURRENT_BUFFER fmt stream = stream.rx_ring + i * r.tp_frame_size ∧
        GET_CURRENT_BUFFER fmt stream + r.tp_frame_size ≤
          stream.rx_ring + u32 (r.tp_block_size * r.tp_block_nr)) ∧
      (∀ (out : linux_format_data_out_t),
        out.req = r → out.txring_offset = (i : Int) →
        tx_frame_address out = out.tx_ring + i * r.tp_frame_size ∧
        tx_frame_address out + r.tp_frame_size ≤
          out.tx_ring + u32 (r.tp_block_size * r.tp_block_nr))) := by
  obtain ⟨_, _, _, h4, _⟩ := calculate_buffers_ok h
  have hfnr : r.tp_frame_nr ≤ r.tp_block_nr * (r.tp_block_size / r.tp_frame_size) := by
    unfold calc_frame_nr at h4
    split_ifs at h4 with h0
    have e : u32 (r.tp_block_nr * (r.tp_block_size / r.tp_frame_size)) = r.tp_frame_nr :=
      Except.ok.inj h4
    rw [← e]
    exact Nat.mod_le _ _
  have hmain : (i + 1) * r.tp_frame_size ≤ r.tp_block_size * r.tp_block_nr := by
    calc (i + 1) * r.tp_frame_size
        ≤ r.tp_block_nr * (r.tp_block_size / r.tp_frame_size) * r.tp_frame_size :=
          Nat.mul_le_mul_right _ (by omega)
      _ = r.tp_block_nr * (r.tp_block_size / r.tp_frame_size * r.tp_frame_size) :=
          Nat.mul_assoc _ _ _
      _ ≤ r.tp_block_nr * r.tp_block_size :=
          Nat.mul_le_mul_left _ (Nat.div_mul_le_self _ _)
      _ = r.tp_block_size * r.tp_block_nr := Nat.mul_comm _ _
  refine ⟨hmain, ?_⟩
  intro hfit
  have hlen : u32 (r.tp_block_size * r.tp_block_nr) = r.tp_block_size * r.tp_block_nr :=
    u32_of_lt hfit
  have hexp : (i + 1) * r.tp_frame_size = i * r.tp_frame_size + r.tp_frame_size := by ring
  have hprod : i * r.tp_frame_size < 2 ^ 32 := by omega
  have hfs : r.tp_frame_size ≠ 0 := by
    unfold calc_frame_nr at h4
    split_ifs at h4 with h0
    exact h0
  have hilt : i < 2 ^ 32 := by
    have : i * 1 ≤ i * r.tp_frame_size := Nat.mul_le_mul_left _ (by omega)
    omega
  have hu : u32_of_int (i : Int) = i := by
    unfold u32_of_int
    omega
  refine ⟨?_, ?_⟩
  · intro fmt stream hreq hoff
    have haddr : GET_CURRENT_BUFFER fmt stream = stream.rx_ring + i * r.tp_frame_size := by
      unfold GET_CURRENT_BUFFER
      rw [hoff, hreq, hu, u32_of_lt hprod]
    rw [haddr, hlen]
    exact ⟨rfl, by omega⟩
  · intro out hreq hoff
    have haddr : tx_frame_address out = out.tx_ring + i * r.tp_frame_size := by
      unfold tx_frame_address
      rw [hoff, hreq, hu, u32_of_lt hprod]
    rw [haddr, hlen]
    exact ⟨rfl, by omega⟩

/-- Witness for C25: libtrace's constants, pages of 4096 bytes, MTU 1500 and `max_order`
10 give one block of 1048576 bytes holding 256 frames of 4096 bytes; the last frame,
`i = 255`, ends where the block ends. -/
theorem C25_frame_inside_ring_witness :
    calculate_buffers libtrace_consts 4096 (some 1500) 10 = .ok ring_req ∧
    (255 + 1) * ring_req.tp_frame_size ≤ ring_req.tp_block_size * ring_req.tp_block_nr ∧
    (255 + 1) * ring_req.tp_frame_size = 1048576 :=
  ⟨rfl,
    (C25_frame_inside_ring libtrace_consts 4096 10 (some 1500) ring_req 255 rfl
      (by decide)).1,
    rfl⟩

/-! ## Payload and framing length (C26) -/

/-- C26: `linuxring_prepare_packet` sets the payload to `buffer + tp_mac` when
`tp_mac > TPACKET2_HDRLEN` and `tp_mac < tp_net`, and to `buffer + tp_net` otherwise, so
that the payload is `buffer + tp_mac` exactly when that condition holds or both offsets
are equal; the framing length `payload - buffer` of the prepared packet is never above
`tp_net`; and a call of `linuxring_read_stream` that finds a user-owned frame, on a ring
with a nonzero frame count, returns the framing length of the packet plus its captured
length, the packet being prepared from the frame at the cursor. -/
theorem C26_payload_and_framing (c : Consts) (env : ReadEnv) (libtrace : libtrace_t)
    (fmt : linux_format_data_t) (stream : linux_per_stream_t) (mem : Memory)
    (packet : libtrace_packet_t) (buffer : Nat) (rt_type : libtrace_rt_types_t)
    (own_buffer : Bool) :
    ((mem buffer).tp_mac > TPACKET2_HDRLEN ∧ (mem buffer).tp_mac < (mem buffer).tp_net →
      (linuxring_prepare_packet mem packet buffer rt_type own_buffer).packet.payload =
        buffer + (mem buffer).tp_mac) ∧
    (¬ ((mem buffer).tp_mac > TPACKET2_HDRLEN ∧ (mem buffer).tp_mac < (mem buffer).tp_net) →
      (linuxring_prepare_packet mem packet buffer rt_type own_buffer).packet.payload =
        buffer + (mem buffer).tp_net) ∧
    ((linuxring_prepare_packet mem packet buffer rt_type own_buffer).packet.payload =
        buffer + (mem buffer).tp_mac ↔
      ((mem buffer).tp_mac > TPACKET2_HDRLEN ∧ (mem buffer).tp_mac < (mem buffer).tp_net) ∨
        (mem buffer).tp_mac = (mem buffer).tp_net) ∧
    (linuxring_prepare_packet mem packet buffer rt_type own_buffer).ret = 0 ∧
    0 ≤ linuxring_get_framing_length
      (linuxring_prepare_packet mem packet buffer rt_type own_buffer).packet ∧
    linuxring_get_framing_length
      (linuxring_prepare_packet mem packet buffer rt_type own_buffer).packet
        ≤ (mem buffer).tp_net ∧
    (fmt.req.tp_frame_nr ≠ 0 →
      (linuxring_read_stream c env libtrace fmt stream mem packet).exit = .frame_ready →
      (linuxring_read_stream c env libtrace fmt stream mem packet).ret =
        .ok (linuxring_get_framing_length
            (linuxring_read_stream c env libtrace fmt stream mem packet).packet
          + linuxring_get_capture_length
              (linuxring_read_stream c env libtrace fmt stream mem packet).mem
              (linuxring_read_stream c env libtrace fmt stream mem packet).packet) ∧
      (linuxring_read_stream c env libtrace fmt stream mem packet).packet.buffer =
        GET_CURRENT_BUFFER fmt stream ∧
      (linuxring_read_stream c env libtrace fmt stream mem packet).packet.payload =
        (linuxring_prepare_packet
          (linuxring_read_stream c env libtrace fmt stream mem packet).mem packet
          (GET_CURRENT_BUFFER fmt stream) rt_type own_buffer).packet.payload) := by
  have hpay : (linuxring_prepare_packet mem packet buffer rt_type own_buffer).packet.payload =
      buffer + TP_TRACE_START (mem buffer).tp_mac (mem buffer).tp_net TPACKET2_HDRLEN := rfl
  have hfr : linuxring_get_framing_length
      (linuxring_prepare_packet mem packet buffer rt_type own_buffer).packet =
      (TP_TRACE_START (mem buffer).tp_mac (mem buffer).tp_net TPACKET2_HDRLEN : Nat) := by
    unfold linuxring_get_framing_length
    rw [hpay]
    have : (linuxring_prepare_packet mem packet buffer rt_type own_buffer).packet.buffer
        = buffer := rfl
    rw [this]
    push_cast
    ring
  rw [hpay, hfr]
  unfold TP_TRACE_START
  refine ⟨?_, ?_, ?_, rfl, ?_, ?_, ?_⟩
  · intro hc
    rw [if_pos hc]
  · intro hc
    rw [if_neg hc]
  · by_cases hc : (mem buffer).tp_mac > TPACKET2_HDRLEN ∧
        (mem buffer).tp_mac < (mem buffer).tp_net
    · rw [if_pos hc]
      exact ⟨fun _ => Or.inl hc, fun _ => rfl⟩
    · rw [if_neg hc]
      constructor
      · intro h
        exact Or.inr (by omega)
      · intro h
        rcases h with h | h
        · exact absurd h hc
        · rw [h]
  · exact Int.natCast_nonneg _
  · by_cases hc : (mem buffer).tp_mac > TPACKET2_HDRLEN ∧
        (mem buffer).tp_mac < (mem buffer).tp_net
    · rw [if_pos hc]
      exact_mod_cast le_of_lt hc.2
    · rw [if_neg hc]
  · intro hnr hexit
    obtain ⟨_, hb, hp, hret⟩ :=
      linuxring_read_stream_frame c env libtrace fmt stream mem packet hnr hexit
    refine ⟨hret, hb, ?_⟩
    rw [hp]
    rfl

/-- Witness for C26: the frame of `truncated_frame_memory` has `tp_mac` 66 and `tp_net`
80; the packet read from it has its payload 66 bytes into the frame, and the read returns
66 plus the captured length 9000. -/
theorem C26_payload_and_framing_witness :
    (linuxring_prepare_packet truncated_frame_memory empty_packet 1048576
      .TRACE_RT_DATA_LINUX_RING false).packet.payload = 1048576 + 66 ∧
    (linuxring_read_stream libtrace_consts read_env_no_wait trace_eth0 ring_format_data
      live_stream truncated_frame_memory empty_packet).ret = .ok (66 + 9000) :=
  ⟨(C26_payload_and_framing libtrace_consts read_env_no_wait trace_eth0 ring_format_data
      live_stream truncated_frame_memory empty_packet 1048576 .TRACE_RT_DATA_LINUX_RING
      false).1 (by decide),
    ((C26_payload_and_framing libtrace_consts read_env_no_wait trace_eth0 ring_format_data
      live_stream truncated_frame_memory empty_packet 1048576 .TRACE_RT_DATA_LINUX_RING
      false).2.2.2.2.2.2 (by decide) rfl).1⟩

/-! ## A pending message (C27) -/

/-- The wait loop of `linuxring_read_stream` leaves every frame header other than the one
at the cursor as it was. -/
theorem rx_wait_loop_mem_other (fd : Int) (with_queue : Bool) (header : Nat) :
    ∀ (waits : List RxWait) (mem : Memory) (calls : List Syscall) (a : Nat),
      a ≠ header → (rx_wait_loop fd with_queue header waits mem calls).mem a = mem a := by
  intro waits
  induction waits with
  | nil =>
    intro mem calls a _
    unfold rx_wait_loop
    split_ifs <;> rfl
  | cons w rest ih =>
    intro mem calls a ha
    have hm : ∀ m1 : Memory,
        m1 = (match w.frame with
          | some h => fun x => if x = header then h else mem x
          | none => mem) → m1 a = mem a := by
      intro m1 e
      rw [e]
      cases w.frame with
      | none => rfl
      | some h =>
        simp only []
        rw [if_neg ha]
    unfold rx_wait_loop
    by_cases hs : (mem header).tp_status &&& TP_STATUS_USER ≠ 0
    · rw [if_pos hs]
    · rw [if_neg hs]
      simp only []
      cases hp : w.poll with
      | ready b =>
        cases b with
        | true =>
          simp only []
          rw [ih _ _ a ha]
          exact hm _ rfl
        | false => exact hm _ rfl
      | failed e => exact hm _ rfl
      | timeout =>
        simp only []
        by_cases hh : w.halt = true
        · rw [if_pos hh]
          exact hm _ rfl
        · rw [if_neg hh, ih _ _ a ha]
          exact hm _ rfl

/-- While the kernel writes no frame, the wait loop of `linuxring_read_stream` leaves the
frame headers as they were. -/
theorem rx_wait_loop_mem_quiet (fd : Int) (with_queue : Bool) (header : Nat) :
    ∀ (waits : List RxWait) (mem : Memory) (calls : List Syscall),
      (∀ w ∈ waits, w.frame = none) →
      (rx_wait_loop fd with_queue header waits mem calls).mem = mem := by
  intro waits
  induction waits with
  | nil =>
    intro mem calls _
    unfold rx_wait_loop
    split_ifs <;> rfl
  | cons w rest ih =>
    intro mem calls hq
    have hw : w.frame = none := hq w (List.mem_cons_self _ _)
    have hrest : ∀ x ∈ rest, x.frame = none := fun x hx => hq x (List.mem_cons_of_mem _ hx)
    unfold rx_wait_loop
    by_cases hs : (mem header).tp_status &&& TP_STATUS_USER ≠ 0
    · rw [if_pos hs]
    · rw [if_neg hs]
      simp only [hw]
      cases hp : w.poll with
      | ready b =>
        cases b with
        | true => exact ih _ _ hrest
        | false => rfl
      | failed e => rfl
      | timeout =>
        simp only []
        by_cases hh : w.halt = true
        · rw [if_pos hh]
        · rw [if_neg hh]
          exact ih _ _ hrest

/-- After `ring_release_frame` the packet holds no buffer, and the only frame header that
may have changed is the one the packet held, whose status is then 0. -/
theorem ring_release_frame_spec (mem : Memory) (packet : libtrace_packet_t) :
    (ring_release_frame mem packet).packet.buffer = NULL ∧
    (packet.buffer ≠ NULL ∧ packet.buf_control = .TRACE_CTRL_EXTERNAL →
      (ring_release_frame mem packet).mem = write_tp_status mem packet.buffer 0) ∧
    (¬ (packet.buffer ≠ NULL ∧ packet.buf_control = .TRACE_CTRL_EXTERNAL) →
      (ring_release_frame mem packet).mem = mem) := by
  unfold ring_release_frame
  by_cases hb : packet.buffer = NULL
  · rw [if_pos hb]
    exact ⟨hb, fun h => absurd hb h.1, fun _ => rfl⟩
  · rw [if_neg hb]
    cases hc : packet.buf_control with
    | TRACE_CTRL_PACKET =>
      simp only [if_true]
      refine ⟨?_, ?_, ?_⟩
      · simp [hc]
      · intro h
        cases h.2
      · intro _
        simp [hc]
    | TRACE_CTRL_EXTERNAL =>
      simp only [if_true]
      refine ⟨?_, ?_, ?_⟩
      · simp [hc]
      · intro _
        simp [hc]
      · intro h
        exact absurd ⟨hb, trivial⟩ h

/-- What a call of `linuxring_read_stream` that ends on a message leaves behind. -/
theorem linuxring_read_stream_message (c : Consts) (env : ReadEnv) (libtrace : libtrace_t)
    (fmt : linux_format_data_t) (stream : linux_per_stream_t) (mem : Memory)
    (packet : libtrace_packet_t)
    (hexit : (linuxring_read_stream c env libtrace fmt stream mem packet).exit = .message) :
    (linuxring_read_stream c env libtrace fmt stream mem packet).ret = .ok c.READ_MESSAGE ∧
    (linuxring_read_stream c env libtrace fmt stream mem packet).stream = stream ∧
    (linuxring_read_stream c env libtrace fmt stream mem packet).libtrace = libtrace ∧
    (linuxring_read_stream c env libtrace fmt stream mem packet).packet.buffer =
      (ring_release_frame mem packet).packet.buffer ∧
    (linuxring_read_stream c env libtrace fmt stream mem packet).mem =
      (rx_wait_loop stream.fd env.with_queue (GET_CURRENT_BUFFER fmt stream) env.waits
        (ring_release_frame mem packet).mem (ring_release_frame mem packet).calls).mem := by
  unfold linuxring_read_stream at hexit ⊢
  simp only [] at hexit ⊢
  by_cases ha : GET_CURRENT_BUFFER fmt stream &&&
      (if env.pagesize = 0 then 2 ^ 64 - 1 else env.pagesize - 1) ≠ 0
  · rw [if_pos ha] at hexit
    cases hexit
  · rw [if_neg ha] at hexit ⊢
    generalize rx_wait_loop stream.fd env.with_queue (GET_CURRENT_BUFFER fmt stream)
      env.waits (ring_release_frame mem packet).mem (ring_release_frame mem packet).calls = l
      at hexit ⊢
    cases hle : l.exit with
    | message =>
      simp only [hle]
      exact ⟨trivial, trivial, trivial, trivial, trivial⟩
    | frame_ready =>
      simp only [hle] at hexit
      have hx : (read_frame c libtrace fmt stream
          { (ring_release_frame mem packet).packet with
            buf_control := .TRACE_CTRL_EXTERNAL, type := .TRACE_RT_DATA_LINUX_RING }
          (GET_CURRENT_BUFFER fmt stream) l).exit = l.exit := by
        unfold read_frame
        split_ifs <;> rfl
      rw [hx, hle] at hexit
      cases hexit
    | poll_failed e => simp only [hle] at hexit; cases hexit
    | halted => simp only [hle] at hexit; cases hexit
    | blocked => simp only [hle] at hexit; cases hexit
    | not_reached => simp only [hle] at hexit; cases hexit

/-- C27: a call of `linuxring_read_stream` whose wait ends because `poll` reports the
message queue only returns `READ_MESSAGE` without consuming a frame: the cursor, the
stream and the trace are as before, the packet holds no buffer, and no frame header other
than the one at the cursor (which only the kernel writes) and the one the packet held has
changed.  While the kernel writes no frame, the only write is the release of the frame
the packet held, whose status becomes 0, so that the status of the frame at the cursor is
unchanged when the packet did not hold that frame. -/
theorem C27_message_consumes_no_frame (c : Consts) (env : ReadEnv) (libtrace : libtrace_t)
    (fmt : linux_format_data_t) (stream : linux_per_stream_t) (mem : Memory)
    (packet : libtrace_packet_t)
    (hexit : (linuxring_read_stream c env libtrace fmt stream mem packet).exit = .message) :
    (linuxring_read_stream c env libtrace fmt stream mem packet).ret = .ok c.READ_MESSAGE ∧
    (linuxring_read_stream c env libtrace fmt stream mem packet).stream = stream ∧
    (linuxring_read_stream c env libtrace fmt stream mem packet).libtrace = libtrace ∧
    (linuxring_read_stream c env libtrace fmt stream mem packet).packet.buffer = NULL ∧
    (∀ a, a ≠ GET_CURRENT_BUFFER fmt stream → a ≠ packet.buffer →
      (linuxring_read_stream c env libtrace fmt stream mem packet).mem a = mem a) ∧
    ((∀ w ∈ env.waits, w.frame = none) →
      (packet.buffer ≠ NULL ∧ packet.buf_control = .TRACE_CTRL_EXTERNAL →
        (linuxring_read_stream c env libtrace fmt stream mem packet).mem =
          write_tp_status mem packet.buffer 0) ∧
      (¬ (packet.buffer ≠ NULL ∧ packet.buf_control = .TRACE_CTRL_EXTERNAL) →
        (linuxring_read_stream c env libtrace fmt stream mem packet).mem = mem) ∧
      (packet.buffer ≠ GET_CURRENT_BUFFER fmt stream →
        ((linuxring_read_stream c env libtrace fmt stream mem packet).mem
          (GET_CURRENT_BUFFER fmt stream)).tp_status =
            (mem (GET_CURRENT_BUFFER fmt stream)).tp_status)) := by
  obtain ⟨hret, hstream, hlib, hbuf, hmem⟩ :=
    linuxring_read_stream_message c env libtrace fmt stream mem packet hexit
  obtain ⟨hnull, hext, hnot⟩ := ring_release_frame_spec mem packet
  have hrel_other : ∀ a, a ≠ packet.buffer → (ring_release_frame mem packet).mem a = mem a := by
    intro a ha
    by_cases hc : packet.buffer ≠ NULL ∧ packet.buf_control = .TRACE_CTRL_EXTERNAL
    · rw [hext hc]
      unfold write_tp_status
      simp only []
      rw [if_neg ha]
    · rw [hnot hc]
  refine ⟨hret, hstream, hlib, by rw [hbuf, hnull], ?_, ?_⟩
  · intro a ha hb
    rw [hmem, rx_wait_loop_mem_other _ _ _ _ _ _ a ha]
    exact hrel_other a hb
  · intro hquiet
    have hq := rx_wait_loop_mem_quiet stream.fd env.with_queue (GET_CURRENT_BUFFER fmt stream)
      env.waits (ring_release_frame mem packet).mem (ring_release_frame mem packet).calls
      hquiet
    rw [hq] at hmem
    refine ⟨?_, ?_, ?_⟩
    · intro hc
      rw [hmem, hext hc]
    · intro hc
      rw [hmem, hnot hc]
    · intro hne
      rw [hmem, hrel_other _ (Ne.symm hne)]

/-- Witness for C27: a packet thread whose packet holds the first frame of the ring and
whose cursor is on the second frame, which the kernel has not filled; `poll` reports the
message queue only.  The read returns `READ_MESSAGE` (-2), the first frame is released
and the cursor stays on the second frame. -/
theorem C27_message_consumes_no_frame_witness :
    (linuxring_read_stream libtrace_consts read_env_message trace_eth0 ring_format_data
      live_stream_second truncated_frame_memory first_frame_packet).exit = .message ∧
    (linuxring_read_stream libtrace_consts read_env_message trace_eth0 ring_format_data
      live_stream_second truncated_frame_memory first_frame_packet).ret = .ok (-2) ∧
    (linuxring_read_stream libtrace_consts read_env_message trace_eth0 ring_format_data
      live_stream_second truncated_frame_memory first_frame_packet).stream.rxring_offset
        = 1 ∧
    ((linuxring_read_stream libtrace_consts read_env_message trace_eth0 ring_format_data
      live_stream_second truncated_frame_memory first_frame_packet).mem 1048576).tp_status
        = 0 ∧
    (truncated_frame_memory 1048576).tp_status = TP_STATUS_USER ∧
    (linuxring_read_stream libtrace_consts read_env_message trace_eth0 ring_format_data
      live_stream_second truncated_frame_memory first_frame_packet).packet.buffer = NULL :=
  ⟨rfl,
    (C27_message_consumes_no_frame libtrace_consts read_env_message trace_eth0
      ring_format_data live_stream_second truncated_frame_memory first_frame_packet rfl).1,
    rfl, rfl, rfl,
    (C27_message_consumes_no_frame libtrace_consts read_env_message trace_eth0
      ring_format_data live_stream_second truncated_frame_memory first_frame_packet
      rfl).2.2.2.1⟩

/-! ## TZSP datagrams (C30) -/

/-- On a buffer that starts with version 1 and whose first tag is the end tag, the payload
starts five bytes into the buffer. -/
theorem tzsplive_get_packet_payload_end_tag (c : Consts) (bytes : ByteMemory)
    (libtrace : libtrace_t) (packet : tzsp_packet_t)
    (hB : packet.buffer ≠ NULL) (hv : bytes packet.buffer = 1)
    (hend : bytes (packet.buffer + 4) = c.TZSP_TAG_END)
    (hfuel : 0 < c.LIBTRACE_PACKET_BUFSIZE) :
    tzsplive_get_packet_payload c bytes libtrace packet =
      (.ok (packet.buffer + 5), libtrace) := by
  obtain ⟨n, hn⟩ : ∃ n, c.LIBTRACE_PACKET_BUFSIZE = n + 1 :=
    ⟨c.LIBTRACE_PACKET_BUFSIZE - 1, by omega⟩
  have hopt : tzsplive_get_option c bytes libtrace packet c.TZSP_TAG_END =
      (.ok (packet.buffer + 4), libtrace) := by
    unfold tzsplive_get_option
    rw [if_neg hB, if_neg (by rw [hv]; exact fun h => h rfl), hn]
    have e4 : sizeof_tzsp_header_t = 4 := rfl
    rw [e4]
    unfold tzsplive_get_option_loop
    rw [if_neg (by rw [hend]; exact fun h => h rfl)]
  unfold tzsplive_get_packet_payload
  simp only [hopt]
  have hne : ¬ packet.buffer + 4 = NULL := by
    unfold NULL
    omega
  rw [if_neg hne]

/-- What lines 373-388 of `tzsplive_read_packet` leave behind for a datagram of `n ≥ 5`
bytes that starts with version 1 and whose first tag is the end tag, read into a packet
that caches no framing length. -/
theorem tzsp_read_datagram_end_tag (c : Consts) (libtrace : libtrace_t)
    (fd : tzsp_format_data_t) (bytes : ByteMemory) (packet : tzsp_packet_t) (n : Nat)
    (calls : List Syscall)
    (hB : packet.buffer ≠ NULL) (hv : bytes packet.buffer = 1)
    (hend : bytes (packet.buffer + 4) = c.TZSP_TAG_END)
    (hfuel : 0 < c.LIBTRACE_PACKET_BUFSIZE)
    (hn : 5 ≤ n) (hn2 : n < 2 ^ 31) (hcache : packet.cached.framing_length < 0) :
    (tzsp_read_datagram c libtrace fd bytes packet (n : Int) calls).ret = .ok (n : Int) ∧
    (tzsp_read_datagram c libtrace fd bytes packet (n : Int) calls).libtrace = libtrace ∧
    (tzsp_read_datagram c libtrace fd bytes packet (n : Int) calls).bytes = bytes ∧
    (tzsp_read_datagram c libtrace fd bytes packet (n : Int) calls).packet =
      { buffer := packet.buffer, header := packet.buffer, payload := packet.buffer + 5,
        buf_control := .TRACE_CTRL_PACKET, type := .TRACE_RT_DATA_TZSP,
        cached := { framing_length := 5, capture_length := ((n - 5 : Nat) : Int) } } := by
  have hpay : ∀ (pl : Nat) (bc : buf_control_t) (ty : libtrace_rt_types_t)
      (ca : libtrace_packet_cache_t),
      tzsplive_get_packet_payload c bytes libtrace
        { buffer := packet.buffer, header := packet.buffer, payload := pl, buf_control := bc,
          type := ty, cached := ca } = (.ok (packet.buffer + 5), libtrace) := by
    intro pl bc ty ca
    exact tzsplive_get_packet_payload_end_tag c bytes libtrace _ hB hv hend hfuel
  have hprep : tzsplive_prepare_packet c bytes libtrace packet packet.buffer
      .TRACE_RT_DATA_TZSP true =
      { ret := .ok 0, libtrace := libtrace,
        packet := { buffer := packet.buffer, header := packet.buffer,
                    payload := packet.buffer + 5, buf_control := .TRACE_CTRL_PACKET,
                    type := .TRACE_RT_DATA_TZSP, cached := packet.cached },
        calls := [] } := by
    unfold tzsplive_prepare_packet
    simp only [hpay]
    simp
  have hne : ¬ packet.buffer + 5 = NULL := by
    unfold NULL
    omega
  have hfr1 : trace_get_framing_length c bytes libtrace
      { buffer := packet.buffer, header := packet.buffer, payload := packet.buffer + 5,
        buf_control := .TRACE_CTRL_PACKET, type := .TRACE_RT_DATA_TZSP,
        cached := packet.cached } =
      { ret := .ok 5, libtrace := libtrace,
        packet := { buffer := packet.buffer, header := packet.buffer,
                    payload := packet.buffer + 5, buf_control := .TRACE_CTRL_PACKET,
                    type := .TRACE_RT_DATA_TZSP,
                    cached := { packet.cached with framing_length := 5 } } } := by
    unfold trace_get_framing_length
    rw [if_neg (by simpa using hcache)]
    unfold tzsplive_get_framing_length
    simp only [hpay]
    rw [if_pos hne]
    have e : ((packet.buffer + 5 : Nat) : Int) - (packet.buffer : Int) = 5 := by
      push_cast
      ring
    simp only [e]
    rfl
  have hfr2 : trace_get_framing_length c bytes libtrace
      { buffer := packet.buffer, header := packet.buffer, payload := packet.buffer + 5,
        buf_control := .TRACE_CTRL_PACKET, type := .TRACE_RT_DATA_TZSP,
        cached := { packet.cached with framing_length := 5 } } =
      { ret := .ok 5, libtrace := libtrace,
        packet := { buffer := packet.buffer, header := packet.buffer,
                    payload := packet.buffer + 5, buf_control := .TRACE_CTRL_PACKET,
                    type := .TRACE_RT_DATA_TZSP,
                    cached := { packet.cached with framing_length := 5 } } } := by
    unfold trace_get_framing_length
    simp only []
    rw [if_pos (by decide)]
    rfl
  have h5 : int_of_size_t ((5 : Nat) : Int) = 5 := rfl
  have hcap : int_of_size_t ((n : Int) - ((5 : Nat) : Int)) = ((n - 5 : Nat) : Int) := by
    unfold int_of_size_t
    have hu : u32_of_int ((n : Int) - ((5 : Nat) : Int)) = n - 5 := by
      unfold u32_of_int
      omega
    rw [hu, int_of_u32_small (by omega)]
  unfold tzsp_read_datagram
  have hlt : ¬ (n : Int) < (sizeof_tzsp_header_t : Int) := by
    have e4 : sizeof_tzsp_header_t = 4 := rfl
    rw [e4]
    omega
  rw [if_neg hlt]
  simp only [hprep, ne_eq, not_true_eq_false, if_false, hfr1, h5, hfr2, hcap,
    List.append_nil]
  exact ⟨trivial, trivial, trivial, trivial⟩

theorem range_map_getElem? (f : Nat → Nat) (m i : Nat) (hi : i < m) :
    ((List.range m).map f)[i]? = some (f i) := by
  simp [List.getElem?_map, List.getElem?_range, hi]

theorem range_map_getD (f : Nat → Nat) (m i : Nat) (hi : i < m) :
    ((List.range m).map f).getD i 0 = f i := by
  rw [List.getD_eq_getElem?_getD, range_map_getElem? f m i hi]
  rfl

/-- The datagram `tzsplive_write_packet` builds for a packet of another format. -/
theorem tzsplive_write_packet_datagram (c : Consts) (env : TzspWriteEnv)
    (libtrace : libtrace_out_t) (out : tzsp_format_data_out_t) (packet : TzspTxPacket)
    (hB : c.LIBTRACE_PACKET_BUFSIZE < 2 ^ 31)
    (hcan : tzsplive_can_write packet.link_type = true) (hfmt : packet.from_tzsplive = false)
    (hmalloc : env.malloc ≠ NULL)
    (hfit : 5 + packet.capture_length ≤ c.LIBTRACE_PACKET_BUFSIZE) :
    (tzsplive_write_packet c env (some libtrace) out packet).datagram =
      some ((List.range (5 + packet.capture_length)).map (tzsp_output_buffer env packet)) ∧
    (tzsplive_write_packet c env (some libtrace) out packet).ret = .ok env.sendto := by
  have hsend : (int_of_u32 (u32 (1 + 1 + 2 + 1 + packet.capture_length))).toNat =
      5 + packet.capture_length := by
    have e : 1 + 1 + 2 + 1 + packet.capture_length = 5 + packet.capture_length := by omega
    rw [e, u32_of_lt (by omega), int_of_u32_small (by omega)]
    rfl
  unfold tzsplive_write_packet
  rw [if_neg (by rw [hcan]; exact fun h => Bool.noConfusion h)]
  simp only [hfmt, Bool.false_eq_true, if_false]
  rw [if_neg hmalloc, if_neg (by omega), hsend]
  exact ⟨rfl, rfl⟩

/-- Round trip of a TZSP datagram that fits the packet buffer.  For a packet of a format
other than TZSP that `tzsplive_can_write` accepts, with captured length `n` such that
`5 + n ≤ LIBTRACE_PACKET_BUFSIZE`, `tzsplive_write_packet` builds a datagram of `5 + n`
bytes: version 1, type 1, the encapsulation in two bytes, one end tag written as 1, then
the `n` payload bytes.  When `TZSP_TAG_END` is 1, `tzsplive_read_packet` receiving that
datagram into a packet with a clear cache returns `5 + n`, `tzsplive_get_packet_payload`
points five bytes into the buffer, the framing length is 5, the cached capture length is
`n`, and the payload bytes are those of the packet written, whatever the encapsulation
value. -/
theorem tzsplive_round_trip (c : Consts) (wenv : TzspWriteEnv) (libtrace_out : libtrace_out_t)
    (out : tzsp_format_data_out_t) (packet : TzspTxPacket) (renv : TzspReadEnv)
    (libtrace : libtrace_t) (fd : tzsp_format_data_t) (bytes : ByteMemory)
    (q : tzsp_packet_t)
    (hend : c.TZSP_TAG_END = 1) (hB : c.LIBTRACE_PACKET_BUFSIZE < 2 ^ 31)
    (hcan : tzsplive_can_write packet.link_type = true) (hfmt : packet.from_tzsplive = false)
    (hmalloc : wenv.malloc ≠ NULL)
    (hfit : 5 + packet.capture_length ≤ c.LIBTRACE_PACKET_BUFSIZE) :
    ∃ d : List Nat,
      (tzsplive_write_packet c wenv (some libtrace_out) out packet).datagram = some d ∧
      d.length = 5 + packet.capture_length ∧
      d[0]? = some 1 ∧ d[1]? = some 1 ∧
      d[2]? = some (packet.tzsp_type / 256 % 256) ∧ d[3]? = some (packet.tzsp_type % 256) ∧
      d[4]? = some 1 ∧
      (∀ i, i < packet.capture_length → d[5 + i]? = some (packet.payload i)) ∧
      (renv.recv = .datagram d →
        (q.buffer = NULL ∨ q.buf_control = .TRACE_CTRL_EXTERNAL → renv.malloc ≠ NULL) →
        q.cached.framing_length < 0 →
        (tzsplive_read_packet c renv libtrace (some fd) bytes q).ret =
          .ok ((5 + packet.capture_length : Nat) : Int) ∧
        (tzsplive_read_packet c renv libtrace (some fd) bytes q).libtrace = libtrace ∧
        (tzsplive_read_packet c renv libtrace (some fd) bytes q).packet.payload =
          (tzsplive_read_packet c renv libtrace (some fd) bytes q).packet.buffer + 5 ∧
        (tzsplive_get_packet_payload c
          (tzsplive_read_packet c renv libtrace (some fd) bytes q).bytes libtrace
          (tzsplive_read_packet c renv libtrace (some fd) bytes q).packet).1 =
            .ok ((tzsplive_read_packet c renv libtrace (some fd) bytes q).packet.buffer + 5) ∧
        (tzsplive_get_framing_length c
          (tzsplive_read_packet c renv libtrace (some fd) bytes q).bytes libtrace
          (tzsplive_read_packet c renv libtrace (some fd) bytes q).packet).1 = .ok 5 ∧
        (tzsplive_read_packet c renv libtrace (some fd) bytes q).packet.cached.framing_length
          = 5 ∧
        tzsplive_get_capture_length
          (tzsplive_read_packet c renv libtrace (some fd) bytes q).packet
            = (packet.capture_length : Int) ∧
        (∀ i, i < packet.capture_length →
          (tzsplive_read_packet c renv libtrace (some fd) bytes q).bytes
            ((tzsplive_read_packet c renv libtrace (some fd) bytes q).packet.payload + i)
              = packet.payload i)) := by
  obtain ⟨hd, _⟩ := tzsplive_write_packet_datagram c wenv libtrace_out out packet hB hcan hfmt
    hmalloc hfit
  have hidx : ∀ i, i < 5 + packet.capture_length →
      ((List.range (5 + packet.capture_length)).map (tzsp_output_buffer wenv packet))[i]? =
        some (tzsp_output_buffer wenv packet i) :=
    fun i hi => range_map_getElem? _ _ i hi
  have hlen : ((List.range (5 + packet.capture_length)).map
      (tzsp_output_buffer wenv packet)).length = 5 + packet.capture_length := by simp
  refine ⟨_, hd, hlen, ?_, ?_, ?_, ?_, ?_, ?_, ?_⟩
  · rw [hidx 0 (by omega)]; rfl
  · rw [hidx 1 (by omega)]; rfl
  · rw [hidx 2 (by omega)]; rfl
  · rw [hidx 3 (by omega)]; rfl
  · rw [hidx 4 (by omega)]; rfl
  · intro i hi
    rw [hidx (5 + i) (by omega)]
    unfold tzsp_output_buffer
    rw [if_neg (by omega), if_neg (by omega), if_neg (by omega), if_neg (by omega),
      if_neg (by omega), if_pos (by omega)]
    congr 2
    omega
  · intro hrecv hbuf hcache
    -- the packet and the buffer content after lines 344-356
    have hq1 : ∃ (q1 : tzsp_packet_t) (b1 : ByteMemory) (calls : List Syscall),
        q1.buffer ≠ NULL ∧ q1.cached = q.cached ∧
        (∀ i, i < 5 + packet.capture_length →
          b1 (q1.buffer + i) = tzsp_output_buffer wenv packet i) ∧
        tzsplive_read_packet c renv libtrace (some fd) bytes q =
          tzsp_read_datagram c libtrace fd b1 q1
            ((5 + packet.capture_length : Nat) : Int) calls := by
      have hbyte : ∀ (base : Nat) (i : Nat), i < 5 + packet.capture_length →
          (if base ≤ base + i ∧ base + i < base + (5 + packet.capture_length) then
            ((List.range (5 + packet.capture_length)).map
              (tzsp_output_buffer wenv packet)).getD (base + i - base) 0
          else bytes (base + i)) = tzsp_output_buffer wenv packet i := by
        intro base i hi
        rw [if_pos ⟨by omega, by omega⟩, Nat.add_sub_cancel_left, range_map_getD _ _ i hi]
      unfold tzsplive_read_packet
      simp only [hrecv, hlen, min_eq_left hfit]
      by_cases hfresh : q.buffer = NULL ∨ q.buf_control = .TRACE_CTRL_EXTERNAL
      · have hm := hbuf hfresh
        simp only [hfresh, decide_True, if_true, hm, and_false, if_false]
        exact ⟨{ q with buffer := renv.malloc }, _, _, hm, rfl, hbyte renv.malloc, rfl⟩
      · have hnn : q.buffer ≠ NULL := fun h => hfresh (Or.inl h)
        simp only [hfresh, decide_False, Bool.false_eq_true, if_false, false_and]
        exact ⟨q, _, _, hnn, rfl, hbyte q.buffer, rfl⟩
    obtain ⟨q1, b1, calls, hq1n, hq1c, hbyte, hread⟩ := hq1
    rw [hread]
    have hv0 : b1 q1.buffer = 1 := hbyte 0 (by omega)
    have hv4 : b1 (q1.buffer + 4) = c.TZSP_TAG_END := by
      rw [hbyte 4 (by omega), hend]
      rfl
    obtain ⟨h1, h2, h3, h4⟩ := tzsp_read_datagram_end_tag c libtrace fd b1 q1
      (5 + packet.capture_length) calls hq1n hv0 hv4 (by omega) (by omega) (by omega)
      (by rw [hq1c]; exact hcache)
    rw [h1, h2, h3, h4]
    have hpay := tzsplive_get_packet_payload_end_tag c b1 libtrace
      { buffer := q1.buffer, header := q1.buffer, payload := q1.buffer + 5,
        buf_control := .TRACE_CTRL_PACKET, type := .TRACE_RT_DATA_TZSP,
        cached := { framing_length := 5,
                    capture_length := ((5 + packet.capture_length - 5 : Nat) : Int) } }
      hq1n hv0 hv4 (by omega)
    refine ⟨rfl, rfl, rfl, ?_, ?_, rfl, ?_, ?_⟩
    · rw [hpay]
    · unfold tzsplive_get_framing_length
      simp only [hpay]
      have hne : ¬ q1.buffer + 5 = NULL := by
        unfold NULL
        omega
      rw [if_pos hne]
      have e : ((q1.buffer + 5 : Nat) : Int) - (q1.buffer : Int) = 5 := by
        push_cast
        ring
      simp only [e]
    · unfold tzsplive_get_capture_length
      simp
    · intro i hi
      have := hbyte (5 + i) (by omega)
      rw [← Nat.add_assoc] at this
      show b1 (q1.buffer + 5 + i) = packet.payload i
      rw [this]
      unfold tzsp_output_buffer
      rw [if_neg (by omega), if_neg (by omega), if_neg (by omega), if_neg (by omega),
        if_neg (by omega), if_pos (by omega)]
      congr 1
      omega

/-- An instance of the round trip: an Ethernet packet with the three payload bytes 170,
171, 172 is written as the datagram `[1, 1, 0, 1, 1, 170, 171, 172]`; read back into a
buffer at 16384 it gives the return value 8, the payload at 16389, the framing length 5
and the captured length 3. -/
theorem tzsplive_round_trip_example :
    libtrace_consts.TZSP_TAG_END = 1 ∧
    (tzsplive_write_packet libtrace_consts tzsp_write_env (some tzsp_trace_out)
      { outsocket := 4 } tzsp_tx_packet).datagram = some tzsp_datagram ∧
    (tzsplive_read_packet libtrace_consts tzsp_read_env tzsp_trace (some { socket := 5 })
      (fun _ => 0) tzsp_empty_packet).ret = .ok 8 ∧
    (tzsplive_read_packet libtrace_consts tzsp_read_env tzsp_trace (some { socket := 5 })
      (fun _ => 0) tzsp_empty_packet).packet.payload = 16384 + 5 ∧
    tzsplive_get_capture_length
      (tzsplive_read_packet libtrace_consts tzsp_read_env tzsp_trace (some { socket := 5 })
        (fun _ => 0) tzsp_empty_packet).packet = 3 ∧
    (tzsplive_read_packet libtrace_consts tzsp_read_env tzsp_trace (some { socket := 5 })
      (fun _ => 0) tzsp_empty_packet).bytes 16390 = 171 := by
  obtain ⟨d, hd, _, _, _, _, _, _, _, hread⟩ :=
    tzsplive_round_trip libtrace_consts tzsp_write_env tzsp_trace_out { outsocket := 4 }
      tzsp_tx_packet tzsp_read_env tzsp_trace { socket := 5 } (fun _ => 0) tzsp_empty_packet
      rfl (by decide) rfl rfl (by decide) (by decide)
  have hw : (tzsplive_write_packet libtrace_consts tzsp_write_env (some tzsp_trace_out)
      { outsocket := 4 } tzsp_tx_packet).datagram = some tzsp_datagram := rfl
  have hdd : d = tzsp_datagram := by
    rw [hw] at hd
    exact (Option.some.inj hd).symm
  subst hdd
  obtain ⟨h1, _, h3, _, _, _, h7, _⟩ := hread rfl (fun _ => by decide) (by decide)
  exact ⟨rfl, hw, h1, h3, h7, rfl⟩


/-- C30 (defect of the code): a packet of another format with a captured length of 65532
bytes, which `tzsplive_can_write` accepts.  `tzsplive_write_packet` allocates
`LIBTRACE_PACKET_BUFSIZE` = 65536 bytes and copies the five bytes of TZSP framing and the
65532 payload bytes into them without a check (lines 449-458): the copy runs past the end
of the buffer, and no datagram of `5 + 65532` bytes is handed over to be read back. -/
theorem C30_write_overruns_buffer :
    tzsplive_can_write tzsp_tx_packet_large.link_type = true ∧
    tzsp_tx_packet_large.from_tzsplive = false ∧
    tzsp_tx_packet_large.capture_length = 65532 ∧
    libtrace_consts.LIBTRACE_PACKET_BUFSIZE < 5 + tzsp_tx_packet_large.capture_length ∧
    (tzsplive_write_packet libtrace_consts tzsp_write_env (some tzsp_trace_out)
      { outsocket := 4 } tzsp_tx_packet_large).ret = .error .buffer_overflow ∧
    (tzsplive_write_packet libtrace_consts tzsp_write_env (some tzsp_trace_out)
      { outsocket := 4 } tzsp_tx_packet_large).datagram = none :=
  ⟨rfl, rfl, rfl, by decide, rfl, rfl⟩

end Libtrace
